import Mathlib

/-! DLRMS browser controllers.

A shallow embedding of the controllers shipped under
`dlrms_project/static/js/`:

* `certificate_verification.js` : class `CertificateVerifier`
* `r_management.js`             : class `UserManagement`
* `signature-component.js`      : class `SignatureManager`

JavaScript values are embedded by `JSVal`; a page is a record of the DOM
facts a controller reads or writes, together with a trace (`log`) of the
observable effects in program order.  Whatever the environment decides (the
answer to `confirm`, the outcome of a `fetch`) is an explicit argument.  An
`async` method is embedded by the page it leaves when its promise settles;
a call that is not awaited contributes what it does up to its first `await`.

Scope of the embedding: strings are sequences of Unicode code points, numbers
are the integers that print as plain decimal digits (magnitude below `10^21`),
`innerHTML` is kept as text, and of the document only the children of the
parent of the form are represented.  The templates that render server data
(`generateResultsHTML`, `generateUserRow`) convert with `JSVal.print`, which
throws where ToString does; where a handler interpolates its own argument (the
user id in a request URL, the message of a notification) the value is taken to
be one that prints, and its text is `JSVal.toStr`.
-/

namespace DLRMS

/-! ## JavaScript values -/

/-- Values a handler can meet: the JSON values a server response parses to,
plus `undefined` for absent properties.  Numbers are integers of magnitude
below `10^21`, which `Number.prototype.toString` prints as decimal digits. -/
inductive JSVal where
  | undefined
  | null
  | bool (b : Bool)
  | num (n : Int)
  | str (s : String)
  | arr (items : List JSVal)
  | obj (fields : List (String × JSVal))

/-- Exceptions raised by the platform or by the code itself. -/
inductive JSError where
  | typeError
  | uriError
  | syntaxError
  | networkError
  | httpError (status : Nat)
  deriving DecidableEq, Repr

/-- ToBoolean. -/
def JSVal.truthy : JSVal → Bool
  | .undefined => false
  | .null => false
  | .bool b => b
  | .num n => n != 0
  | .str s => s != ""
  | .arr _ => true
  | .obj _ => true

/-- The operator `a || b`. -/
def JSVal.or (a b : JSVal) : JSVal := if a.truthy then a else b

/-- The operator `a && b`. -/
def JSVal.and (a b : JSVal) : JSVal := if a.truthy then b else a

/-- Own-property lookup in a property list; an absent key reads `undefined`. -/
def lookupField (k : String) : List (String × JSVal) → JSVal
  | [] => .undefined
  | (k', v) :: rest => if k' = k then v else lookupField k rest

/-- Property read `v.k` for a data property `k`.  Reading a property of
`undefined` or `null` throws a TypeError; arrays and strings answer `length`;
every other absent property reads `undefined`. -/
def JSVal.get (v : JSVal) (k : String) : Except JSError JSVal :=
  match v with
  | .undefined => .error .typeError
  | .null => .error .typeError
  | .obj fields => .ok (lookupField k fields)
  | .arr items => .ok (if k = "length" then .num items.length else .undefined)
  | .str s => .ok (if k = "length" then .num s.length else .undefined)
  | .bool _ => .ok .undefined
  | .num _ => .ok .undefined

mutual
/-- The string ToString returns, as applied by a template literal and by
string `+`, for a value whose conversion returns (`JSVal.printable`); the
conversion together with its exception is `JSVal.print`. -/
def JSVal.toStr : JSVal → String
  | .undefined => "undefined"
  | .null => "null"
  | .bool b => if b then "true" else "false"
  | .num n => toString n
  | .str s => s
  | .arr items => joinComma items
  | .obj _ => "[object Object]"
/-- Array.prototype.join with the default separator: `null` and `undefined`
elements contribute the empty string. -/
def joinComma : List JSVal → String
  | [] => ""
  | v :: rest =>
    (match v with
     | .undefined => ""
     | .null => ""
     | w => JSVal.toStr w)
    ++ (match rest with
        | [] => ""
        | _ :: _ => ",")
    ++ joinComma rest
end

mutual
/-- Does ToString return for this value?  A parsed object converts through
`Object.prototype.toString` unless it has an own property `toString`: that
property holds data, is not callable, and neither it nor `valueOf` yields a
primitive, so the conversion throws.  An array converts through `join`, which
converts each element. -/
def JSVal.printable : JSVal → Bool
  | .obj fields => !(fields.any (fun field => field.1 == "toString"))
  | .arr items => printableItems items
  | _ => true
/-- Does ToString return for every element? -/
def printableItems : List JSVal → Bool
  | [] => true
  | v :: rest => JSVal.printable v && printableItems rest
end

/-- ToString with its exception: what an interpolation `${v}` or a string
`+` evaluates to. -/
def JSVal.print (v : JSVal) : Except JSError String :=
  if v.printable then .ok v.toStr else .error .typeError

/-- WhiteSpace and LineTerminator code points, the set removed by
`String.prototype.trim`. -/
def isJSWhitespace (c : Char) : Bool :=
  let n := c.toNat
  n == 0x09 || n == 0x0A || n == 0x0B || n == 0x0C || n == 0x0D || n == 0x20
    || n == 0xA0 || n == 0x1680 || (decide (0x2000 ≤ n) && decide (n ≤ 0x200A))
    || n == 0x2028 || n == 0x2029 || n == 0x202F || n == 0x205F || n == 0x3000
    || n == 0xFEFF

/-- Trim on character lists. -/
def trimChars (cs : List Char) : List Char :=
  ((cs.dropWhile isJSWhitespace).reverse.dropWhile isJSWhitespace).reverse

/-- The method `String.prototype.trim`. -/
def jsTrim (s : String) : String := ⟨trimChars s.data⟩

/-- Worker of `jsSplit`: `cur` is the piece being read (reversed), `skip` the
number of separator characters still to pass over. -/
def splitAux (sep : List Char) : List Char → List Char → Nat → List (List Char)
  | [], cur, _ => [cur.reverse]
  | _ :: cs, cur, skip + 1 => splitAux sep cs cur skip
  | c :: cs, cur, 0 =>
    if sep.isPrefixOf (c :: cs) then cur.reverse :: splitAux sep cs [] (sep.length - 1)
    else splitAux sep cs (c :: cur) 0

/-- The method `String.prototype.split` for a non-empty separator. -/
def jsSplit (s sep : String) : List String :=
  (splitAux sep.data s.data [] 0).map String.mk

/-- The method `String.prototype.startsWith`. -/
def jsStartsWith (s pre : String) : Bool := pre.data.isPrefixOf s.data

/-- The call `s.substring(0, n)`. -/
def jsSubstringTo (s : String) (n : Nat) : String := ⟨s.data.take n⟩

/-- The call `s.substring(n)`. -/
def jsSubstringFrom (s : String) (n : Nat) : String := ⟨s.data.drop n⟩

/-- Value of a hexadecimal digit. -/
def hexVal (c : Char) : Option Nat :=
  if c.isDigit then some (c.toNat - 48)
  else if decide ('a' ≤ c) && decide (c ≤ 'f') then some (c.toNat - 87)
  else if decide ('A' ≤ c) && decide (c ≤ 'F') then some (c.toNat - 55)
  else none

/-- Leading decimal digits of the input, and what follows them. -/
def spanDigits : List Char → List Char × List Char
  | [] => ([], [])
  | c :: cs =>
    if c.isDigit then ((c :: (spanDigits cs).1), (spanDigits cs).2)
    else ([], c :: cs)

/-- The number written by decimal digits. -/
def digitsNat (ds : List Char) : Nat :=
  ds.foldl (fun acc c => 10 * acc + (c.toNat - 48)) 0

/-- Are these one or more decimal digits? -/
def isDecimalDigits (ds : List Char) : Bool := !ds.isEmpty && ds.all Char.isDigit

/-- ExponentPart closing a StrDecimalLiteral: the exponent, `0` when nothing
follows the digits, `none` when what follows is not an exponent part. -/
def exponentPart : List Char → Option Int
  | [] => some 0
  | c :: rest =>
    if c == 'e' || c == 'E' then
      match rest with
      | '-' :: ds => if isDecimalDigits ds then some (- (digitsNat ds : Int)) else none
      | '+' :: ds => if isDecimalDigits ds then some (digitsNat ds : Int) else none
      | ds => if isDecimalDigits ds then some (digitsNat ds : Int) else none
    else none

/-- Is the Number nearest to `m * 10 ^ k` above zero?  A positive value at or
below `2 ^ (-1075)`, half the least subnormal, rounds to zero. -/
def roundsAboveZero (m : Nat) (k : Int) : Bool :=
  decide (0 < m) && (decide (0 ≤ k) || decide (10 ^ k.natAbs < m * 2 ^ 1075))

/-- Is the input a StrUnsignedDecimalLiteral denoting a Number above zero:
`Infinity`, or digits with an optional fraction and exponent. -/
def unsignedDecimalGtZero (cs : List Char) : Bool :=
  if cs = ['I', 'n', 'f', 'i', 'n', 'i', 't', 'y'] then true
  else
    let whole := spanDigits cs
    let fraction :=
      match whole.2 with
      | '.' :: rest => spanDigits rest
      | rest => ([], rest)
    if whole.1.isEmpty && fraction.1.isEmpty then false
    else
      match exponentPart fraction.2 with
      | none => false
      | some e => roundsAboveZero (digitsNat (whole.1 ++ fraction.1)) (e - fraction.1.length)

/-- Are these one or more digits of the radix, not all of them zero? -/
def radixDigitsGtZero (radix : Nat) (ds : List Char) : Bool :=
  !ds.isEmpty
    && ds.all (fun c =>
        match hexVal c with
        | some d => decide (d < radix)
        | none => false)
    && ds.any (fun c => c != '0')

/-- The comparison `s > 0` for a string: StringToNumber ignores surrounding
white space, reads the empty string as `0`, a signed decimal literal or an
unsigned literal in radix 16, 8 or 2, and anything else as NaN. -/
def stringGtZero (s : String) : Bool :=
  match trimChars s.data with
  | [] => false
  | '-' :: _ => false
  | '+' :: rest => unsignedDecimalGtZero rest
  | '0' :: c :: ds =>
    if c == 'x' || c == 'X' then radixDigitsGtZero 16 ds
    else if c == 'o' || c == 'O' then radixDigitsGtZero 8 ds
    else if c == 'b' || c == 'B' then radixDigitsGtZero 2 ds
    else unsignedDecimalGtZero ('0' :: c :: ds)
  | cs => unsignedDecimalGtZero cs

/-- The comparison `v > 0`: ToNumber of the operand, which throws where
ToString of an object or array does, compared with zero. -/
def JSVal.gtZero (v : JSVal) : Except JSError Bool :=
  match v with
  | .undefined => .ok false
  | .null => .ok false
  | .bool b => .ok b
  | .num n => .ok (decide (0 < n))
  | .str s => .ok (stringGtZero s)
  | .arr items =>
    if printableItems items then .ok (stringGtZero (joinComma items)) else .error .typeError
  | .obj fields =>
    if (JSVal.obj fields).printable then .ok false else .error .typeError

/-- Where the percent-decoder stands inside an escape sequence.  `octets` are
the bytes of the current UTF-8 sequence read so far, `need` the number of
bytes still missing (`0` while the lead byte is being read). -/
inductive PctMode where
  | plain
  | hex1 (octets : List Nat) (need : Nat)
  | hex2 (octets : List Nat) (need : Nat) (hi : Nat)
  | pct (octets : List Nat) (need : Nat)

/-- Code point of a complete UTF-8 byte sequence; `none` when the sequence is
overlong, encodes a surrogate or exceeds U+10FFFF. -/
def utf8CodePoint : List Nat → Option Char
  | [b0, b1] =>
    let cp := (b0 % 32) * 64 + b1 % 64
    if 0x80 ≤ cp then some (Char.ofNat cp) else none
  | [b0, b1, b2] =>
    let cp := (b0 % 16) * 4096 + (b1 % 64) * 64 + b2 % 64
    if 0x800 ≤ cp ∧ ¬ (0xD800 ≤ cp ∧ cp ≤ 0xDFFF) then some (Char.ofNat cp) else none
  | [b0, b1, b2, b3] =>
    let cp := (b0 % 8) * 262144 + (b1 % 64) * 4096 + (b2 % 64) * 64 + b3 % 64
    if 0x10000 ≤ cp ∧ cp ≤ 0x10FFFF then some (Char.ofNat cp) else none
  | _ => none

/-- One decoded byte `b` has been read in full. -/
def pctByte (acc : List Char) (octets : List Nat) (need : Nat) (b : Nat) :
    Except JSError (List Char × PctMode) :=
  match octets with
  | [] =>
    if b < 0x80 then .ok (Char.ofNat b :: acc, .plain)
    else if b < 0xC0 then .error .uriError
    else if b < 0xE0 then .ok (acc, .pct [b] 1)
    else if b < 0xF0 then .ok (acc, .pct [b] 2)
    else if b < 0xF8 then .ok (acc, .pct [b] 3)
    else .error .uriError
  | _ :: _ =>
    if 0x80 ≤ b ∧ b < 0xC0 then
      match need with
      | 0 => .error .uriError
      | 1 =>
        match utf8CodePoint (octets ++ [b]) with
        | some c => .ok (c :: acc, .plain)
        | none => .error .uriError
      | n + 2 => .ok (acc, .pct (octets ++ [b]) (n + 1))
    else .error .uriError

/-- One character of input to the percent-decoder. -/
def pctStep (st : List Char × PctMode) (c : Char) : Except JSError (List Char × PctMode) :=
  match st.2 with
  | .plain => if c = '%' then .ok (st.1, .hex1 [] 0) else .ok (c :: st.1, .plain)
  | .pct octets need => if c = '%' then .ok (st.1, .hex1 octets need) else .error .uriError
  | .hex1 octets need =>
    match hexVal c with
    | some hi => .ok (st.1, .hex2 octets need hi)
    | none => .error .uriError
  | .hex2 octets need hi =>
    match hexVal c with
    | some lo => pctByte st.1 octets need (16 * hi + lo)
    | none => .error .uriError

/-- Run the percent-decoder over the input. -/
def pctRun : List Char → List Char × PctMode → Except JSError (List Char)
  | [], (acc, .plain) => .ok acc.reverse
  | [], _ => .error .uriError
  | c :: cs, st =>
    match pctStep st c with
    | .ok st' => pctRun cs st'
    | .error e => .error e

/-- The global function `decodeURIComponent`: every `%XX` escape is replaced by
the character its UTF-8 byte sequence encodes; a malformed escape throws a
URIError. -/
def decodeURIComponent (s : String) : Except JSError String :=
  (pctRun s.data ([], .plain)).map String.mk

end DLRMS

namespace DLRMS

/-! ## Effects and page state shared by the controllers -/

/-- Outgoing HTTP request.  Query parameters, headers and form fields are kept
as the name and value pairs handed to `URLSearchParams`, to the `headers`
option and to `FormData`; their wire serialisation is the platform's. -/
structure Request where
  method : String
  url : String
  query : List (String × String)
  headers : List (String × JSVal)
  form : List (String × String)

/-- What the environment answers to a `fetch` followed by `response.json()`:
the request fails, or a response with an HTTP status arrives whose body parses
to a value (`some`) or is not JSON (`none`). -/
inductive FetchOutcome where
  | networkError
  | response (status : Nat) (body : Option JSVal)

/-- The getter `response.ok`. -/
def statusOk (status : Nat) : Bool := decide (200 ≤ status) && decide (status ≤ 299)

/-- Work handed to `setTimeout`. -/
inductive TimerAction where
  | navigate (url : JSVal)
  | removeNotification (message : JSVal) (type : String)
  | renderInlineQR (url : JSVal)

/-- Observable effects, recorded in program order. -/
inductive Event where
  | preventDefault
  | showLoading
  | hideLoading
  | confirm (prompt : String) (answer : Bool)
  | fetch (req : Request)
  | notify (message : JSVal) (type : String)
  | setTimeout (action : TimerAction) (delay : Nat)
  | consoleError (label : String) (err : JSError)
  | scrollIntoView (id : String)

/-- Notification element on the page: the message handed to the controller's
notification method and its type (`success`, `error` or `info`), which fixes
the colours and the icon. -/
structure Notification where
  message : JSVal
  type : String

/-- Element of the document, as far as the controllers look at it. -/
structure Elem where
  id : String
  className : String
  innerHTML : String

/-- The submit button: its `disabled` flag and its content. -/
structure Button where
  disabled : Bool
  content : String

/-- Is there an element with this id? -/
def hasId (id : String) (es : List Elem) : Bool := es.any (fun e => e.id == id)

/-- Number of elements with this id. -/
def countId (id : String) (es : List Elem) : Nat := (es.filter (fun e => e.id == id)).length

/-- Assign `innerHTML` of the first element with this id. -/
def setInnerHTML (id html : String) : List Elem → List Elem
  | [] => []
  | e :: es =>
    if e.id == id then { e with innerHTML := html } :: es
    else e :: setInnerHTML id html es

/-- Requests among a list of events. -/
def requestsOf : List Event → List Request
  | [] => []
  | .fetch r :: es => r :: requestsOf es
  | _ :: es => requestsOf es

/-- Notifications raised among a list of events. -/
def notificationsOf : List Event → List Notification
  | [] => []
  | .notify m t :: es => ⟨m, t⟩ :: notificationsOf es
  | _ :: es => notificationsOf es

/-- Navigations scheduled among a list of events, with their delays. -/
def navigationsOf : List Event → List (JSVal × Nat)
  | [] => []
  | .setTimeout (.navigate url) d :: es => (url, d) :: navigationsOf es
  | _ :: es => navigationsOf es

/-- Entries to (`true`) and exits from (`false`) the loading state among a list
of events. -/
def loadingTrace : List Event → List Bool
  | [] => []
  | .showLoading :: es => true :: loadingTrace es
  | .hideLoading :: es => false :: loadingTrace es
  | _ :: es => loadingTrace es

/-- Evaluate an expression on page `p`: a throw is recorded with the page as
it stands. -/
def liftAt {σ α : Type} (p : σ) : Except JSError α → Except (σ × JSError) α
  | .ok a => .ok a
  | .error e => .error (p, e)

/-- Conversion applied by the setter of `textContent`: `null` and `undefined`
give the empty text, any other value its string. -/
def textContentOf : JSVal → String
  | .undefined => ""
  | .null => ""
  | v => v.toStr

end DLRMS

namespace DLRMS

/-! ## CertificateVerifier (`certificate_verification.js`) -/

/-- The page a `CertificateVerifier` is bound to.  `before` and `after` are the
elements preceding and following the form `#verifyForm` under its parent, in
document order; `hasForm`, `submitButton` and `loadingHidden` stand for
`this.form`, `this.submitButton` and `this.loadingMessage` (whether its class
list holds `hidden`), each absent when the lookup in the constructor found
nothing.  `certificateInput` is the value of `#certificate_number`. -/
structure VerifierPage where
  pathname : String
  cookie : String
  qrcodeDefined : Bool
  certificateInput : Option String
  hasForm : Bool
  submitButton : Option Button
  loadingHidden : Option Bool
  before : List Elem
  after : List Elem
  notifications : List Notification
  log : List Event

/-- A throw inside a handler, with the page as it stands at the throw. -/
abbrev Thrown := VerifierPage × JSError

/-- Append an event to the trace. -/
def VerifierPage.emit (p : VerifierPage) (e : Event) : VerifierPage :=
  { p with log := p.log ++ [e] }

/-- The page an attempt ends on, whether it returned or threw. -/
def pageOf : Except Thrown VerifierPage → VerifierPage
  | .ok p => p
  | .error (p, _) => p

/-- Page `q` is reached from `p` by steps that leave the button and the loading
message alone and record no entry to or exit from the loading state. -/
def KeepsLoading (p q : VerifierPage) : Prop :=
  q.submitButton = p.submitButton ∧ q.loadingHidden = p.loadingHidden
    ∧ ∃ events, q.log = p.log ++ events ∧ loadingTrace events = []

namespace CertificateVerifier

/-- The literal assigned to the button by `showLoading`. -/
def loadingButtonHTML : String :=
  "\n" ++
  "                <svg class=\"animate-spin -ml-1 mr-3 h-5 w-5 text-white inline\" xmlns=\"http://www.w3.org/2000/svg\" fill=\"none\" viewBox=\"0 0 24 24\">\n" ++
  "                    <circle class=\"opacity-25\" cx=\"12\" cy=\"12\" r=\"10\" stroke=\"currentColor\" stroke-width=\"4\"></circle>\n" ++
  "                    <path class=\"opacity-75\" fill=\"currentColor\" d=\"M4 12a8 8 0 018-8V0C5.373 0 0 5.373 0 12h4zm2 5.291A7.962 7.962 0 014 12H0c0 3.042 1.135 5.824 3 7.938l3-2.647z\"></path>\n" ++
  "                </svg>\n" ++
  "                Verifying...\n" ++
  "            "

/-! Constant pieces of the template literal of `generateResultsHTML`, cut at
its interpolations. -/

def resultsTpl0 : String :=
  "\n" ++
  "            <div class=\"bg-white rounded-lg shadow-sm p-8 max-w-2xl mx-auto\">\n" ++
  "                <div class=\"text-center mb-6\">\n" ++
  "                    <div class=\"mx-auto w-16 h-16 bg-green-100 rounded-full flex items-center justify-center mb-4\">\n" ++
  "                        <svg class=\"w-8 h-8 text-green-600\" fill=\"none\" stroke=\"currentColor\" viewBox=\"0 0 24 24\">\n" ++
  "                            <path stroke-linecap=\"round\" stroke-linejoin=\"round\" stroke-width=\"2\" d=\"M9 12l2 2 4-4m6 2a9 9 0 11-18 0 9 9 0 0118 0z\"></path>\n" ++
  "                        </svg>\n" ++
  "                    </div>\n" ++
  "                    <h2 class=\"text-2xl font-bold text-gray-900\">Certificate Verified</h2>\n" ++
  "                    <p class=\"mt-2 text-gray-600\">This certificate is authentic and valid</p>\n" ++
  "                </div>\n" ++
  "                \n" ++
  "                <div class=\"border-t border-gray-200 pt-6\">\n" ++
  "                    <h3 class=\"text-lg font-semibold text-gray-900 mb-4\">Certificate Details</h3>\n" ++
  "                    <div class=\"grid grid-cols-1 md:grid-cols-2 gap-4\">\n" ++
  "                        <div>\n" ++
  "                            <label class=\"text-sm font-medium text-gray-500\">Certificate Number</label>\n" ++
  "                            <p class=\"mt-1 text-gray-900 font-mono\">"

def resultsTpl1 : String :=
  "</p>\n" ++
  "                        </div>\n" ++
  "                        <div>\n" ++
  "                            <label class=\"text-sm font-medium text-gray-500\">Type</label>\n" ++
  "                            <p class=\"mt-1 text-gray-900\">"

def resultsTpl2 : String :=
  "</p>\n" ++
  "                        </div>\n" ++
  "                        <div>\n" ++
  "                            <label class=\"text-sm font-medium text-gray-500\">Owner</label>\n" ++
  "                            <p class=\"mt-1 text-gray-900 font-medium\">"

def resultsTpl3 : String :=
  "</p>\n" ++
  "                        </div>\n" ++
  "                        <div>\n" ++
  "                            <label class=\"text-sm font-medium text-gray-500\">Issue Date</label>\n" ++
  "                            <p class=\"mt-1 text-gray-900\">"

def resultsTpl4 : String :=
  "</p>\n" ++
  "                        </div>\n" ++
  "                        <div>\n" ++
  "                            <label class=\"text-sm font-medium text-gray-500\">Status</label>\n" ++
  "                            <p class=\"mt-1\">\n" ++
  "                                "

def resultsTpl5 : String :=
  "\n" ++
  "                            </p>\n" ++
  "                        </div>\n" ++
  "                        <div>\n" ++
  "                            <label class=\"text-sm font-medium text-gray-500\">Expiry Date</label>\n" ++
  "                            <p class=\"mt-1 text-gray-900\">"

def resultsTpl6 : String :=
  "</p>\n" ++
  "                        </div>\n" ++
  "                    </div>\n" ++
  "                    \n" ++
  "                    "

def propertyTpl0 : String :=
  "\n" ++
  "                        <div class=\"mt-6\">\n" ++
  "                            <h4 class=\"text-md font-semibold text-gray-900 mb-3\">Property Information</h4>\n" ++
  "                            <div class=\"grid grid-cols-1 md:grid-cols-2 gap-4\">\n" ++
  "                                <div>\n" ++
  "                                    <label class=\"text-sm font-medium text-gray-500\">Address</label>\n" ++
  "                                    <p class=\"mt-1 text-gray-900\">"

def propertyTpl1 : String :=
  "</p>\n" ++
  "                                </div>\n" ++
  "                                <div>\n" ++
  "                                    <label class=\"text-sm font-medium text-gray-500\">Size</label>\n" ++
  "                                    <p class=\"mt-1 text-gray-900\">"

def propertyTpl2 : String :=
  "</p>\n" ++
  "                                </div>\n" ++
  "                                <div>\n" ++
  "                                    <label class=\"text-sm font-medium text-gray-500\">Use Type</label>\n" ++
  "                                    <p class=\"mt-1 text-gray-900\">"

def propertyTpl3 : String :=
  "</p>\n" ++
  "                                </div>\n" ++
  "                                <div>\n" ++
  "                                    <label class=\"text-sm font-medium text-gray-500\">Location</label>\n" ++
  "                                    <p class=\"mt-1 text-gray-900\">\n" ++
  "                                        "

def propertyTpl4 : String :=
  ", \n" ++
  "                                        "

def propertyTpl5 : String :=
  ", \n" ++
  "                                        "

def propertyTpl6 : String :=
  "\n" ++
  "                                    </p>\n" ++
  "                                </div>\n" ++
  "                            </div>\n" ++
  "                        </div>\n" ++
  "                    "

def resultsTpl7 : String :=
  "\n" ++
  "                    \n" ++
  "                    "

def signaturesTpl0 : String :=
  "\n" ++
  "                        <div class=\"mt-6\">\n" ++
  "                            <h4 class=\"text-md font-semibold text-gray-900 mb-3\">Digital Signatures</h4>\n" ++
  "                            <div class=\"space-y-3\">\n" ++
  "                                "

def signatureTpl0 : String :=
  "\n" ++
  "                                    <div class=\"border border-gray-200 rounded-lg p-3\">\n" ++
  "                                        <div class=\"flex justify-between items-start\">\n" ++
  "                                            <div>\n" ++
  "                                                <p class=\"font-medium text-gray-900\">"

def signatureTpl1 : String :=
  "</p>\n" ++
  "                                                <p class=\"text-sm text-gray-500\">"

def signatureTpl2 : String :=
  "</p>\n" ++
  "                                            </div>\n" ++
  "                                            <span class=\"px-2 py-1 text-xs font-medium rounded-full bg-green-100 text-green-800\">\n" ++
  "                                                Verified\n" ++
  "                                            </span>\n" ++
  "                                        </div>\n" ++
  "                                        <div class=\"mt-2 text-sm text-gray-600\">\n" ++
  "                                            <p>Signed: "

def signatureTpl3 : String :=
  "</p>\n" ++
  "                                            <p>Signature ID: \n" ++
  "                                                <span class=\"font-mono text-xs bg-gray-100 px-2 py-1 rounded\">\n" ++
  "                                                    "

def signatureTpl4 : String :=
  "\n" ++
  "                                                </span>\n" ++
  "                                            </p>\n" ++
  "                                            "

def hashTpl0 : String :=
  "\n" ++
  "                                                <p>Hash: \n" ++
  "                                                    <span class=\"font-mono text-xs bg-gray-100 px-2 py-1 rounded\">\n" ++
  "                                                        "

def hashTpl1 : String :=
  "...\n" ++
  "                                                    </span>\n" ++
  "                                                </p>\n" ++
  "                                            "

def signatureTpl5 : String :=
  "\n" ++
  "                                        </div>\n" ++
  "                                    </div>\n" ++
  "                                "

def signaturesTpl1 : String :=
  "\n" ++
  "                            </div>\n" ++
  "                        </div>\n" ++
  "                    "

def resultsTpl8 : String :=
  "\n" ++
  "                    \n" ++
  "                    <div class=\"mt-6 flex items-center justify-center\">\n" ++
  "                        <div class=\"text-center\">\n" ++
  "                            <div id=\"inlineQRCode\" class=\"inline-block p-4 bg-gray-100 rounded-lg mb-2\"></div>\n" ++
  "                            <p class=\"text-sm text-gray-600\">Scan QR code to verify</p>\n" ++
  "                        </div>\n" ++
  "                    </div>\n" ++
  "                    \n" ++
  "                    <div class=\"mt-6 flex flex-col sm:flex-row gap-3 justify-center\">\n" ++
  "                        <a href=\""

def resultsTpl9 : String :=
  "\" target=\"_blank\"\n" ++
  "                           class=\"px-4 py-2 bg-blue-600 text-white rounded-lg hover:bg-blue-700 transition-colors text-center\">\n" ++
  "                            View Full Details\n" ++
  "                        </a>\n" ++
  "                        <button onclick=\"window.print()\" \n" ++
  "                                class=\"px-4 py-2 bg-gray-600 text-white rounded-lg hover:bg-gray-700 transition-colors\">\n" ++
  "                            Print Certificate\n" ++
  "                        </button>\n" ++
  "                    </div>\n" ++
  "                </div>\n" ++
  "            </div>\n" ++
  "        "

/-- Badge of a valid certificate. -/
def validBadge : String :=
  "<span class=\"px-3 py-1 text-sm font-medium rounded-full bg-green-100 text-green-800\">Valid</span>"

/-- Opening tag of the badge showing the status of a certificate that is not valid. -/
def statusBadgeOpen : String :=
  "<span class=\"px-3 py-1 text-sm font-medium rounded-full bg-red-100 text-red-800\">"

/-- The call `v.substring(0, 20)`: only strings have the method. -/
def substring20 (v : JSVal) : Except JSError String :=
  match v with
  | .str s => .ok (jsSubstringTo s 20)
  | _ => .error .typeError

/-- Body of the arrow function mapped over `certificate.signatures`. -/
def signatureHTML (signature : JSVal) : Except JSError String := do
  let signer_name ← signature.get "signer_name"
  let signerText ← signer_name.print
  let role ← signature.get "role"
  let roleText ← role.print
  let signed_at ← signature.get "signed_at"
  let signedText ← signed_at.print
  let signature_id ← signature.get "signature_id"
  let shownId ← if signature_id.truthy then pure signature_id else signature.get "id"
  let idText ← shownId.print
  let document_hash ← signature.get "document_hash"
  let hashPart ←
    if document_hash.truthy then do
      let head ← substring20 document_hash
      pure (hashTpl0 ++ head ++ hashTpl1)
    else pure ""
  pure (signatureTpl0 ++ signerText ++ signatureTpl1 ++ roleText ++ signatureTpl2
    ++ signedText ++ signatureTpl3 ++ idText ++ signatureTpl4 ++ hashPart
    ++ signatureTpl5)

/-- The expression `certificate.signatures.map(...).join('')` on the items of an array. -/
def signatureItems : List JSVal → Except JSError String
  | [] => pure ""
  | signature :: rest => do
    let item ← signatureHTML signature
    let others ← signatureItems rest
    pure (item ++ others)

/-- The interpolation guarded by `certificate.signatures && certificate.signatures.length > 0`. -/
def signaturesSection (certificate : JSVal) : Except JSError String := do
  let signatures ← certificate.get "signatures"
  if signatures.truthy then
    let length ← signatures.get "length"
    let positive ← length.gtZero
    if positive then
      match signatures with
      | .arr items => do
        let inner ← signatureItems items
        pure (signaturesTpl0 ++ inner ++ signaturesTpl1)
      | _ => throw .typeError
    else pure ""
  else pure ""

/-- The interpolation guarded by `certificate.property_details`. -/
def propertySection (certificate : JSVal) : Except JSError String := do
  let property_details ← certificate.get "property_details"
  if property_details.truthy then
    let address ← property_details.get "address"
    let addressText ← address.print
    let size ← property_details.get "size"
    let sizeText ← size.print
    let use_type ← property_details.get "use_type"
    let useText ← use_type.print
    let location ← property_details.get "location"
    let district ← location.get "district"
    let districtText ← district.print
    let sector ← location.get "sector"
    let sectorText ← sector.print
    let cell ← location.get "cell"
    let cellText ← cell.print
    pure (propertyTpl0 ++ addressText ++ propertyTpl1 ++ sizeText ++ propertyTpl2
      ++ useText ++ propertyTpl3 ++ districtText ++ propertyTpl4 ++ sectorText
      ++ propertyTpl5 ++ cellText ++ propertyTpl6)
  else pure ""

/-- The interpolation choosing between the `Valid` badge and the status badge. -/
def statusBadge (certificate : JSVal) : Except JSError String := do
  let is_valid ← certificate.get "is_valid"
  if is_valid.truthy then pure validBadge
  else do
    let status ← certificate.get "status"
    let statusText ← status.print
    pure (statusBadgeOpen ++ statusText ++ "</span>")

/-- The method `generateResultsHTML(certificate)`. -/
def generateResultsHTML (certificate : JSVal) : Except JSError String := do
  let number ← certificate.get "number"
  let numberText ← number.print
  let type ← certificate.get "type"
  let typeText ← type.print
  let owner ← certificate.get "owner"
  let ownerText ← owner.print
  let issue_date ← certificate.get "issue_date"
  let issueText ← issue_date.print
  let badge ← statusBadge certificate
  let expiry_date ← certificate.get "expiry_date"
  let expiryText ← expiry_date.print
  let property ← propertySection certificate
  let signatures ← signaturesSection certificate
  let verification_url ← certificate.get "verification_url"
  let urlText ← verification_url.print
  pure (resultsTpl0 ++ numberText ++ resultsTpl1 ++ typeText ++ resultsTpl2 ++ ownerText
    ++ resultsTpl3 ++ issueText ++ resultsTpl4 ++ badge ++ resultsTpl5
    ++ expiryText ++ resultsTpl6 ++ property ++ resultsTpl7 ++ signatures
    ++ resultsTpl8 ++ urlText ++ resultsTpl9)

/-- The method `getCSRFToken()`, on the value of `document.cookie`. -/
def getCSRFToken (cookie : String) : String :=
  match (jsSplit cookie "; ").find? (fun row => jsStartsWith row "csrftoken=") with
  | none => ""
  | some row =>
    match (jsSplit row "=")[1]? with
    | none => ""
    | some cookieValue => if cookieValue != "" then cookieValue else ""

/-- The method `showNotification(message, type)`: the notifications on show
are removed, the new one is appended and its removal is scheduled. -/
def showNotification (p : VerifierPage) (message : JSVal) (type : String) : VerifierPage :=
  { p with
    notifications := [⟨message, type⟩]
    log := p.log ++ [.notify message type, .setTimeout (.removeNotification message type) 5000] }

/-- The method `showSuccess(message)`. -/
def showSuccess (p : VerifierPage) (message : JSVal) : VerifierPage :=
  showNotification p message "success"

/-- The method `showError(message)`. -/
def showError (p : VerifierPage) (message : JSVal) : VerifierPage :=
  showNotification p message "error"

/-- The method `showLoading()`. -/
def showLoading (p : VerifierPage) : VerifierPage :=
  { p with
    submitButton := p.submitButton.map (fun _ => ⟨true, loadingButtonHTML⟩)
    loadingHidden := p.loadingHidden.map (fun _ => false)
    log := p.log ++ [.showLoading] }

/-- The method `hideLoading()`. -/
def hideLoading (p : VerifierPage) : VerifierPage :=
  { p with
    submitButton := p.submitButton.map (fun _ => ⟨false, "Verify Certificate"⟩)
    loadingHidden := p.loadingHidden.map (fun _ => true)
    log := p.log ++ [.hideLoading] }

/-- The method `verifyCertificate(certificateNumber)`: one POST of the form
data to the current path; a response that is not `ok` and a body that does not
parse both throw. -/
def verifyCertificate (p : VerifierPage) (certificateNumber : String) (net : FetchOutcome) :
    Except Thrown (VerifierPage × JSVal) :=
  let p := p.emit (.fetch
    { method := "POST", url := p.pathname, query := [], headers := [],
      form := [("certificate_number", certificateNumber),
               ("csrfmiddlewaretoken", getCSRFToken p.cookie)] })
  match net with
  | .networkError => .error (p, .networkError)
  | .response status body =>
    if statusOk status then
      match body with
      | some data => .ok (p, data)
      | none => .error (p, .syntaxError)
    else .error (p, .httpError status)

/-- The method `generateQRCodeForCertificate(certificate)`. -/
def generateQRCodeForCertificate (p : VerifierPage) (certificate : JSVal) :
    Except Thrown VerifierPage :=
  if p.qrcodeDefined then do
    let verification_url ← liftAt p (certificate.get "verification_url")
    if verification_url.truthy then pure (p.emit (.setTimeout (.renderInlineQR verification_url) 100))
    else pure p
  else pure p

/-- The lookup `document.getElementById('inlineResults')` followed by the
creation of the container right after the form when there is none. -/
def ensureResultsContainer (p : VerifierPage) : Except Thrown VerifierPage :=
  if hasId "inlineResults" (p.before ++ p.after) then pure p
  else if p.hasForm then pure { p with after := ⟨"inlineResults", "mt-8", ""⟩ :: p.after }
  else throw (p, .typeError)

/-- The assignment `resultsContainer.innerHTML = resultsHTML`. -/
def setResults (p : VerifierPage) (resultsHTML : String) : VerifierPage :=
  if hasId "inlineResults" p.before then
    { p with before := setInnerHTML "inlineResults" resultsHTML p.before }
  else { p with after := setInnerHTML "inlineResults" resultsHTML p.after }

/-- The method `displayInlineResults(certificate)`. -/
def displayInlineResults (p : VerifierPage) (certificate : JSVal) : Except Thrown VerifierPage := do
  let resultsHTML ← liftAt p (generateResultsHTML certificate)
  let p ← ensureResultsContainer p
  let p := setResults p resultsHTML
  let p := p.emit (.scrollIntoView "inlineResults")
  generateQRCodeForCertificate p certificate

/-- The `try` block of `handleSubmit`. -/
def trySubmit (p : VerifierPage) (certificateNumber : String) (net : FetchOutcome) :
    Except Thrown VerifierPage := do
  let (p, response) ← verifyCertificate p certificateNumber net
  let success ← liftAt p (response.get "success")
  if success.truthy then
    let redirect ← liftAt p (response.get "redirect")
    let redirect_url ← liftAt p (response.get "redirect_url")
    if (redirect.and redirect_url).truthy then
      let p := showSuccess p (.str "Certificate found! Redirecting to detailed view...")
      pure (p.emit (.setTimeout (.navigate redirect_url) 1000))
    else
      let certificate ← liftAt p (response.get "certificate")
      displayInlineResults p certificate
  else
    let error ← liftAt p (response.get "error")
    pure (showError p (error.or (.str "Certificate not found")))

/-- The `catch` clause of `handleSubmit`, applied to what the `try` block left. -/
def catchSubmit : Except Thrown VerifierPage → VerifierPage
  | .ok p => p
  | .error (p, error) =>
    showError (p.emit (.consoleError "Verification error:" error))
      (.str "An error occurred while verifying the certificate. Please try again.")

/-- The method `handleSubmit(e)`.  The result is the page when the returned
promise settles; it is rejected only when `#certificate_number` is missing. -/
def handleSubmit (p : VerifierPage) (net : FetchOutcome) : Except JSError VerifierPage :=
  let p := p.emit .preventDefault
  match p.certificateInput with
  | none => .error .typeError
  | some value =>
    let certificateNumber := jsTrim value
    if certificateNumber = "" then
      .ok (showError p (.str "Please enter a certificate number"))
    else
      .ok (hideLoading (catchSubmit (trySubmit (showLoading p) certificateNumber net)))

/-- Successive calls of `displayInlineResults`, each on the page left by the
previous one; a call that throws leaves the page as it was at the throw. -/
def displayAll (p : VerifierPage) : List JSVal → VerifierPage
  | [] => p
  | certificate :: rest =>
    match displayInlineResults p certificate with
    | .ok p' => displayAll p' rest
    | .error (p', _) => displayAll p' rest

end CertificateVerifier

end DLRMS

namespace DLRMS

/-! ## UserManagement (`r_management.js`) -/

/-- The dashboard page a `UserManagement` works on: the value of
`document.cookie`, the values of `#user-search`, `#role-filter` and
`#status-filter` (absent when the element is), the content of
`#user-list-tbody`, the elements carrying a `data-stat` attribute in document
order (attribute value and text), the messages on show and the trace. -/
structure UMPage where
  cookie : String
  searchInput : Option String
  roleFilter : Option String
  statusFilter : Option String
  tbody : Option String
  statElements : List (String × String)
  messages : List Notification
  log : List Event

/-- A throw inside a handler, with the page as it stands at the throw. -/
abbrev UMThrown := UMPage × JSError

/-- Append an event to the trace. -/
def UMPage.emit (p : UMPage) (e : Event) : UMPage :=
  { p with log := p.log ++ [e] }

namespace UserManagement

/-- The loop of `getCookie` over the pieces of `document.cookie`. -/
def findCookie (name : String) : List String → Except JSError JSVal
  | [] => .ok .null
  | piece :: rest =>
    let cookie := jsTrim piece
    if jsSubstringTo cookie (name.length + 1) = name ++ "=" then
      (decodeURIComponent (jsSubstringFrom cookie (name.length + 1))).map JSVal.str
    else findCookie name rest

/-- The method `getCookie(name)`, on the value of `document.cookie`. -/
def getCookie (cookie : String) (name : String) : Except JSError JSVal :=
  if cookie != "" then findCookie name (jsSplit cookie ";") else .ok .null

/-- The `headers` option every request of this class carries. -/
def csrfHeaders (token : JSVal) : List (String × JSVal) :=
  [("X-CSRFToken", token), ("Content-Type", .str "application/json")]

/-- A POST of one of the mutating handlers: CSRF and content-type headers, no
query and no body. -/
def postRequest (url : String) (token : JSVal) : Request :=
  { method := "POST", url := url, query := [], headers := csrfHeaders token, form := [] }

/-- The GET of `searchUsers`: the path `/admin/search-users/` with the
parameters `q`, `role` and `status`. -/
def searchRequest (query roleFilter statusFilter : String) (token : JSVal) : Request :=
  { method := "GET", url := "/admin/search-users/",
    query := [("q", query), ("role", roleFilter), ("status", statusFilter)],
    headers := csrfHeaders token, form := [] }

/-- The GET of `loadUserStats`. -/
def statsRequest (token : JSVal) : Request :=
  { method := "GET", url := "/admin/user-stats/", query := [], headers := csrfHeaders token,
    form := [] }

/-- The method `showMessage(message, type)`: a message element is appended and
its removal is scheduled. -/
def showMessage (p : UMPage) (message : JSVal) (type : String) : UMPage :=
  { p with
    messages := p.messages ++ [⟨message, type⟩]
    log := p.log ++ [.notify message type, .setTimeout (.removeNotification message type) 5000] }

/-- The `catch` clause shared by the handlers that report failures: the error
is logged under `label` and the message `failure` is shown as an error. -/
def catchWith (label failure : String) : Except UMThrown UMPage → UMPage
  | .ok p => p
  | .error (p, error) =>
    showMessage (p.emit (.consoleError label error)) (.str failure) "error"

/-- The expression `await response.json()` after `await fetch(...)`: the HTTP
status is not looked at. -/
def awaitJson (p : UMPage) : FetchOutcome → Except UMThrown JSVal
  | .networkError => .error (p, .networkError)
  | .response _ none => .error (p, .syntaxError)
  | .response _ (some data) => .ok data

/-- The object literal `roleClasses`. -/
def roleClasses : List (String × String) :=
  [("admin", "bg-purple-100 text-purple-800"),
   ("registry_officer", "bg-blue-100 text-blue-800"),
   ("surveyor", "bg-green-100 text-green-800"),
   ("notary", "bg-orange-100 text-orange-800"),
   ("landowner", "bg-gray-100 text-gray-800")]

/-- Own-key lookup in `roleClasses`. -/
def lookupRole (key : String) : List (String × String) → Option String
  | [] => none
  | (k, v) :: rest => if k = key then some v else lookupRole key rest

/-- Members every object literal inherits from `Object.prototype`, with the
text a template literal prints for them (functions print their source text,
here in the form V8 gives it). -/
def inheritedMembers : List (String × String) :=
  [("constructor", "function Object() \x7b [native code] \x7d"),
   ("hasOwnProperty", "function hasOwnProperty() \x7b [native code] \x7d"),
   ("isPrototypeOf", "function isPrototypeOf() \x7b [native code] \x7d"),
   ("propertyIsEnumerable", "function propertyIsEnumerable() \x7b [native code] \x7d"),
   ("toLocaleString", "function toLocaleString() \x7b [native code] \x7d"),
   ("toString", "function toString() \x7b [native code] \x7d"),
   ("valueOf", "function valueOf() \x7b [native code] \x7d"),
   ("__defineGetter__", "function __defineGetter__() \x7b [native code] \x7d"),
   ("__defineSetter__", "function __defineSetter__() \x7b [native code] \x7d"),
   ("__lookupGetter__", "function __lookupGetter__() \x7b [native code] \x7d"),
   ("__lookupSetter__", "function __lookupSetter__() \x7b [native code] \x7d"),
   ("__proto__", "[object Object]")]

/-- The interpolation `roleClasses[user.role] || 'bg-gray-100 text-gray-800'`:
the key is the string of `user.role`; an own key gives its classes, an
inherited member is truthy and prints as its text, anything else falls back. -/
def roleBadgeClasses (role : JSVal) : String :=
  match lookupRole role.toStr roleClasses with
  | some classes => classes
  | none =>
    match lookupRole role.toStr inheritedMembers with
    | some text => text
    | none => "bg-gray-100 text-gray-800"

/-- The call `v.charAt(0)`: only strings have the method. -/
def charAt0 (v : JSVal) : Except JSError String :=
  match v with
  | .str s => .ok ⟨s.data.take 1⟩
  | _ => .error .typeError

/-! Constant pieces of the template literal returned by `generateUserRow`, cut
at its interpolations. -/

def userRowTpl0 : String :=
  "\n" ++
  "            <tr class=\"hover:bg-gray-50\" data-user-id=\""

def userRowTpl1 : String :=
  "\">\n" ++
  "                <td class=\"px-6 py-4 whitespace-nowrap\">\n" ++
  "                    <div class=\"flex items-center\">\n" ++
  "                        <div class=\"flex-shrink-0 h-8 w-8\">\n" ++
  "                            <div class=\"h-8 w-8 bg-blue-600 rounded-full flex items-center justify-center\">\n" ++
  "                                <span class=\"text-xs font-medium text-white\">\n" ++
  "                                    "

def userRowTpl2 : String :=
  ""

def userRowTpl3 : String :=
  "\n" ++
  "                                </span>\n" ++
  "                            </div>\n" ++
  "                        </div>\n" ++
  "                        <div class=\"ml-3\">\n" ++
  "                            <div class=\"text-sm font-medium text-gray-900\">\n" ++
  "                                "

def userRowTpl4 : String :=
  " "

def userRowTpl5 : String :=
  "\n" ++
  "                            </div>\n" ++
  "                            <div class=\"text-sm text-gray-500\">"

def userRowTpl6 : String :=
  "</div>\n" ++
  "                        </div>\n" ++
  "                    </div>\n" ++
  "                </td>\n" ++
  "                <td class=\"px-6 py-4 whitespace-nowrap\">\n" ++
  "                    <span class=\"inline-flex px-2 py-1 text-xs font-medium rounded-full "

def userRowTpl7 : String :=
  "\">\n" ++
  "                        "

def userRowTpl8 : String :=
  "\n" ++
  "                    </span>\n" ++
  "                </td>\n" ++
  "                <td class=\"px-6 py-4 whitespace-nowrap\">\n" ++
  "                    <div class=\"flex items-center\">\n" ++
  "                        "

def userRowTpl9 : String :=
  "\n" ++
  "                        "

def userRowTpl10 : String :=
  "\n" ++
  "                    </div>\n" ++
  "                </td>\n" ++
  "                <td class=\"px-6 py-4 whitespace-nowrap text-sm text-gray-500\">\n" ++
  "                    "

def userRowTpl11 : String :=
  "\n" ++
  "                </td>\n" ++
  "                <td class=\"px-6 py-4 whitespace-nowrap text-sm font-medium\">\n" ++
  "                    <div class=\"flex gap-2\">\n" ++
  "                        "

def userRowTpl12 : String :=
  "\n" ++
  "                    </div>\n" ++
  "                </td>\n" ++
  "            </tr>\n" ++
  "        "

/-- Badge of a verified user. -/
def verifiedBadge : String :=
  "<span class=\"inline-flex px-2 py-1 text-xs font-medium rounded-full bg-green-100 text-green-800\">✓ Verified</span>"

/-- Badge of a user awaiting verification. -/
def pendingBadge : String :=
  "<span class=\"inline-flex px-2 py-1 text-xs font-medium rounded-full bg-yellow-100 text-yellow-800\">⚠ Pending</span>"

/-- Badge of an inactive user. -/
def inactiveBadge : String :=
  "<span class=\"inline-flex px-2 py-1 text-xs font-medium rounded-full bg-red-100 text-red-800 ml-1\">Inactive</span>"

/-- The edit link, first entry of `actions`. -/
def editAction (id : JSVal) : String :=
  "<a href=\"/admin/accounts/user/" ++ id.toStr
    ++ "/change/\" class=\"text-blue-600 hover:text-blue-900\">Edit</a>"

/-- The `Verify` button. -/
def verifyAction (id : JSVal) : String :=
  "<button onclick=\"userManagement.verifyUser(" ++ id.toStr
    ++ ")\" class=\"text-green-600 hover:text-green-900\">Verify</button>"

/-- The `Deactivate` button. -/
def deactivateAction (id : JSVal) : String :=
  "<button onclick=\"userManagement.toggleUserActive(" ++ id.toStr
    ++ ", true)\" class=\"text-red-600 hover:text-red-900\">Deactivate</button>"

/-- The `Activate` button. -/
def activateAction (id : JSVal) : String :=
  "<button onclick=\"userManagement.toggleUserActive(" ++ id.toStr
    ++ ", false)\" class=\"text-green-600 hover:text-green-900\">Activate</button>"

/-- The array `actions` built by `generateUserRow`. -/
def userActions (id is_verified is_active : JSVal) : List String :=
  [editAction id]
    ++ (if is_verified.truthy then [] else [verifyAction id])
    ++ (if is_active.truthy then [deactivateAction id] else [activateAction id])

/-- The method `generateUserRow(user)`.  The index expression
`roleClasses[user.role]` converts the role to a property key, which is the
conversion `JSVal.print`. -/
def generateUserRow (user : JSVal) : Except JSError String := do
  let is_verified ← user.get "is_verified"
  let verificationStatus := if is_verified.truthy then verifiedBadge else pendingBadge
  let is_active ← user.get "is_active"
  let activeStatus := if is_active.truthy then "" else inactiveBadge
  let id ← user.get "id"
  let idText ← id.print
  let actions := userActions id is_verified is_active
  let first_name ← user.get "first_name"
  let firstInitial ← charAt0 first_name
  let last_name ← user.get "last_name"
  let lastInitial ← charAt0 last_name
  let firstText ← first_name.print
  let lastText ← last_name.print
  let email ← user.get "email"
  let emailText ← email.print
  let role ← user.get "role"
  let _ ← role.print
  let role_display ← user.get "role_display"
  let displayText ← role_display.print
  let date_joined ← user.get "date_joined"
  let joinedText ← date_joined.print
  pure (userRowTpl0 ++ idText ++ userRowTpl1 ++ firstInitial ++ userRowTpl2 ++ lastInitial
    ++ userRowTpl3 ++ firstText ++ userRowTpl4 ++ lastText ++ userRowTpl5
    ++ emailText ++ userRowTpl6 ++ roleBadgeClasses role ++ userRowTpl7
    ++ displayText ++ userRowTpl8 ++ verificationStatus ++ userRowTpl9
    ++ activeStatus ++ userRowTpl10 ++ joinedText ++ userRowTpl11
    ++ String.join actions ++ userRowTpl12)

/-- The expression `users.map(user => this.generateUserRow(user)).join('')` on
the items of an array. -/
def userRows : List JSVal → Except JSError String
  | [] => pure ""
  | user :: rest => do
    let row ← generateUserRow user
    let others ← userRows rest
    pure (row ++ others)

/-- The row shown for an empty result. -/
def noUsersRow : String :=
  "<tr><td colspan=\"5\" class=\"px-6 py-4 text-center text-gray-500\">No users found</td></tr>"

/-- The test `v === 0`. -/
def isZero : JSVal → Bool
  | .num n => n == 0
  | _ => false

/-- The method `updateUserTable(users)`. -/
def updateUserTable (p : UMPage) (users : JSVal) : Except UMThrown UMPage :=
  match p.tbody with
  | none => pure p
  | some _ => do
    let length ← liftAt p (users.get "length")
    if isZero length then pure { p with tbody := some noUsersRow }
    else
      match users with
      | .arr items => do
        let rows ← liftAt p (userRows items)
        pure { p with tbody := some rows }
      | _ => throw (p, .typeError)

/-- Assign the text of the first element whose `data-stat` is `key`. -/
def setStatText (key text : String) : List (String × String) → List (String × String)
  | [] => []
  | (k, t) :: rest => if k = key then (k, text) :: rest else (k, t) :: setStatText key text rest

/-- Is there an element whose `data-stat` is `key`? -/
def hasStat (key : String) (els : List (String × String)) : Bool :=
  els.any (fun e => e.1 == key)

/-- The keys of `statsElements`, in the order of the object literal. -/
def statKeys : List String :=
  ["total_users", "verified_users", "unverified_users", "total_landowners", "total_officers"]

/-- The callback of `forEach` in `updateStatsDisplay`, for one key: the stat is
read only when the element exists. -/
def updateStat (stats : JSVal) (p : UMPage) (key : String) : Except UMThrown UMPage :=
  if hasStat key p.statElements then do
    let value ← liftAt p (stats.get key)
    match value with
    | .undefined => pure p
    | v => pure { p with statElements := setStatText key (textContentOf v) p.statElements }
  else pure p

/-- The loop `Object.keys(statsElements).forEach(...)`. -/
def updateStats (stats : JSVal) : UMPage → List String → Except UMThrown UMPage
  | p, [] => pure p
  | p, key :: rest => do
    let p ← updateStat stats p key
    updateStats stats p rest

/-- The method `updateStatsDisplay(stats)`. -/
def updateStatsDisplay (p : UMPage) (stats : JSVal) : Except UMThrown UMPage :=
  updateStats stats p statKeys

/-- The part of `loadUserStats()` that runs up to its first `await`: the GET
of the statistics is issued. -/
def loadUserStatsBegin (p : UMPage) : UMPage × Bool :=
  match getCookie p.cookie "csrftoken" with
  | .error error => (p.emit (.consoleError "Error loading user stats:" error), false)
  | .ok token =>
    (p.emit (.fetch (statsRequest token)), true)

/-- The `try` block of `loadUserStats()` from the response on. -/
def tryLoadUserStats (p : UMPage) (net : FetchOutcome) : Except UMThrown UMPage := do
  let data ← awaitJson p net
  let success ← liftAt p (data.get "success")
  if success.truthy then
    let stats ← liftAt p (data.get "stats")
    updateStatsDisplay p stats
  else pure p

/-- The rest of `loadUserStats()`, run when the response arrives. -/
def loadUserStatsResume (p : UMPage) (net : FetchOutcome) : UMPage :=
  match tryLoadUserStats p net with
  | .ok p => p
  | .error (p, error) => p.emit (.consoleError "Error loading user stats:" error)

/-- The method `loadUserStats()`, awaited. -/
def loadUserStats (p : UMPage) (net : FetchOutcome) : UMPage :=
  match loadUserStatsBegin p with
  | (p, true) => loadUserStatsResume p net
  | (p, false) => p

/-- The part of `searchUsers(query)` that runs up to its first `await`: the
filters are read and the GET of the user list is issued. -/
def searchUsersBegin (p : UMPage) (query : String) : UMPage × Bool :=
  let roleFilter := p.roleFilter.getD ""
  let statusFilter := p.statusFilter.getD ""
  match getCookie p.cookie "csrftoken" with
  | .error error =>
    (catchWith "Error searching users:" "An error occurred while searching users."
      (.error (p, error)), false)
  | .ok token =>
    (p.emit (.fetch (searchRequest query roleFilter statusFilter token)), true)

/-- The `try` block of `searchUsers` from the response on. -/
def trySearchUsers (p : UMPage) (net : FetchOutcome) : Except UMThrown UMPage := do
  let data ← awaitJson p net
  let success ← liftAt p (data.get "success")
  if success.truthy then
    let users ← liftAt p (data.get "users")
    updateUserTable p users
  else
    let message ← liftAt p (data.get "message")
    pure (showMessage p message "error")

/-- The rest of `searchUsers`, run when the response arrives. -/
def searchUsersResume (p : UMPage) (net : FetchOutcome) : UMPage :=
  catchWith "Error searching users:" "An error occurred while searching users."
    (trySearchUsers p net)

/-- The method `searchUsers(query)`, awaited. -/
def searchUsers (p : UMPage) (query : String) (net : FetchOutcome) : UMPage :=
  match searchUsersBegin p query with
  | (p, true) => searchUsersResume p net
  | (p, false) => p

/-- The method `refreshUserList()`: the current search text is read and
`searchUsers` is called without being awaited. -/
def refreshUserList (p : UMPage) : UMPage :=
  (searchUsersBegin p (p.searchInput.getD "")).1

/-- The method `refreshUserRow(userId)`: the whole list is refreshed. -/
def refreshUserRow (p : UMPage) (_userId : JSVal) : UMPage :=
  refreshUserList p

/-- The `try` block of `verifyUser`. -/
def tryVerifyUser (p : UMPage) (userId : JSVal) (net : FetchOutcome) : Except UMThrown UMPage := do
  let token ← liftAt p (getCookie p.cookie "csrftoken")
  let p := p.emit (.fetch (postRequest ("/admin/verify-user/" ++ userId.toStr ++ "/") token))
  let data ← awaitJson p net
  let success ← liftAt p (data.get "success")
  let message ← liftAt p (data.get "message")
  if success.truthy then
    let p := showMessage p message "success"
    let p := refreshUserRow p userId
    pure (loadUserStatsBegin p).1
  else pure (showMessage p message "error")

/-- The method `verifyUser(userId)`; `answer` is what `confirm` returns.  The
result is the page when the returned promise settles: the refreshes it started
are under way, their responses are handled by `searchUsersResume` and
`loadUserStatsResume`. -/
def verifyUser (p : UMPage) (userId : JSVal) (answer : Bool) (net : FetchOutcome) : UMPage :=
  let p := p.emit (.confirm "Are you sure you want to verify this user?" answer)
  if answer then
    catchWith "Error verifying user:" "An error occurred while verifying the user."
      (tryVerifyUser p userId net)
  else p

/-- The `try` block of `toggleUserActive`. -/
def tryToggleUserActive (p : UMPage) (userId : JSVal) (net : FetchOutcome) :
    Except UMThrown UMPage := do
  let token ← liftAt p (getCookie p.cookie "csrftoken")
  let p := p.emit (.fetch
    (postRequest ("/admin/toggle-user-active/" ++ userId.toStr ++ "/") token))
  let data ← awaitJson p net
  let success ← liftAt p (data.get "success")
  let message ← liftAt p (data.get "message")
  if success.truthy then
    let p := showMessage p message "success"
    let p := refreshUserRow p userId
    pure (loadUserStatsBegin p).1
  else pure (showMessage p message "error")

/-- The method `toggleUserActive(userId, isActive)`; `answer` is what `confirm`
returns. -/
def toggleUserActive (p : UMPage) (userId isActive : JSVal) (answer : Bool)
    (net : FetchOutcome) : UMPage :=
  let action := if isActive.truthy then "deactivate" else "activate"
  let p := p.emit (.confirm ("Are you sure you want to " ++ action ++ " this user?") answer)
  if answer then
    catchWith "Error toggling user status:" "An error occurred while updating the user status."
      (tryToggleUserActive p userId net)
  else p

/-- The `try` block of `bulkVerifyUsers`. -/
def tryBulkVerifyUsers (p : UMPage) (net : FetchOutcome) : Except UMThrown UMPage := do
  let token ← liftAt p (getCookie p.cookie "csrftoken")
  let p := p.emit (.fetch (postRequest "/admin/bulk-verify-users/" token))
  let data ← awaitJson p net
  let success ← liftAt p (data.get "success")
  let message ← liftAt p (data.get "message")
  if success.truthy then
    let p := showMessage p message "success"
    let p := refreshUserList p
    pure (loadUserStatsBegin p).1
  else pure (showMessage p message "error")

/-- The method `bulkVerifyUsers()`; `answer` is what `confirm` returns. -/
def bulkVerifyUsers (p : UMPage) (answer : Bool) (net : FetchOutcome) : UMPage :=
  let p := p.emit (.confirm "This will verify all unverified users. Are you sure?" answer)
  if answer then
    catchWith "Error in bulk verification:" "An error occurred during bulk verification."
      (tryBulkVerifyUsers p net)
  else p

/-- The `try` blocks of `verifyUser`, `toggleUserActive` and `bulkVerifyUsers`
differ in the URL alone; this is their common form. -/
def tryPost (p : UMPage) (url : String) (net : FetchOutcome) : Except UMThrown UMPage := do
  let token ← liftAt p (getCookie p.cookie "csrftoken")
  let p := p.emit (.fetch (postRequest url token))
  let data ← awaitJson p net
  let success ← liftAt p (data.get "success")
  let message ← liftAt p (data.get "message")
  if success.truthy then
    let p := showMessage p message "success"
    let p := refreshUserList p
    pure (loadUserStatsBegin p).1
  else pure (showMessage p message "error")

/-- Does the outcome carry a body whose `success` is truthy?  These are the
outcomes the handlers of this class take for a success. -/
def reportsSuccess : FetchOutcome → Bool
  | .response _ (some data) =>
    match data.get "success" with
    | .ok success => success.truthy
    | .error _ => false
  | _ => false

/-- The prompt of `toggleUserActive`. -/
def togglePrompt (isActive : JSVal) : String :=
  "Are you sure you want to " ++ (if isActive.truthy then "deactivate" else "activate")
    ++ " this user?"

end UserManagement

end DLRMS

namespace DLRMS

/-! ## Sample pages and responses -/

/-- A verification page as served: form, button, loading message, one element
after the form, the QR library loaded. -/
def sampleVerifierPage : VerifierPage :=
  { pathname := "/certificates/verify/"
    cookie := "sessionid=abc; csrftoken=tok123"
    qrcodeDefined := true
    certificateInput := some "  RW-2024-00123 "
    hasForm := true
    submitButton := some ⟨false, "Verify Certificate"⟩
    loadingHidden := some true
    before := [⟨"intro", "mb-4", "Enter a certificate number"⟩]
    after := [⟨"footer", "", ""⟩]
    notifications := []
    log := [] }

/-- The same page with only white space typed into the input. -/
def blankVerifierPage : VerifierPage :=
  { sampleVerifierPage with certificateInput := some " \t " }

/-- A certificate as the verify endpoint returns it. -/
def sampleCertificate : JSVal :=
  .obj [("number", .str "RW-2024-00123"), ("type", .str "Freehold"), ("owner", .str "A. Uwase"),
        ("issue_date", .str "2024-01-15"), ("expiry_date", .str "2034-01-15"),
        ("is_valid", .bool true), ("status", .str "issued"),
        ("verification_url", .str "/certificates/verify/RW-2024-00123/")]

/-- A certificate that is no longer valid, with property details and one
signature. -/
def revokedCertificate : JSVal :=
  .obj [("number", .str "RW-2019-00007"), ("type", .str "Leasehold"), ("owner", .str "J. Mugabo"),
        ("issue_date", .str "2019-03-02"), ("expiry_date", .str "2029-03-02"),
        ("is_valid", .bool false), ("status", .str "Revoked"),
        ("property_details", .obj [("address", .str "KG 7 Ave"), ("size", .str "450 sqm"),
          ("use_type", .str "Residential"),
          ("location", .obj [("district", .str "Gasabo"), ("sector", .str "Kacyiru"),
            ("cell", .str "Kamatamu")])]),
        ("signatures", .arr [.obj [("signer_name", .str "Registrar"), ("role", .str "notary"),
          ("signed_at", .str "2019-03-02T10:00:00Z"), ("id", .num 41),
          ("document_hash", .str "9f86d081884c7d659a2feaa0c55ad015a3bf4f1b")]]),
        ("verification_url", .str "/certificates/verify/RW-2019-00007/")]

/-- The panel `generateResultsHTML` renders for a certificate, empty when it throws. -/
def renderedPanel (certificate : JSVal) : String :=
  match CertificateVerifier.generateResultsHTML certificate with
  | .ok html => html
  | .error _ => ""

/-- A successful response that carries a `redirect_url` and a certificate but
no `redirect` flag. -/
def redirectUrlOnlyResponse : JSVal :=
  .obj [("success", .bool true), ("redirect_url", .str "/certificates/7/"),
        ("certificate", sampleCertificate)]

/-- A successful response with the redirect instruction. -/
def redirectResponse : JSVal :=
  .obj [("success", .bool true), ("redirect", .bool true),
        ("redirect_url", .str "/certificates/7/")]

/-- A dashboard page with a search text, one filter chosen and an empty table. -/
def sampleUMPage : UMPage :=
  { cookie := "sessionid=abc; csrftoken=tok123"
    searchInput := some "ali"
    roleFilter := some "surveyor"
    statusFilter := none
    tbody := some ""
    statElements := [("total_users", "12")]
    messages := []
    log := [] }

/-- A body reporting success with a message. -/
def successBody : JSVal :=
  .obj [("success", .bool true), ("message", .str "User verified successfully")]

/-- A body reporting a failure with a message. -/
def failureBody : JSVal :=
  .obj [("success", .bool false), ("message", .str "User not found")]

/-- A body reporting a failure without any message. -/
def bareFailureBody : JSVal :=
  .obj [("success", .bool false)]

/-- A verify response reporting a failure with its reason. -/
def revokedResponse : JSVal :=
  .obj [("success", .bool false), ("error", .str "Certificate has been revoked")]

end DLRMS

namespace DLRMS

/-! ## The debounced search of `setupEventListeners` -/

/-- An `input` event on `#user-search`: when it arrives (milliseconds) and the
value the field holds from then on. -/
structure InputEvent where
  time : Nat
  value : String

/-- The search box with its listener: the page, the closure variable
`searchTimeout` (the instant the pending timer falls due, `none` when no timer
is pending) and the calls of `searchUsers` made by the timer so far, each with
its instant and its argument. -/
structure SearchBox where
  page : UMPage
  searchTimeout : Option Nat
  fired : List (Nat × String)

namespace UserManagement

/-- The callback handed to `setTimeout`, run at instant `now`: it calls
`searchUsers(e.target.value)`, the value the field holds at that instant,
without awaiting it. -/
def searchTimerFires (s : SearchBox) (now : Nat) : SearchBox :=
  let value := s.page.searchInput.getD ""
  { page := (searchUsersBegin s.page value).1
    searchTimeout := none
    fired := s.fired ++ [(now, value)] }

/-- Time passes up to instant `t`: the pending timer runs if it has fallen due
by then (a timer due at `t` itself runs before anything that arrives at `t`). -/
def advanceTo (s : SearchBox) (t : Nat) : SearchBox :=
  match s.searchTimeout with
  | some due => if due ≤ t then searchTimerFires s due else s
  | none => s

/-- The listener of `input`: `clearTimeout(searchTimeout)` drops the pending
timer, `setTimeout(..., 300)` starts a new one. -/
def onSearchInput (s : SearchBox) (e : InputEvent) : SearchBox :=
  { s with
    page := { s.page with searchInput := some e.value }
    searchTimeout := some (e.time + 300) }

/-- One `input` event in the course of time: the clock reaches its instant,
then the event is dispatched. -/
def inputAt (s : SearchBox) (e : InputEvent) : SearchBox :=
  onSearchInput (advanceTo s e.time) e

/-- A sequence of `input` events followed by silence: after the last event the
pending timer runs when it falls due. -/
def typeAndWait (s : SearchBox) (events : List InputEvent) : SearchBox :=
  let s := events.foldl inputAt s
  match s.searchTimeout with
  | some due => searchTimerFires s due
  | none => s

/-- The searches a debounce of 300 ms is expected to start, in the words of
the specification: one for every event whose successor, if any, comes at least
300 ms later, 300 ms after that event and with the value it left in the field. -/
def expectedSearches : List InputEvent → List (Nat × String)
  | [] => []
  | [e] => [(e.time + 300, e.value)]
  | e :: next :: rest =>
    if e.time + 300 ≤ next.time then (e.time + 300, e.value) :: expectedSearches (next :: rest)
    else expectedSearches (next :: rest)

end UserManagement

/-! ## SignatureManager (`signature-component.js`) -/

/-- A stroke drawn on the pad: its points. -/
abbrev Stroke := List (Int × Int)

/-- What `getSignatureData()` returns for a drawing: `dataUrl` and `svg` are
the two encodings the pad gives of its strokes (kept here as the strokes they
encode), `timestamp` is the ISO string of the clock. -/
structure SignatureData where
  dataUrl : List Stroke
  svg : List Stroke
  timestamp : String

/-- The modal element: whether its class list holds `hidden`, its
`dataset.documentId` (`undefined` when never set), and the error boxes at the
top of its `.modal-content` child, first the newest (`none` when it has no
such child). -/
structure Modal where
  hidden : Bool
  documentId : JSVal
  content : Option (List String)

/-- Observable effects of a `SignatureManager`, in program order. -/
inductive SigEvent where
  | onSign (data : Option SignatureData) (documentId : JSVal)
  | errorShown (message : String)
  | removeErrorAfter (message : String) (delay : Nat)

/-- A `SignatureManager`: `this.modal`, the strokes held by
`this.signaturePad` (`none` when there is no pad), whether
`this.callbacks.onSign` is set, and the trace. -/
structure SigManager where
  modal : Option Modal
  signaturePad : Option (List Stroke)
  onSign : Bool
  log : List SigEvent

/-- The calls of the `onSign` callback among a list of events. -/
def onSignCalls : List SigEvent → List (Option SignatureData × JSVal)
  | [] => []
  | .onSign data documentId :: es => (data, documentId) :: onSignCalls es
  | _ :: es => onSignCalls es

/-- The error messages shown among a list of events. -/
def errorsShown : List SigEvent → List String
  | [] => []
  | .errorShown message :: es => message :: errorsShown es
  | _ :: es => errorsShown es

namespace SignatureManager

/-- The method `show(options)`, for options with or without an `onSign`
callback and with the given `documentId`. -/
def «show» (s : SigManager) (hasOnSign : Bool) (documentId : JSVal) : SigManager :=
  match s.modal with
  | none => s
  | some modal =>
    { s with
      modal := some
        { modal with
          hidden := false
          documentId := if documentId.truthy then .str documentId.toStr else modal.documentId }
      onSign := if hasOnSign then true else s.onSign }

/-- The method `clear()`. -/
def clear (s : SigManager) : SigManager :=
  { s with signaturePad := s.signaturePad.map (fun _ => []) }

/-- The method `hide()`. -/
def hide (s : SigManager) : SigManager :=
  match s.modal with
  | none => s
  | some modal => clear { s with modal := some { modal with hidden := true } }

/-- The method `isEmpty()`. -/
def isEmpty (s : SigManager) : Bool :=
  match s.signaturePad with
  | some strokes => strokes.isEmpty
  | none => true

/-- The method `getSignatureData()`, with the clock reading `now`. -/
def getSignatureData (s : SigManager) (now : String) : Option SignatureData :=
  match s.signaturePad with
  | none => none
  | some strokes =>
    if strokes.isEmpty then none
    else some { dataUrl := strokes, svg := strokes, timestamp := now }

/-- The method `showError(message)`: reading `this.modal.querySelector` throws
when there is no modal; the box is inserted, and its removal scheduled, only
when the modal has a `.modal-content`. -/
def showError (s : SigManager) (message : String) : Except (SigManager × JSError) SigManager :=
  match s.modal with
  | none => .error (s, .typeError)
  | some modal =>
    match modal.content with
    | none => .ok s
    | some boxes =>
      .ok { s with
            modal := some { modal with content := some (message :: boxes) }
            log := s.log ++ [.errorShown message, .removeErrorAfter message 3000] }

/-- The method `sign()`; `now` is the reading of the clock and `callbackOk`
tells whether the promise of the callback is fulfilled (`true`) or the callback
throws or rejects (`false`).  The result is the manager when the promise of
`sign()` settles, by a return or by a throw. -/
def sign (s : SigManager) (now : String) (callbackOk : Bool) :
    Except (SigManager × JSError) SigManager :=
  if isEmpty s then showError s "Please draw your signature first."
  else
    let signatureData := getSignatureData s now
    match s.modal with
    | none => .error (s, .typeError)
    | some modal =>
      let documentId := modal.documentId
      if s.onSign then
        let s := { s with log := s.log ++ [.onSign signatureData documentId] }
        if callbackOk then .ok (hide s)
        else showError s "Failed to save signature. Please try again."
      else .ok s

/-- The manager a call of `sign()` ends on, whether it returned or threw. -/
def managerOf : Except (SigManager × JSError) SigManager → SigManager
  | .ok s => s
  | .error (s, _) => s

end SignatureManager

end DLRMS

namespace DLRMS

/-! ## Reading aids for the statements -/

/-- Number of positions of `text` at which `pattern` starts. -/
def countOccurrences (pattern : List Char) : List Char → Nat
  | [] => 0
  | c :: cs => (if pattern.isPrefixOf (c :: cs) then 1 else 0) + countOccurrences pattern cs

/-- Number of occurrences of one string in another. -/
def occurrences (pattern text : String) : Nat := countOccurrences pattern.data text.data

namespace UserManagement

/-- The constant text of the template literal of `generateUserRow`. -/
def userRowTemplateText : String :=
  userRowTpl0 ++ userRowTpl1 ++ userRowTpl2 ++ userRowTpl3 ++ userRowTpl4 ++ userRowTpl5
    ++ userRowTpl6 ++ userRowTpl7 ++ userRowTpl8 ++ userRowTpl9 ++ userRowTpl10 ++ userRowTpl11
    ++ userRowTpl12

/-- The text a stat element shows after the patch: what it showed before when
the stat is absent, the text of the stat otherwise. -/
def statTextFor (stats : List (String × JSVal)) (key old : String) : String :=
  match lookupField key stats with
  | .undefined => old
  | v => textContentOf v

/-- The patch of `updateStatsDisplay` for one key, on the stat elements. -/
def patchOne (stats : List (String × JSVal)) (key : String)
    (els : List (String × String)) : List (String × String) :=
  match lookupField key stats with
  | .undefined => els
  | v => setStatText key (textContentOf v) els

/-- The stat elements after `updateStatsDisplay`, in the words of the
specification: going through the elements in document order, the first element
found for one of the keys is the matching element of that key and gets the
text of its stat when the stat is defined; every other element is left as it
is. -/
def patchStats (stats : List (String × JSVal)) :
    List String → List (String × String) → List (String × String)
  | _, [] => []
  | keys, (key, text) :: rest =>
    if key ∈ keys then (key, statTextFor stats key text) :: patchStats stats (keys.erase key) rest
    else (key, text) :: patchStats stats keys rest

/-- The text of the element `querySelector` finds for a `data-stat` key. -/
def statText (key : String) : List (String × String) → Option String
  | [] => none
  | (k, text) :: rest => if k = key then some text else statText key rest

end UserManagement

/-! ## Cookie jars -/

/-- One cookie as `document.cookie` shows it. -/
def cookiePiece (c : String × String) : String := c.1 ++ "=" ++ c.2

/-- The value of `document.cookie` for a jar of cookies (name and value): the
pieces `name=value` joined by `; `. -/
def cookieString : List (String × String) → String
  | [] => ""
  | [c] => cookiePiece c
  | c :: rest => cookiePiece c ++ "; " ++ cookieString rest

/-- The value of the first cookie of the jar named exactly `csrftoken`. -/
def csrfValue : List (String × String) → Option String
  | [] => none
  | (name, value) :: rest => if name = "csrftoken" then some value else csrfValue rest

/-- Text without semicolon and without white space, as cookie names and
cookie values are. -/
def plainText (s : String) : Bool :=
  s.data.all (fun c => c != ';' && !isJSWhitespace c)

/-- A cookie whose name and value are plain and whose name has no `=`. -/
def plainCookie (c : String × String) : Bool :=
  plainText c.1 && plainText c.2 && c.1.data.all (fun ch => ch != '=')

/-- What `getCookie('csrftoken')` is expected to give for a jar: `null`
without such a cookie, else its value with the percent escapes decoded. -/
def csrfCookieValue (jar : List (String × String)) : Except JSError JSVal :=
  match csrfValue jar with
  | none => .ok .null
  | some value => (decodeURIComponent value).map JSVal.str

/-- The part of `getCSRFToken` that follows `document.cookie.split('; ')`. -/
def tokenOfRows (rows : List String) : String :=
  match rows.find? (fun row => jsStartsWith row "csrftoken=") with
  | none => ""
  | some row =>
    match (jsSplit row "=")[1]? with
    | none => ""
    | some cookieValue => if cookieValue != "" then cookieValue else ""

/-- A jar with cookies whose names contain or extend `csrftoken`. -/
def sampleJar : List (String × String) :=
  [("sessionid", "abc"), ("xcsrftoken", "no"), ("csrftoken2", "no"), ("csrftoken", "tok123")]

/-! ## More sample data -/

/-- Three keystrokes at 0, 100 and 150 ms. -/
def burstEvents : List InputEvent :=
  [⟨0, "a"⟩, ⟨100, "al"⟩, ⟨150, "ali"⟩]

/-- A user as the search endpoint returns it. -/
def sampleUser : JSVal :=
  .obj [("id", .num 7), ("first_name", .str "Aline"), ("last_name", .str "Uwase"),
        ("email", .str "aline@example.rw"), ("role", .str "surveyor"),
        ("role_display", .str "Surveyor"), ("is_verified", .bool false),
        ("is_active", .bool true), ("date_joined", .str "2024-02-11")]

/-- A verified, inactive user whose role is the name of a member every object
inherits. -/
def constructorRoleUser : JSVal :=
  .obj [("id", .num 8), ("first_name", .str "Jean"), ("last_name", .str "Mugabo"),
        ("email", .str "jean@example.rw"), ("role", .str "constructor"),
        ("role_display", .str "Constructor"), ("is_verified", .bool true),
        ("is_active", .bool false), ("date_joined", .str "2024-03-01")]

/-- The row `generateUserRow` renders for a user, empty when it throws. -/
def renderedRow (user : JSVal) : String :=
  match UserManagement.generateUserRow user with
  | .ok row => row
  | .error _ => ""

/-- An open signature modal for document 42, with a drawing on the pad and a
callback registered. -/
def sampleSigManager : SigManager :=
  { modal := some { hidden := false, documentId := .str "42", content := some [] }
    signaturePad := some [[(1, 1), (2, 3)], [(4, 4)]]
    onSign := true
    log := [] }

/-- The same manager with nothing drawn. -/
def emptySigManager : SigManager :=
  { sampleSigManager with signaturePad := some [] }

/-- A certificate that is not valid, whose owner field carries the markup of
the `Valid` badge. -/
def markupOwnerCertificate : JSVal :=
  .obj [("number", .str "RW-2020-00045"), ("type", .str "Freehold"),
        ("owner", .str CertificateVerifier.validBadge),
        ("issue_date", .str "2020-06-01"), ("expiry_date", .str "2023-06-01"),
        ("is_valid", .bool false), ("status", .str "Expired"),
        ("verification_url", .str "/certificates/verify/RW-2020-00045/")]

end DLRMS

namespace DLRMS

/-! ## Facts about the platform layer -/

theorem trimChars_blank (cs : List Char) (h : ∀ c ∈ cs, isJSWhitespace c = true) :
    trimChars cs = [] := by
  have h1 : cs.dropWhile isJSWhitespace = [] := List.dropWhile_eq_nil_iff.mpr h
  simp [trimChars, h1]

theorem jsTrim_blank (s : String) (h : ∀ c ∈ s.data, isJSWhitespace c = true) :
    jsTrim s = "" := by
  simp only [jsTrim, trimChars_blank s.data h]

/-! ## CertificateVerifier -/

namespace CertificateVerifier

/-- C1. When the certificate-number input is empty or holds only white space,
`handleSubmit` stops after the validation error: the only events are
`preventDefault`, the error notification `Please enter a certificate number`
and the timer removing it; no request is issued, the loading state is not
entered, and button, loading message and elements are left as they were. -/
theorem handleSubmit_blank_input (p : VerifierPage) (net : FetchOutcome) (value : String)
    (hinput : p.certificateInput = some value)
    (hblank : ∀ c ∈ value.data, isJSWhitespace c = true) :
    ∃ events,
      handleSubmit p net = .ok
        { p with
          notifications := [⟨.str "Please enter a certificate number", "error"⟩]
          log := p.log ++ events }
      ∧ events = [Event.preventDefault,
          Event.notify (.str "Please enter a certificate number") "error",
          Event.setTimeout
            (.removeNotification (.str "Please enter a certificate number") "error") 5000]
      ∧ requestsOf events = []
      ∧ loadingTrace events = []
      ∧ navigationsOf events = [] := by
  refine ⟨_, ?_, rfl, rfl, rfl, rfl⟩
  have ht : jsTrim value = "" := jsTrim_blank value hblank
  simp [handleSubmit, VerifierPage.emit, hinput, ht, showError, showNotification]

/-- Witness of C1: white space typed on the sample page. -/
theorem handleSubmit_blank_input_witness :
    ∃ events,
      handleSubmit blankVerifierPage FetchOutcome.networkError = .ok
        { blankVerifierPage with
          notifications := [⟨.str "Please enter a certificate number", "error"⟩]
          log := blankVerifierPage.log ++ events }
      ∧ events = [Event.preventDefault,
          Event.notify (.str "Please enter a certificate number") "error",
          Event.setTimeout
            (.removeNotification (.str "Please enter a certificate number") "error") 5000]
      ∧ requestsOf events = []
      ∧ loadingTrace events = []
      ∧ navigationsOf events = [] :=
  handleSubmit_blank_input blankVerifierPage FetchOutcome.networkError " \t " rfl (by decide)

end CertificateVerifier

end DLRMS

namespace DLRMS

theorem loadingTrace_append (a b : List Event) :
    loadingTrace (a ++ b) = loadingTrace a ++ loadingTrace b := by
  induction a with
  | nil => rfl
  | cons e es ih => cases e <;> simp [loadingTrace, ih]

theorem KeepsLoading.refl (p : VerifierPage) : KeepsLoading p p :=
  ⟨rfl, rfl, [], by simp, rfl⟩

theorem KeepsLoading.trans {p q r : VerifierPage} (h1 : KeepsLoading p q)
    (h2 : KeepsLoading q r) : KeepsLoading p r := by
  obtain ⟨b1, l1, e1, hl1, ht1⟩ := h1
  obtain ⟨b2, l2, e2, hl2, ht2⟩ := h2
  refine ⟨b2.trans b1, l2.trans l1, e1 ++ e2, ?_, ?_⟩
  · rw [hl2, hl1, List.append_assoc]
  · rw [loadingTrace_append, ht1, ht2]; rfl

theorem KeepsLoading.emit (p : VerifierPage) (e : Event) (h : loadingTrace [e] = []) :
    KeepsLoading p (p.emit e) :=
  ⟨rfl, rfl, [e], rfl, h⟩

namespace CertificateVerifier

theorem keepsLoading_showNotification (p : VerifierPage) (message : JSVal) (type : String) :
    KeepsLoading p (showNotification p message type) :=
  ⟨rfl, rfl, _, rfl, rfl⟩

theorem keepsLoading_verifyCertificate (p : VerifierPage) (n : String) (net : FetchOutcome) :
    match verifyCertificate p n net with
    | .ok (q, _) => KeepsLoading p q
    | .error (q, _) => KeepsLoading p q := by
  unfold verifyCertificate
  cases net with
  | networkError => exact KeepsLoading.emit p _ rfl
  | response status body =>
    by_cases hs : statusOk status = true
    · cases body <;> simp [hs] <;> exact KeepsLoading.emit p _ rfl
    · simp [hs]; exact KeepsLoading.emit p _ rfl

theorem keepsLoading_generateQRCode (p : VerifierPage) (c : JSVal) :
    KeepsLoading p (pageOf (generateQRCodeForCertificate p c)) := by
  unfold generateQRCodeForCertificate
  by_cases hq : p.qrcodeDefined = true
  · simp only [hq, if_true]
    cases hg : c.get "verification_url" with
    | error e => exact KeepsLoading.refl p
    | ok url =>
      by_cases hu : url.truthy = true
      · simp [liftAt, bind, Except.bind, hu, pure, Except.pure, pageOf]
        exact KeepsLoading.emit p _ rfl
      · simp [liftAt, bind, Except.bind, hu, pure, Except.pure, pageOf]
        exact KeepsLoading.refl p
  · simp [hq, pure, Except.pure, pageOf]
    exact KeepsLoading.refl p

theorem keepsLoading_ensureResultsContainer (p : VerifierPage) :
    KeepsLoading p (pageOf (ensureResultsContainer p)) := by
  unfold ensureResultsContainer
  split
  · exact KeepsLoading.refl p
  · split
    · exact ⟨rfl, rfl, [], by simp [pageOf, pure, Except.pure], rfl⟩
    · exact KeepsLoading.refl p

theorem keepsLoading_setResults (p : VerifierPage) (html : String) :
    KeepsLoading p (setResults p html) := by
  unfold setResults
  split <;> exact ⟨rfl, rfl, [], by simp, rfl⟩

theorem keepsLoading_displayInlineResults (p : VerifierPage) (c : JSVal) :
    KeepsLoading p (pageOf (displayInlineResults p c)) := by
  unfold displayInlineResults
  cases hg : generateResultsHTML c with
  | error e => exact KeepsLoading.refl p
  | ok html =>
    have h1 := keepsLoading_ensureResultsContainer p
    cases he : ensureResultsContainer p with
    | error t =>
      rw [he] at h1
      simpa [liftAt, bind, Except.bind, pageOf] using h1
    | ok q =>
      rw [he] at h1
      simp only [liftAt, bind, Except.bind]
      exact h1.trans ((keepsLoading_setResults q html).trans
        ((KeepsLoading.emit _ (.scrollIntoView "inlineResults") rfl).trans
          (keepsLoading_generateQRCode _ c)))

theorem keepsLoading_trySubmit (p : VerifierPage) (n : String) (net : FetchOutcome) :
    KeepsLoading p (pageOf (trySubmit p n net)) := by
  unfold trySubmit
  have h1 := keepsLoading_verifyCertificate p n net
  cases hv : verifyCertificate p n net with
  | error t =>
    rw [hv] at h1
    simpa [bind, Except.bind, pageOf] using h1
  | ok r =>
    obtain ⟨q, response⟩ := r
    rw [hv] at h1
    simp only [bind, Except.bind]
    cases hs : response.get "success" with
    | error e => simpa [liftAt, pageOf] using h1
    | ok success =>
      simp only [liftAt]
      by_cases ht : success.truthy = true
      · simp only [ht, if_true]
        cases hr : response.get "redirect" with
        | error e => simpa [pageOf] using h1
        | ok redirect =>
          cases hu : response.get "redirect_url" with
          | error e => simpa [pageOf] using h1
          | ok redirect_url =>
            simp only []
            by_cases hc : (redirect.and redirect_url).truthy = true
            · simp only [hc, if_true, pure, Except.pure, pageOf]
              exact h1.trans ((keepsLoading_showNotification q _ _).trans
                (KeepsLoading.emit _ (.setTimeout (.navigate redirect_url) 1000) rfl))
            · simp only [hc]
              cases hcert : response.get "certificate" with
              | error e => simpa [pageOf] using h1
              | ok certificate =>
                exact h1.trans (keepsLoading_displayInlineResults q certificate)
      · simp only [ht]
        cases herr : response.get "error" with
        | error e => simpa [pageOf] using h1
        | ok error =>
          simp only [pure, Except.pure, pageOf]
          exact h1.trans (keepsLoading_showNotification q _ _)

theorem keepsLoading_catchSubmit (p : VerifierPage) (r : Except Thrown VerifierPage)
    (h : KeepsLoading p (pageOf r)) : KeepsLoading p (catchSubmit r) := by
  cases r with
  | ok q => exact h
  | error t =>
    obtain ⟨q, err⟩ := t
    exact h.trans ((KeepsLoading.emit q (.consoleError "Verification error:" err) rfl).trans
      (keepsLoading_showNotification _ _ _))

theorem handleSubmit_nonblank (p : VerifierPage) (net : FetchOutcome) (value : String)
    (hinput : p.certificateInput = some value) (hne : jsTrim value ≠ "") :
    handleSubmit p net = .ok (hideLoading (catchSubmit
      (trySubmit (showLoading (p.emit .preventDefault)) (jsTrim value) net))) := by
  simp [handleSubmit, VerifierPage.emit, hinput, hne]

/-- C2. For a certificate number that is not empty after trimming and for
every outcome of the request, `handleSubmit` completes, and on completion the
submit control (when there is one) is enabled and reads `Verify Certificate`
and the loading message (when there is one) is hidden: the loading state is
entered once, left once, and leaving it is the last thing the handler does. -/
theorem handleSubmit_restores_loading (p : VerifierPage) (net : FetchOutcome) (value : String)
    (hinput : p.certificateInput = some value) (hne : jsTrim value ≠ "") :
    ∃ q events,
      handleSubmit p net = .ok q
      ∧ q.submitButton = p.submitButton.map (fun _ => ⟨false, "Verify Certificate"⟩)
      ∧ q.loadingHidden = p.loadingHidden.map (fun _ => true)
      ∧ q.log = p.log ++ events
      ∧ loadingTrace events = [true, false]
      ∧ events.getLast? = some Event.hideLoading := by
  have hk := keepsLoading_catchSubmit _ _
    (keepsLoading_trySubmit (showLoading (p.emit .preventDefault)) (jsTrim value) net)
  obtain ⟨hb, hl, events, hlog, htrace⟩ := hk
  refine ⟨_, [.preventDefault, .showLoading] ++ events ++ [.hideLoading],
    handleSubmit_nonblank p net value hinput hne, ?_, ?_, ?_, ?_, ?_⟩
  · simp only [hideLoading]
    rw [hb]
    simp only [showLoading, VerifierPage.emit]
    cases p.submitButton <;> rfl
  · simp only [hideLoading]
    rw [hl]
    simp only [showLoading, VerifierPage.emit]
    cases p.loadingHidden <;> rfl
  · simp only [hideLoading]
    rw [hlog]
    simp [showLoading, VerifierPage.emit]
  · simp [loadingTrace_append, htrace, loadingTrace]
  · exact List.getLast?_concat _

/-- Witness of C2: the sample page, the request failing on the network. -/
theorem handleSubmit_restores_loading_witness :
    ∃ q events,
      handleSubmit sampleVerifierPage FetchOutcome.networkError = .ok q
      ∧ q.submitButton
          = sampleVerifierPage.submitButton.map (fun _ => ⟨false, "Verify Certificate"⟩)
      ∧ q.loadingHidden = sampleVerifierPage.loadingHidden.map (fun _ => true)
      ∧ q.log = sampleVerifierPage.log ++ events
      ∧ loadingTrace events = [true, false]
      ∧ events.getLast? = some Event.hideLoading :=
  handleSubmit_restores_loading sampleVerifierPage FetchOutcome.networkError
    "  RW-2024-00123 " rfl (by decide)

end CertificateVerifier

end DLRMS

namespace DLRMS

theorem option_map_reset {α β γ : Type} (o : Option α) (b : β) (c : γ) :
    Option.map ((fun _ => c) ∘ fun _ => b) o = Option.map (fun _ => c) o := by
  cases o <;> rfl

namespace CertificateVerifier

/-- C5. For a certificate number that is not empty after trimming, when the
request fails on the network, the response status is outside 200..299
(whatever its body) or the body does not parse, `handleSubmit` shows the one
notification `An error occurred while verifying the certificate. Please try
again.` of type error, logs the error, leaves the elements around the form as
they were (no inline result) and schedules no navigation. -/
theorem handleSubmit_transport_failure (p : VerifierPage) (net : FetchOutcome) (value : String)
    (hinput : p.certificateInput = some value) (hne : jsTrim value ≠ "")
    (hfail : net = .networkError
      ∨ (∃ status body, net = .response status body ∧ statusOk status = false)
      ∨ (∃ status, net = .response status none)) :
    ∃ error events,
      handleSubmit p net = .ok
        { p with
          submitButton := p.submitButton.map (fun _ => ⟨false, "Verify Certificate"⟩)
          loadingHidden := p.loadingHidden.map (fun _ => true)
          notifications :=
            [⟨.str "An error occurred while verifying the certificate. Please try again.",
              "error"⟩]
          log := p.log ++ events }
      ∧ events = [Event.preventDefault, Event.showLoading,
          Event.fetch
            { method := "POST", url := p.pathname, query := [], headers := [],
              form := [("certificate_number", jsTrim value),
                       ("csrfmiddlewaretoken", getCSRFToken p.cookie)] },
          Event.consoleError "Verification error:" error,
          Event.notify
            (.str "An error occurred while verifying the certificate. Please try again.") "error",
          Event.setTimeout (.removeNotification
            (.str "An error occurred while verifying the certificate. Please try again.")
            "error") 5000,
          Event.hideLoading]
      ∧ notificationsOf events
          = [⟨.str "An error occurred while verifying the certificate. Please try again.",
              "error"⟩]
      ∧ navigationsOf events = [] := by
  rw [handleSubmit_nonblank p net value hinput hne]
  rcases hfail with h | ⟨status, body, h, hs⟩ | ⟨status, h⟩
  · subst h
    refine ⟨.networkError, _, ?_, rfl, rfl, rfl⟩
    simp [trySubmit, verifyCertificate, catchSubmit, showError, showNotification, hideLoading,
      showLoading, VerifierPage.emit, bind, Except.bind, option_map_reset]
  · subst h
    refine ⟨.httpError status, _, ?_, rfl, rfl, rfl⟩
    simp [trySubmit, verifyCertificate, catchSubmit, showError, showNotification, hideLoading,
      showLoading, VerifierPage.emit, bind, Except.bind, hs, option_map_reset]
  · subst h
    by_cases hs : statusOk status = true
    · refine ⟨.syntaxError, _, ?_, rfl, rfl, rfl⟩
      simp [trySubmit, verifyCertificate, catchSubmit, showError, showNotification, hideLoading,
        showLoading, VerifierPage.emit, bind, Except.bind, hs, option_map_reset]
    · refine ⟨.httpError status, _, ?_, rfl, rfl, rfl⟩
      simp [trySubmit, verifyCertificate, catchSubmit, showError, showNotification, hideLoading,
        showLoading, VerifierPage.emit, bind, Except.bind, hs, option_map_reset]

/-- Witness of C5: status 500 with a body that claims success. -/
theorem handleSubmit_transport_failure_witness :
    ∃ error events,
      handleSubmit sampleVerifierPage
          (.response 500 (some (.obj [("success", .bool true),
            ("redirect", .bool true), ("redirect_url", .str "/certificates/7/")]))) = .ok
        { sampleVerifierPage with
          submitButton :=
            sampleVerifierPage.submitButton.map (fun _ => ⟨false, "Verify Certificate"⟩)
          loadingHidden := sampleVerifierPage.loadingHidden.map (fun _ => true)
          notifications :=
            [⟨.str "An error occurred while verifying the certificate. Please try again.",
              "error"⟩]
          log := sampleVerifierPage.log ++ events }
      ∧ events = [Event.preventDefault, Event.showLoading,
          Event.fetch
            { method := "POST", url := sampleVerifierPage.pathname, query := [], headers := [],
              form := [("certificate_number", jsTrim "  RW-2024-00123 "),
                       ("csrfmiddlewaretoken", getCSRFToken sampleVerifierPage.cookie)] },
          Event.consoleError "Verification error:" error,
          Event.notify
            (.str "An error occurred while verifying the certificate. Please try again.") "error",
          Event.setTimeout (.removeNotification
            (.str "An error occurred while verifying the certificate. Please try again.")
            "error") 5000,
          Event.hideLoading]
      ∧ notificationsOf events
          = [⟨.str "An error occurred while verifying the certificate. Please try again.",
              "error"⟩]
      ∧ navigationsOf events = [] :=
  handleSubmit_transport_failure sampleVerifierPage _ "  RW-2024-00123 " rfl (by decide)
    (Or.inr (Or.inl ⟨500, _, rfl, rfl⟩))

end CertificateVerifier

end DLRMS

namespace DLRMS

namespace CertificateVerifier

/-- C4, counterexample. A response with `success: true` and a `redirect_url`
but without the `redirect` flag takes the inline branch: no navigation is
scheduled, no success notification is shown and the result panel is rendered
after the form. -/
theorem handleSubmit_url_without_flag_inline :
    ∃ q,
      handleSubmit sampleVerifierPage (.response 200 (some redirectUrlOnlyResponse)) = .ok q
      ∧ redirectUrlOnlyResponse.get "success" = .ok (.bool true)
      ∧ redirectUrlOnlyResponse.get "redirect_url" = .ok (.str "/certificates/7/")
      ∧ navigationsOf q.log = []
      ∧ notificationsOf q.log = []
      ∧ countId "inlineResults" q.after = 1 :=
  ⟨_, rfl, rfl, rfl, rfl, rfl, rfl⟩

/-- C4, amended. For a response with a truthy `success`, a truthy `redirect`
flag and a truthy `redirect_url`, `handleSubmit` shows the success notification
`Certificate found! Redirecting to detailed view...` and after it schedules,
with a delay of 1000 ms, the navigation to `redirect_url`; the elements around
the form are left as they were, so no inline result panel is rendered. -/
theorem handleSubmit_redirect (p : VerifierPage) (net : FetchOutcome) (value : String)
    (status : Nat) (response success redirect redirect_url : JSVal)
    (hinput : p.certificateInput = some value) (hne : jsTrim value ≠ "")
    (hnet : net = .response status (some response)) (hstatus : statusOk status = true)
    (hsuccess : response.get "success" = .ok success) (hs : success.truthy = true)
    (hredirect : response.get "redirect" = .ok redirect) (hr : redirect.truthy = true)
    (hurl : response.get "redirect_url" = .ok redirect_url) (hu : redirect_url.truthy = true) :
    ∃ events,
      handleSubmit p net = .ok
        { p with
          submitButton := p.submitButton.map (fun _ => ⟨false, "Verify Certificate"⟩)
          loadingHidden := p.loadingHidden.map (fun _ => true)
          notifications :=
            [⟨.str "Certificate found! Redirecting to detailed view...", "success"⟩]
          log := p.log ++ events }
      ∧ events = [Event.preventDefault, Event.showLoading,
          Event.fetch
            { method := "POST", url := p.pathname, query := [], headers := [],
              form := [("certificate_number", jsTrim value),
                       ("csrfmiddlewaretoken", getCSRFToken p.cookie)] },
          Event.notify (.str "Certificate found! Redirecting to detailed view...") "success",
          Event.setTimeout (.removeNotification
            (.str "Certificate found! Redirecting to detailed view...") "success") 5000,
          Event.setTimeout (.navigate redirect_url) 1000,
          Event.hideLoading]
      ∧ navigationsOf events = [(redirect_url, 1000)] := by
  rw [handleSubmit_nonblank p net value hinput hne]
  subst hnet
  refine ⟨_, ?_, rfl, rfl⟩
  simp [trySubmit, verifyCertificate, catchSubmit, showSuccess, showNotification, hideLoading,
    showLoading, VerifierPage.emit, bind, Except.bind, pure, Except.pure, liftAt, hstatus,
    hsuccess, hs, hredirect, hurl, JSVal.and, hr, hu, option_map_reset]

/-- Witness of the amended C4: the sample page and a response with the
redirect instruction. -/
theorem handleSubmit_redirect_witness :
    ∃ events,
      handleSubmit sampleVerifierPage (.response 200 (some redirectResponse)) = .ok
        { sampleVerifierPage with
          submitButton :=
            sampleVerifierPage.submitButton.map (fun _ => ⟨false, "Verify Certificate"⟩)
          loadingHidden := sampleVerifierPage.loadingHidden.map (fun _ => true)
          notifications :=
            [⟨.str "Certificate found! Redirecting to detailed view...", "success"⟩]
          log := sampleVerifierPage.log ++ events }
      ∧ events = [Event.preventDefault, Event.showLoading,
          Event.fetch
            { method := "POST", url := sampleVerifierPage.pathname, query := [], headers := [],
              form := [("certificate_number", jsTrim "  RW-2024-00123 "),
                       ("csrfmiddlewaretoken", getCSRFToken sampleVerifierPage.cookie)] },
          Event.notify (.str "Certificate found! Redirecting to detailed view...") "success",
          Event.setTimeout (.removeNotification
            (.str "Certificate found! Redirecting to detailed view...") "success") 5000,
          Event.setTimeout (.navigate (.str "/certificates/7/")) 1000,
          Event.hideLoading]
      ∧ navigationsOf events = [(.str "/certificates/7/", 1000)] :=
  handleSubmit_redirect sampleVerifierPage _ "  RW-2024-00123 " 200 redirectResponse
    (.bool true) (.bool true) (.str "/certificates/7/") rfl (by decide) rfl rfl rfl rfl rfl rfl
    rfl rfl

end CertificateVerifier

end DLRMS

namespace DLRMS

theorem countId_append (id : String) (a b : List Elem) :
    countId id (a ++ b) = countId id a + countId id b := by
  simp [countId]

theorem countId_of_hasId_false (id : String) (es : List Elem) (h : hasId id es = false) :
    countId id es = 0 := by
  induction es with
  | nil => rfl
  | cons e es ih =>
    simp only [hasId, List.any_cons, Bool.or_eq_false_iff] at h
    have ih' := ih (by simpa [hasId] using h.2)
    simp only [countId] at ih' ⊢
    simp [List.filter_cons, h.1, ih']

theorem hasId_append (id : String) (a b : List Elem) :
    hasId id (a ++ b) = (hasId id a || hasId id b) := by
  simp [hasId]

namespace CertificateVerifier

theorem get_ok_of_generateResultsHTML {c : JSVal} {html : String}
    (h : generateResultsHTML c = .ok html) (k : String) : ∃ v, c.get k = .ok v := by
  cases c with
  | undefined => simp [generateResultsHTML, JSVal.get, bind, Except.bind] at h
  | null => simp [generateResultsHTML, JSVal.get, bind, Except.bind] at h
  | bool b => exact ⟨_, rfl⟩
  | num n => exact ⟨_, rfl⟩
  | str s => exact ⟨_, rfl⟩
  | arr items => exact ⟨_, rfl⟩
  | obj fields => exact ⟨_, rfl⟩

theorem generateQRCode_frame (p : VerifierPage) (c : JSVal) (v : JSVal)
    (hv : c.get "verification_url" = .ok v) :
    ∃ q, generateQRCodeForCertificate p c = .ok q ∧ q.before = p.before ∧ q.after = p.after
      ∧ q.hasForm = p.hasForm := by
  unfold generateQRCodeForCertificate
  by_cases hq : p.qrcodeDefined = true
  · by_cases hu : v.truthy = true
    · exact ⟨p.emit (.setTimeout (.renderInlineQR v) 100),
        by simp [hq, hv, hu, liftAt, bind, Except.bind, pure, Except.pure], rfl, rfl, rfl⟩
    · exact ⟨p, by simp [hq, hv, hu, liftAt, bind, Except.bind, pure, Except.pure],
        rfl, rfl, rfl⟩
  · exact ⟨p, by simp [hq, pure, Except.pure], rfl, rfl, rfl⟩

theorem displayInlineResults_throws (p : VerifierPage) (c : JSVal) (e : JSError)
    (h : generateResultsHTML c = .error e) : displayInlineResults p c = .error (p, e) := by
  simp [displayInlineResults, h, liftAt, bind, Except.bind]

theorem displayInlineResults_creates (p : VerifierPage) (c : JSVal) (html : String)
    (h : generateResultsHTML c = .ok html) (hform : p.hasForm = true)
    (hfresh : hasId "inlineResults" (p.before ++ p.after) = false) :
    ∃ q, displayInlineResults p c = .ok q ∧ q.before = p.before
      ∧ q.after = ⟨"inlineResults", "mt-8", html⟩ :: p.after ∧ q.hasForm = true := by
  obtain ⟨v, hv⟩ := get_ok_of_generateResultsHTML h "verification_url"
  have hb : hasId "inlineResults" p.before = false := by
    rw [hasId_append] at hfresh
    exact (Bool.or_eq_false_iff.mp hfresh).1
  obtain ⟨q, hq, hqb, hqa, hqf⟩ := generateQRCode_frame
    ((setResults { p with after := ⟨"inlineResults", "mt-8", ""⟩ :: p.after } html).emit
      (.scrollIntoView "inlineResults")) c v hv
  refine ⟨q, ?_, ?_, ?_, ?_⟩
  · simp only [displayInlineResults, h, liftAt, bind, Except.bind, ensureResultsContainer,
      hfresh, hform, pure, Except.pure]
    simpa [hform] using hq
  · rw [hqb]; simp [setResults, VerifierPage.emit, hb]
  · rw [hqa]; simp [setResults, VerifierPage.emit, hb, setInnerHTML]
  · rw [hqf]; simp [setResults, VerifierPage.emit, hb, hform]

theorem displayInlineResults_reuses (p : VerifierPage) (c : JSVal) (html old : String)
    (rest : List Elem) (h : generateResultsHTML c = .ok html)
    (hb : hasId "inlineResults" p.before = false)
    (ha : p.after = ⟨"inlineResults", "mt-8", old⟩ :: rest) :
    ∃ q, displayInlineResults p c = .ok q ∧ q.before = p.before
      ∧ q.after = ⟨"inlineResults", "mt-8", html⟩ :: rest ∧ q.hasForm = p.hasForm := by
  obtain ⟨v, hv⟩ := get_ok_of_generateResultsHTML h "verification_url"
  have hfound : hasId "inlineResults" (p.before ++ p.after) = true := by
    rw [hasId_append, ha]; simp [hasId]
  obtain ⟨q, hq, hqb, hqa, hqf⟩ := generateQRCode_frame
    ((setResults p html).emit (.scrollIntoView "inlineResults")) c v hv
  refine ⟨q, ?_, ?_, ?_, ?_⟩
  · simp only [displayInlineResults, h, liftAt, bind, Except.bind, ensureResultsContainer,
      hfound, pure, Except.pure]
    simpa using hq
  · rw [hqb]; simp [setResults, VerifierPage.emit, hb]
  · rw [hqa]; simp [setResults, VerifierPage.emit, hb, ha, setInnerHTML]
  · rw [hqf]; simp [setResults, VerifierPage.emit, hb]

/-- One more call keeps the shape: the elements before the form are those of
the original page, and after it comes either the original list or the
container followed by the original list. -/
theorem displayInlineResults_shape (p q : VerifierPage) (c : JSVal)
    (hfresh : hasId "inlineResults" (p.before ++ p.after) = false)
    (hform : q.hasForm = true) (hb : q.before = p.before)
    (ha : q.after = p.after ∨ ∃ old, q.after = ⟨"inlineResults", "mt-8", old⟩ :: p.after) :
    (pageOf (displayInlineResults q c)).hasForm = true
    ∧ (pageOf (displayInlineResults q c)).before = p.before
    ∧ ((pageOf (displayInlineResults q c)).after = p.after
        ∨ ∃ old, (pageOf (displayInlineResults q c)).after
            = ⟨"inlineResults", "mt-8", old⟩ :: p.after)
    ∧ ∀ html, generateResultsHTML c = .ok html →
        (pageOf (displayInlineResults q c)).after = ⟨"inlineResults", "mt-8", html⟩ :: p.after := by
  have hpb : hasId "inlineResults" p.before = false := by
    rw [hasId_append] at hfresh
    exact (Bool.or_eq_false_iff.mp hfresh).1
  cases hg : generateResultsHTML c with
  | error e =>
    rw [displayInlineResults_throws q c e hg]
    exact ⟨hform, hb, ha, fun html hh => by simp at hh⟩
  | ok html =>
    rcases ha with ha | ⟨old, ha⟩
    · obtain ⟨r, hr, hrb, hra, hrf⟩ := displayInlineResults_creates q c html hg hform
        (by rw [hb, ha]; exact hfresh)
      rw [hr]
      refine ⟨hrf, hrb.trans hb, Or.inr ⟨html, by rw [pageOf, hra, ha]⟩, ?_⟩
      intro html' hh
      cases hh
      rw [pageOf, hra, ha]
    · obtain ⟨r, hr, hrb, hra, hrf⟩ := displayInlineResults_reuses q c html old p.after hg
        (by rw [hb]; exact hpb) ha
      rw [hr]
      refine ⟨hrf.trans hform, hrb.trans hb, Or.inr ⟨html, by rw [pageOf, hra]⟩, ?_⟩
      intro html' hh
      cases hh
      rw [pageOf, hra]

theorem displayAll_cons (p : VerifierPage) (c : JSVal) (rest : List JSVal) :
    displayAll p (c :: rest) = displayAll (pageOf (displayInlineResults p c)) rest := by
  simp only [displayAll]
  cases displayInlineResults p c with
  | ok q => rfl
  | error t => obtain ⟨q, e⟩ := t; rfl

theorem displayAll_shape (p : VerifierPage) (earlier : List JSVal) (last : JSVal) (html : String)
    (hfresh : hasId "inlineResults" (p.before ++ p.after) = false)
    (hlast : generateResultsHTML last = .ok html) :
    ∀ q : VerifierPage, q.hasForm = true → q.before = p.before →
      (q.after = p.after ∨ ∃ old, q.after = ⟨"inlineResults", "mt-8", old⟩ :: p.after) →
      (displayAll q (earlier ++ [last])).before = p.before
      ∧ (displayAll q (earlier ++ [last])).after = ⟨"inlineResults", "mt-8", html⟩ :: p.after := by
  induction earlier with
  | nil =>
    intro q hform hb ha
    obtain ⟨_, h2, _, h4⟩ := displayInlineResults_shape p q last hfresh hform hb ha
    rw [List.nil_append, displayAll_cons]
    exact ⟨h2, h4 html hlast⟩
  | cons c rest ih =>
    intro q hform hb ha
    obtain ⟨h1, h2, h3, _⟩ := displayInlineResults_shape p q c hfresh hform hb ha
    rw [List.cons_append, displayAll_cons]
    exact ih _ h1 h2 h3

/-- C3. On a page with the form and no element `inlineResults` yet, after any
sequence of one or more calls of `displayInlineResults` the last of which
renders its certificate, the document holds exactly one element with id
`inlineResults`: it stands right after the form, in front of the elements that
followed the form before, everything else is as it was, and its content is
`generateResultsHTML` of the last certificate.  As this holds after every
call, the first call creates the container and the later ones reuse it. -/
theorem displayInlineResults_single_container (p : VerifierPage) (earlier : List JSVal)
    (last : JSVal) (html : String)
    (hform : p.hasForm = true)
    (hfresh : hasId "inlineResults" (p.before ++ p.after) = false)
    (hlast : generateResultsHTML last = .ok html) :
    (displayAll p (earlier ++ [last])).before = p.before
    ∧ (displayAll p (earlier ++ [last])).after = ⟨"inlineResults", "mt-8", html⟩ :: p.after
    ∧ countId "inlineResults"
        ((displayAll p (earlier ++ [last])).before ++ (displayAll p (earlier ++ [last])).after)
        = 1 := by
  obtain ⟨hb, ha⟩ := displayAll_shape p earlier last html hfresh hlast p hform rfl (Or.inl rfl)
  refine ⟨hb, ha, ?_⟩
  rw [hb, ha, countId_append]
  rw [hasId_append] at hfresh
  obtain ⟨h1, h2⟩ := Bool.or_eq_false_iff.mp hfresh
  have c1 := countId_of_hasId_false _ _ h1
  have c2 := countId_of_hasId_false _ _ h2
  simp only [countId] at c1 c2 ⊢
  simp [List.filter_cons, c1, c2]

/-- Witness of C3: three calls on the sample page, the second of them with no
certificate at all. -/
theorem displayInlineResults_single_container_witness :
    (displayAll sampleVerifierPage
        ([sampleCertificate, JSVal.undefined] ++ [revokedCertificate])).before
      = sampleVerifierPage.before
    ∧ (displayAll sampleVerifierPage
        ([sampleCertificate, JSVal.undefined] ++ [revokedCertificate])).after
      = ⟨"inlineResults", "mt-8", renderedPanel revokedCertificate⟩ :: sampleVerifierPage.after
    ∧ countId "inlineResults"
        ((displayAll sampleVerifierPage
            ([sampleCertificate, JSVal.undefined] ++ [revokedCertificate])).before
          ++ (displayAll sampleVerifierPage
            ([sampleCertificate, JSVal.undefined] ++ [revokedCertificate])).after)
        = 1 :=
  displayInlineResults_single_container sampleVerifierPage [sampleCertificate, JSVal.undefined]
    revokedCertificate (renderedPanel revokedCertificate) rfl rfl rfl

end CertificateVerifier

end DLRMS

namespace DLRMS

theorem get_ok_of_get_ok {v x : JSVal} {k : String} (h : v.get k = .ok x) (k' : String) :
    ∃ y, v.get k' = .ok y := by
  cases v with
  | undefined => simp [JSVal.get] at h
  | null => simp [JSVal.get] at h
  | bool b => exact ⟨_, rfl⟩
  | num n => exact ⟨_, rfl⟩
  | str s => exact ⟨_, rfl⟩
  | arr items => exact ⟨_, rfl⟩
  | obj fields => exact ⟨_, rfl⟩

theorem bind_eq_ok {α β : Type} {x : Except JSError α} {f : α → Except JSError β} {r : β}
    (h : (x >>= f) = .ok r) : ∃ a, x = .ok a ∧ f a = .ok r := by
  cases x with
  | error e => simp [bind, Except.bind] at h
  | ok a => exact ⟨a, rfl, h⟩

theorem print_eq_ok {v : JSVal} {s : String} (h : v.print = .ok s) : s = v.toStr := by
  unfold JSVal.print at h
  split at h
  · exact (Except.ok.inj h).symm
  · exact absurd h (by simp)

/-! ## UserManagement -/

namespace UserManagement

theorem tryVerifyUser_eq (p : UMPage) (userId : JSVal) (net : FetchOutcome) :
    tryVerifyUser p userId net = tryPost p ("/admin/verify-user/" ++ userId.toStr ++ "/") net :=
  rfl

theorem tryToggleUserActive_eq (p : UMPage) (userId : JSVal) (net : FetchOutcome) :
    tryToggleUserActive p userId net
      = tryPost p ("/admin/toggle-user-active/" ++ userId.toStr ++ "/") net :=
  rfl

theorem tryBulkVerifyUsers_eq (p : UMPage) (net : FetchOutcome) :
    tryBulkVerifyUsers p net = tryPost p "/admin/bulk-verify-users/" net :=
  rfl

/-- A confirmed POST whose response carries a truthy `success`. -/
theorem tryPost_success (p : UMPage) (url label failure : String) (status : Nat)
    (data success message token : JSVal)
    (htoken : getCookie p.cookie "csrftoken" = .ok token)
    (hsuccess : data.get "success" = .ok success) (hs : success.truthy = true)
    (hmessage : data.get "message" = .ok message) :
    catchWith label failure (tryPost p url (.response status (some data)))
      = { p with
          messages := p.messages ++ [⟨message, "success"⟩]
          log := p.log ++ [Event.fetch (postRequest url token),
            Event.notify message "success",
            Event.setTimeout (.removeNotification message "success") 5000,
            Event.fetch (searchRequest (p.searchInput.getD "") (p.roleFilter.getD "")
              (p.statusFilter.getD "") token),
            Event.fetch (statsRequest token)] } := by
  simp [tryPost, liftAt, bind, Except.bind, pure, Except.pure, awaitJson, catchWith, showMessage,
    UMPage.emit, refreshUserList, searchUsersBegin, loadUserStatsBegin, htoken, hsuccess, hs,
    hmessage]

/-- A confirmed POST whose response carries a falsy `success`. -/
theorem tryPost_reported (p : UMPage) (url label failure : String) (status : Nat)
    (data success message token : JSVal)
    (htoken : getCookie p.cookie "csrftoken" = .ok token)
    (hsuccess : data.get "success" = .ok success) (hs : success.truthy = false)
    (hmessage : data.get "message" = .ok message) :
    catchWith label failure (tryPost p url (.response status (some data)))
      = { p with
          messages := p.messages ++ [⟨message, "error"⟩]
          log := p.log ++ [Event.fetch (postRequest url token),
            Event.notify message "error",
            Event.setTimeout (.removeNotification message "error") 5000] } := by
  simp [tryPost, liftAt, bind, Except.bind, pure, Except.pure, awaitJson, catchWith, showMessage,
    UMPage.emit, htoken, hsuccess, hs, hmessage]

/-- A confirmed POST that is not answered by a truthy `success`: one error
message, no request besides the POST. -/
theorem tryPost_failure (p : UMPage) (url label failure : String) (net : FetchOutcome)
    (hfail : reportsSuccess net = false) :
    ∃ message events,
      catchWith label failure (tryPost p url net)
        = { p with messages := p.messages ++ [⟨message, "error"⟩], log := p.log ++ events }
      ∧ notificationsOf events = [⟨message, "error"⟩]
      ∧ (requestsOf events = []
          ∨ ∃ token, getCookie p.cookie "csrftoken" = .ok token
              ∧ requestsOf events = [postRequest url token]) := by
  cases htoken : getCookie p.cookie "csrftoken" with
  | error e =>
    refine ⟨.str failure, [.consoleError label e, .notify (.str failure) "error",
      .setTimeout (.removeNotification (.str failure) "error") 5000], ?_, rfl, Or.inl rfl⟩
    simp [tryPost, liftAt, bind, Except.bind, catchWith, showMessage, UMPage.emit, htoken]
  | ok token =>
    cases net with
    | networkError =>
      refine ⟨.str failure, [.fetch (postRequest url token), .consoleError label .networkError,
        .notify (.str failure) "error",
        .setTimeout (.removeNotification (.str failure) "error") 5000], ?_, rfl,
        Or.inr ⟨token, rfl, rfl⟩⟩
      simp [tryPost, liftAt, bind, Except.bind, catchWith, showMessage, UMPage.emit, htoken,
        awaitJson]
    | response status body =>
      cases body with
      | none =>
        refine ⟨.str failure, [.fetch (postRequest url token), .consoleError label .syntaxError,
          .notify (.str failure) "error",
          .setTimeout (.removeNotification (.str failure) "error") 5000], ?_, rfl,
          Or.inr ⟨token, rfl, rfl⟩⟩
        simp [tryPost, liftAt, bind, Except.bind, catchWith, showMessage, UMPage.emit, htoken,
          awaitJson]
      | some data =>
        cases hsuccess : data.get "success" with
        | error e =>
          refine ⟨.str failure, [.fetch (postRequest url token), .consoleError label e,
            .notify (.str failure) "error",
            .setTimeout (.removeNotification (.str failure) "error") 5000], ?_, rfl,
            Or.inr ⟨token, rfl, rfl⟩⟩
          simp [tryPost, liftAt, bind, Except.bind, catchWith, showMessage, UMPage.emit, htoken,
            awaitJson, hsuccess]
        | ok success =>
          have hs : success.truthy = false := by
            simpa [reportsSuccess, hsuccess] using hfail
          obtain ⟨message, hmessage⟩ := get_ok_of_get_ok hsuccess "message"
          exact ⟨message, _, tryPost_reported p url label failure status data success message
            token htoken hsuccess hs hmessage, rfl, Or.inr ⟨token, rfl, rfl⟩⟩

end UserManagement

end DLRMS

namespace DLRMS

namespace UserManagement

/-- What a confirmed POST adds to the trace comes after what was there. -/
theorem tryPost_log (p : UMPage) (url label failure : String) (net : FetchOutcome) :
    ∃ rest, (catchWith label failure (tryPost p url net)).log = p.log ++ rest := by
  by_cases hf : reportsSuccess net = false
  · obtain ⟨message, events, h, _, _⟩ := tryPost_failure p url label failure net hf
    exact ⟨events, by rw [h]⟩
  · cases net with
    | networkError => simp [reportsSuccess] at hf
    | response status body =>
      cases body with
      | none => simp [reportsSuccess] at hf
      | some data =>
        cases hsuccess : data.get "success" with
        | error e => simp [reportsSuccess, hsuccess] at hf
        | ok success =>
          have hs : success.truthy = true := by simpa [reportsSuccess, hsuccess] using hf
          obtain ⟨message, hmessage⟩ := get_ok_of_get_ok hsuccess "message"
          cases htoken : getCookie p.cookie "csrftoken" with
          | error e =>
            exact ⟨_, by
              simp [tryPost, liftAt, bind, Except.bind, catchWith, showMessage, UMPage.emit,
                htoken]
              rfl⟩
          | ok token =>
            exact ⟨_, by
              rw [tryPost_success p url label failure status data success message token htoken
                hsuccess hs hmessage]⟩

/-- C7. When the user declines the prompt, `verifyUser`, `toggleUserActive`
and `bulkVerifyUsers` do nothing beyond asking: the page is the one before the
call with the declined `confirm` added to the trace (no request, no message,
no refresh).  Whatever the answer, the `confirm` is the first event of the
call and everything else the call does comes after it, and only when the
answer was `true`. -/
theorem declined_confirmation_stops (p : UMPage) (userId isActive : JSVal) (answer : Bool)
    (net : FetchOutcome) :
    verifyUser p userId false net
        = p.emit (.confirm "Are you sure you want to verify this user?" false)
    ∧ toggleUserActive p userId isActive false net
        = p.emit (.confirm (togglePrompt isActive) false)
    ∧ bulkVerifyUsers p false net
        = p.emit (.confirm "This will verify all unverified users. Are you sure?" false)
    ∧ (∃ rest, (verifyUser p userId answer net).log
          = p.log ++ Event.confirm "Are you sure you want to verify this user?" answer :: rest
        ∧ (answer = true ∨ rest = []))
    ∧ (∃ rest, (toggleUserActive p userId isActive answer net).log
          = p.log ++ Event.confirm (togglePrompt isActive) answer :: rest
        ∧ (answer = true ∨ rest = []))
    ∧ (∃ rest, (bulkVerifyUsers p answer net).log
          = p.log ++ Event.confirm "This will verify all unverified users. Are you sure?" answer
              :: rest
        ∧ (answer = true ∨ rest = [])) := by
  refine ⟨rfl, rfl, rfl, ?_, ?_, ?_⟩
  · cases answer with
    | false => exact ⟨[], rfl, Or.inr rfl⟩
    | true =>
      obtain ⟨rest, h⟩ := tryPost_log
        (p.emit (.confirm "Are you sure you want to verify this user?" true))
        ("/admin/verify-user/" ++ userId.toStr ++ "/") "Error verifying user:"
        "An error occurred while verifying the user." net
      refine ⟨rest, ?_, Or.inl rfl⟩
      simp only [verifyUser, tryVerifyUser_eq, if_true]
      rw [h]
      simp [UMPage.emit]
  · cases answer with
    | false => exact ⟨[], rfl, Or.inr rfl⟩
    | true =>
      obtain ⟨rest, h⟩ := tryPost_log
        (p.emit (.confirm (togglePrompt isActive) true))
        ("/admin/toggle-user-active/" ++ userId.toStr ++ "/") "Error toggling user status:"
        "An error occurred while updating the user status." net
      refine ⟨rest, ?_, Or.inl rfl⟩
      simp only [toggleUserActive, tryToggleUserActive_eq, if_true]
      simp only [togglePrompt] at h
      rw [h]
      simp [UMPage.emit, togglePrompt]
  · cases answer with
    | false => exact ⟨[], rfl, Or.inr rfl⟩
    | true =>
      obtain ⟨rest, h⟩ := tryPost_log
        (p.emit (.confirm "This will verify all unverified users. Are you sure?" true))
        "/admin/bulk-verify-users/" "Error in bulk verification:"
        "An error occurred during bulk verification." net
      refine ⟨rest, ?_, Or.inl rfl⟩
      simp only [bulkVerifyUsers, tryBulkVerifyUsers_eq, if_true]
      rw [h]
      simp [UMPage.emit]

end UserManagement

end DLRMS

namespace DLRMS

namespace UserManagement

/-- Whatever event precedes it, a confirmed POST does the same: the page it
leaves differs from `p` in the messages and in the trace, which is the old
trace, that event, the POST and a tail that does not depend on the event. -/
theorem tryPost_uniform (p : UMPage) (url label failure : String) (net : FetchOutcome)
    (token : JSVal) (htoken : getCookie p.cookie "csrftoken" = .ok token) :
    ∃ messages rest, ∀ c : Event,
      catchWith label failure (tryPost (p.emit c) url net)
        = { p with
            messages := messages
            log := p.log ++ c :: Event.fetch (postRequest url token) :: rest } := by
  have thrown : ∀ e : JSError, ∃ (messages : List Notification) (rest : List Event),
      messages = p.messages ++ [⟨.str failure, "error"⟩]
      ∧ rest = [Event.consoleError label e, Event.notify (.str failure) "error",
          Event.setTimeout (.removeNotification (.str failure) "error") 5000] :=
    fun e => ⟨_, _, rfl, rfl⟩
  cases net with
  | networkError =>
    obtain ⟨messages, rest, hm, hr⟩ := thrown .networkError
    refine ⟨messages, rest, fun c => ?_⟩
    subst hm hr
    simp [tryPost, liftAt, bind, Except.bind, catchWith, showMessage, UMPage.emit, htoken,
      awaitJson]
  | response status body =>
    cases body with
    | none =>
      obtain ⟨messages, rest, hm, hr⟩ := thrown .syntaxError
      refine ⟨messages, rest, fun c => ?_⟩
      subst hm hr
      simp [tryPost, liftAt, bind, Except.bind, catchWith, showMessage, UMPage.emit, htoken,
        awaitJson]
    | some data =>
      cases hsuccess : data.get "success" with
      | error e =>
        obtain ⟨messages, rest, hm, hr⟩ := thrown e
        refine ⟨messages, rest, fun c => ?_⟩
        subst hm hr
        simp [tryPost, liftAt, bind, Except.bind, catchWith, showMessage, UMPage.emit, htoken,
          awaitJson, hsuccess]
      | ok success =>
        obtain ⟨message, hmessage⟩ := get_ok_of_get_ok hsuccess "message"
        by_cases hs : success.truthy = true
        · refine ⟨p.messages ++ [⟨message, "success"⟩],
            [Event.notify message "success",
             Event.setTimeout (.removeNotification message "success") 5000,
             Event.fetch (searchRequest (p.searchInput.getD "") (p.roleFilter.getD "")
               (p.statusFilter.getD "") token),
             Event.fetch (statsRequest token)], fun c => ?_⟩
          rw [tryPost_success (p.emit c) url label failure status data success message token
            htoken hsuccess hs hmessage]
          simp [UMPage.emit]
        · refine ⟨p.messages ++ [⟨message, "error"⟩],
            [Event.notify message "error",
             Event.setTimeout (.removeNotification message "error") 5000], fun c => ?_⟩
          rw [tryPost_reported (p.emit c) url label failure status data success message token
            htoken hsuccess (by simpa using hs) hmessage]
          simp [UMPage.emit]

/-- C8, counterexample. For user 7 the requests issued with `isActive` true and
with `isActive` false are the same three: the POST to
`/admin/toggle-user-active/7/` and the two refreshes. -/
theorem toggleUserActive_requests_coincide :
    requestsOf (toggleUserActive sampleUMPage (.num 7) (.bool true) true
        (.response 200 (some successBody))).log
      = requestsOf (toggleUserActive sampleUMPage (.num 7) (.bool false) true
        (.response 200 (some successBody))).log
    ∧ requestsOf (toggleUserActive sampleUMPage (.num 7) (.bool true) true
        (.response 200 (some successBody))).log
      = [postRequest "/admin/toggle-user-active/7/" (.str "tok123"),
         searchRequest "ali" "surveyor" "" (.str "tok123"),
         statsRequest (.str "tok123")] :=
  ⟨rfl, rfl⟩

/-- C8, amended. The POST of `toggleUserActive` goes to
`/admin/toggle-user-active/{userId}/` with the CSRF and content-type headers
and neither query nor body, and it is the same request for every value of
`isActive`; so is everything the call does after it.  `isActive` only selects
the wording of the confirmation prompt. -/
theorem toggleUserActive_request_independent (p : UMPage) (userId : JSVal) (net : FetchOutcome)
    (token : JSVal) (htoken : getCookie p.cookie "csrftoken" = .ok token) :
    ∃ messages rest, ∀ isActive : JSVal,
      toggleUserActive p userId isActive true net
        = { p with
            messages := messages
            log := p.log ++ Event.confirm (togglePrompt isActive) true
              :: Event.fetch
                  (postRequest ("/admin/toggle-user-active/" ++ userId.toStr ++ "/") token)
              :: rest } := by
  obtain ⟨messages, rest, h⟩ := tryPost_uniform p
    ("/admin/toggle-user-active/" ++ userId.toStr ++ "/") "Error toggling user status:"
    "An error occurred while updating the user status." net token htoken
  refine ⟨messages, rest, fun isActive => ?_⟩
  simp only [toggleUserActive, tryToggleUserActive_eq, if_true]
  exact h _

/-- Witness of the amended C8: the sample page, user 7, a response reporting
success. -/
theorem toggleUserActive_request_independent_witness :
    ∃ messages rest, ∀ isActive : JSVal,
      toggleUserActive sampleUMPage (.num 7) isActive true (.response 200 (some successBody))
        = { sampleUMPage with
            messages := messages
            log := sampleUMPage.log ++ Event.confirm (togglePrompt isActive) true
              :: Event.fetch
                  (postRequest ("/admin/toggle-user-active/" ++ (JSVal.num 7).toStr ++ "/")
                    (.str "tok123"))
              :: rest } :=
  toggleUserActive_request_independent sampleUMPage (.num 7) (.response 200 (some successBody))
    (.str "tok123") rfl

end UserManagement

end DLRMS

namespace DLRMS

namespace UserManagement

/-- C9. After a confirmed `verifyUser`, `toggleUserActive` or `bulkVerifyUsers`
whose request is answered by a body with a truthy `success`, the trace of the
call is: the prompt, the POST, the success notification carrying the server
message (with the timer removing it), one GET of `/admin/search-users/` with
the current search text and the chosen filters, and one GET of
`/admin/user-stats/`.  The table body and the stat elements are not touched by
the call itself: the list is queried again in full, no row is patched. -/
theorem mutation_success_refreshes (p : UMPage) (userId isActive : JSVal) (status : Nat)
    (data success message token : JSVal)
    (htoken : getCookie p.cookie "csrftoken" = .ok token)
    (hsuccess : data.get "success" = .ok success) (hs : success.truthy = true)
    (hmessage : data.get "message" = .ok message) :
    ∃ refresh,
      refresh = [Event.notify message "success",
        Event.setTimeout (.removeNotification message "success") 5000,
        Event.fetch (searchRequest (p.searchInput.getD "") (p.roleFilter.getD "")
          (p.statusFilter.getD "") token),
        Event.fetch (statsRequest token)]
      ∧ verifyUser p userId true (.response status (some data))
        = { p with
            messages := p.messages ++ [⟨message, "success"⟩]
            log := p.log ++ Event.confirm "Are you sure you want to verify this user?" true
              :: Event.fetch (postRequest ("/admin/verify-user/" ++ userId.toStr ++ "/") token)
              :: refresh }
      ∧ toggleUserActive p userId isActive true (.response status (some data))
        = { p with
            messages := p.messages ++ [⟨message, "success"⟩]
            log := p.log ++ Event.confirm (togglePrompt isActive) true
              :: Event.fetch
                  (postRequest ("/admin/toggle-user-active/" ++ userId.toStr ++ "/") token)
              :: refresh }
      ∧ bulkVerifyUsers p true (.response status (some data))
        = { p with
            messages := p.messages ++ [⟨message, "success"⟩]
            log := p.log
              ++ Event.confirm "This will verify all unverified users. Are you sure?" true
              :: Event.fetch (postRequest "/admin/bulk-verify-users/" token)
              :: refresh }
      ∧ requestsOf refresh
        = [searchRequest (p.searchInput.getD "") (p.roleFilter.getD "")
            (p.statusFilter.getD "") token, statsRequest token]
      ∧ notificationsOf refresh = [⟨message, "success"⟩] := by
  refine ⟨_, rfl, ?_, ?_, ?_, rfl, rfl⟩
  · simp only [verifyUser, tryVerifyUser_eq, if_true]
    rw [tryPost_success (p.emit _) _ _ _ status data success message token htoken hsuccess hs
      hmessage]
    simp [UMPage.emit]
  · simp only [toggleUserActive, tryToggleUserActive_eq, if_true]
    rw [tryPost_success (p.emit _) _ _ _ status data success message token htoken hsuccess hs
      hmessage]
    simp [UMPage.emit, togglePrompt]
  · simp only [bulkVerifyUsers, tryBulkVerifyUsers_eq, if_true]
    rw [tryPost_success (p.emit _) _ _ _ status data success message token htoken hsuccess hs
      hmessage]
    simp [UMPage.emit]

/-- Witness of C9: the sample page, user 7 and a body reporting success. -/
theorem mutation_success_refreshes_witness :
    ∃ refresh,
      refresh = [Event.notify (.str "User verified successfully") "success",
        Event.setTimeout (.removeNotification (.str "User verified successfully") "success") 5000,
        Event.fetch (searchRequest (sampleUMPage.searchInput.getD "")
          (sampleUMPage.roleFilter.getD "") (sampleUMPage.statusFilter.getD "") (.str "tok123")),
        Event.fetch (statsRequest (.str "tok123"))]
      ∧ verifyUser sampleUMPage (.num 7) true (.response 200 (some successBody))
        = { sampleUMPage with
            messages := sampleUMPage.messages ++ [⟨.str "User verified successfully", "success"⟩]
            log := sampleUMPage.log
              ++ Event.confirm "Are you sure you want to verify this user?" true
              :: Event.fetch (postRequest ("/admin/verify-user/" ++ (JSVal.num 7).toStr ++ "/")
                  (.str "tok123"))
              :: refresh }
      ∧ toggleUserActive sampleUMPage (.num 7) (.bool true) true
          (.response 200 (some successBody))
        = { sampleUMPage with
            messages := sampleUMPage.messages ++ [⟨.str "User verified successfully", "success"⟩]
            log := sampleUMPage.log ++ Event.confirm (togglePrompt (.bool true)) true
              :: Event.fetch
                  (postRequest ("/admin/toggle-user-active/" ++ (JSVal.num 7).toStr ++ "/")
                    (.str "tok123"))
              :: refresh }
      ∧ bulkVerifyUsers sampleUMPage true (.response 200 (some successBody))
        = { sampleUMPage with
            messages := sampleUMPage.messages ++ [⟨.str "User verified successfully", "success"⟩]
            log := sampleUMPage.log
              ++ Event.confirm "This will verify all unverified users. Are you sure?" true
              :: Event.fetch (postRequest "/admin/bulk-verify-users/" (.str "tok123"))
              :: refresh }
      ∧ requestsOf refresh
        = [searchRequest (sampleUMPage.searchInput.getD "") (sampleUMPage.roleFilter.getD "")
            (sampleUMPage.statusFilter.getD "") (.str "tok123"), statsRequest (.str "tok123")]
      ∧ notificationsOf refresh = [⟨.str "User verified successfully", "success"⟩] :=
  mutation_success_refreshes sampleUMPage (.num 7) (.bool true) 200 successBody (.bool true)
    (.str "User verified successfully") (.str "tok123") rfl rfl rfl rfl

end UserManagement

end DLRMS

namespace DLRMS

namespace UserManagement

/-- C10, counterexample. A response with status 500 whose body reports
success is taken for a success: `verifyUser` shows the success message and
issues both refreshes. -/
theorem verifyUser_status_500_success :
    verifyUser sampleUMPage (.num 7) true (.response 500 (some successBody))
      = { sampleUMPage with
          messages := [⟨.str "User verified successfully", "success"⟩]
          log := [Event.confirm "Are you sure you want to verify this user?" true,
            Event.fetch (postRequest "/admin/verify-user/7/" (.str "tok123")),
            Event.notify (.str "User verified successfully") "success",
            Event.setTimeout
              (.removeNotification (.str "User verified successfully") "success") 5000,
            Event.fetch (searchRequest "ali" "surveyor" "" (.str "tok123")),
            Event.fetch (statsRequest (.str "tok123"))] } :=
  rfl

/-- C10, amended. A confirmed `verifyUser`, `toggleUserActive` or
`bulkVerifyUsers` fails when the request fails on the network, the body does
not parse, or the body has no truthy `success`, whatever the HTTP status,
which is not looked at.  Then exactly one message is shown, of type error, no
request other than the POST is issued (no list refresh, no stats refresh),
and the page is otherwise as before the call. -/
theorem mutation_failure_no_refresh (p : UMPage) (userId isActive : JSVal) (net : FetchOutcome)
    (hfail : reportsSuccess net = false) :
    (∃ message events,
      verifyUser p userId true net
        = { p with messages := p.messages ++ [⟨message, "error"⟩], log := p.log ++ events }
      ∧ notificationsOf events = [⟨message, "error"⟩]
      ∧ (requestsOf events = [] ∨ ∃ token, requestsOf events
          = [postRequest ("/admin/verify-user/" ++ userId.toStr ++ "/") token]))
    ∧ (∃ message events,
      toggleUserActive p userId isActive true net
        = { p with messages := p.messages ++ [⟨message, "error"⟩], log := p.log ++ events }
      ∧ notificationsOf events = [⟨message, "error"⟩]
      ∧ (requestsOf events = [] ∨ ∃ token, requestsOf events
          = [postRequest ("/admin/toggle-user-active/" ++ userId.toStr ++ "/") token]))
    ∧ (∃ message events,
      bulkVerifyUsers p true net
        = { p with messages := p.messages ++ [⟨message, "error"⟩], log := p.log ++ events }
      ∧ notificationsOf events = [⟨message, "error"⟩]
      ∧ (requestsOf events = [] ∨ ∃ token, requestsOf events
          = [postRequest "/admin/bulk-verify-users/" token])) := by
  refine ⟨?_, ?_, ?_⟩
  · obtain ⟨message, events, h, hn, hr⟩ := tryPost_failure
      (p.emit (.confirm "Are you sure you want to verify this user?" true))
      ("/admin/verify-user/" ++ userId.toStr ++ "/") "Error verifying user:"
      "An error occurred while verifying the user." net hfail
    refine ⟨message, .confirm "Are you sure you want to verify this user?" true :: events,
      ?_, ?_, ?_⟩
    · simp only [verifyUser, tryVerifyUser_eq, if_true]
      rw [h]
      simp [UMPage.emit]
    · simpa [notificationsOf] using hn
    · rcases hr with hr | ⟨token, _, hr⟩
      · exact Or.inl (by simpa [requestsOf] using hr)
      · exact Or.inr ⟨token, by simpa [requestsOf] using hr⟩
  · obtain ⟨message, events, h, hn, hr⟩ := tryPost_failure
      (p.emit (.confirm (togglePrompt isActive) true))
      ("/admin/toggle-user-active/" ++ userId.toStr ++ "/") "Error toggling user status:"
      "An error occurred while updating the user status." net hfail
    refine ⟨message, .confirm (togglePrompt isActive) true :: events, ?_, ?_, ?_⟩
    · simp only [toggleUserActive, tryToggleUserActive_eq, if_true]
      simp only [togglePrompt] at h
      rw [h]
      simp [UMPage.emit, togglePrompt]
    · simpa [notificationsOf] using hn
    · rcases hr with hr | ⟨token, _, hr⟩
      · exact Or.inl (by simpa [requestsOf] using hr)
      · exact Or.inr ⟨token, by simpa [requestsOf] using hr⟩
  · obtain ⟨message, events, h, hn, hr⟩ := tryPost_failure
      (p.emit (.confirm "This will verify all unverified users. Are you sure?" true))
      "/admin/bulk-verify-users/" "Error in bulk verification:"
      "An error occurred during bulk verification." net hfail
    refine ⟨message,
      .confirm "This will verify all unverified users. Are you sure?" true :: events,
      ?_, ?_, ?_⟩
    · simp only [bulkVerifyUsers, tryBulkVerifyUsers_eq, if_true]
      rw [h]
      simp [UMPage.emit]
    · simpa [notificationsOf] using hn
    · rcases hr with hr | ⟨token, _, hr⟩
      · exact Or.inl (by simpa [requestsOf] using hr)
      · exact Or.inr ⟨token, by simpa [requestsOf] using hr⟩

/-- Witness of the amended C10: the sample page, user 7 and a response with
status 404 whose body reports the failure. -/
theorem mutation_failure_no_refresh_witness :
    (∃ message events,
      verifyUser sampleUMPage (.num 7) true (.response 404 (some failureBody))
        = { sampleUMPage with
            messages := sampleUMPage.messages ++ [⟨message, "error"⟩]
            log := sampleUMPage.log ++ events }
      ∧ notificationsOf events = [⟨message, "error"⟩]
      ∧ (requestsOf events = [] ∨ ∃ token, requestsOf events
          = [postRequest ("/admin/verify-user/" ++ (JSVal.num 7).toStr ++ "/") token]))
    ∧ (∃ message events,
      toggleUserActive sampleUMPage (.num 7) (.bool false) true
          (.response 404 (some failureBody))
        = { sampleUMPage with
            messages := sampleUMPage.messages ++ [⟨message, "error"⟩]
            log := sampleUMPage.log ++ events }
      ∧ notificationsOf events = [⟨message, "error"⟩]
      ∧ (requestsOf events = [] ∨ ∃ token, requestsOf events
          = [postRequest ("/admin/toggle-user-active/" ++ (JSVal.num 7).toStr ++ "/") token]))
    ∧ (∃ message events,
      bulkVerifyUsers sampleUMPage true (.response 404 (some failureBody))
        = { sampleUMPage with
            messages := sampleUMPage.messages ++ [⟨message, "error"⟩]
            log := sampleUMPage.log ++ events }
      ∧ notificationsOf events = [⟨message, "error"⟩]
      ∧ (requestsOf events = [] ∨ ∃ token, requestsOf events
          = [postRequest "/admin/bulk-verify-users/" token])) :=
  mutation_failure_no_refresh sampleUMPage (.num 7) (.bool false)
    (.response 404 (some failureBody)) rfl

end UserManagement

end DLRMS

namespace DLRMS

namespace UserManagement

/-- The search answered by a body with a falsy `success`. -/
theorem searchUsers_reported (p : UMPage) (query : String) (status : Nat)
    (data success message token : JSVal)
    (htoken : getCookie p.cookie "csrftoken" = .ok token)
    (hsuccess : data.get "success" = .ok success) (hs : success.truthy = false)
    (hmessage : data.get "message" = .ok message) :
    searchUsers p query (.response status (some data))
      = { p with
          messages := p.messages ++ [⟨message, "error"⟩]
          log := p.log ++ [Event.fetch (searchRequest query (p.roleFilter.getD "")
              (p.statusFilter.getD "") token),
            Event.notify message "error",
            Event.setTimeout (.removeNotification message "error") 5000] } := by
  simp [searchUsers, searchUsersBegin, searchUsersResume, trySearchUsers, liftAt, bind,
    Except.bind, pure, Except.pure, awaitJson, catchWith, showMessage, UMPage.emit, htoken,
    hsuccess, hs, hmessage]

end UserManagement

/-- C6, counterexample. A body `success: false` without a message makes
`verifyUser` call `showMessage` with `undefined`: the one message on show has
no text from the server and no fallback text, its element is empty. -/
theorem verifyUser_failure_without_message :
    (UserManagement.verifyUser sampleUMPage (.num 7) true
        (.response 200 (some bareFailureBody))).messages
      = [⟨JSVal.undefined, "error"⟩]
    ∧ textContentOf JSVal.undefined = "" :=
  ⟨rfl, rfl⟩

/-- C6, amended. For a response whose `success` is falsy,
`CertificateVerifier.handleSubmit` shows, as an error, `response.error` when
that is truthy and the text `Certificate not found` otherwise; `verifyUser`,
`toggleUserActive`, `bulkVerifyUsers` and `searchUsers` of `UserManagement`
hand `data.message` to `showMessage` as it is, as an error: the message of the
server is shown when there is one, and there is no fallback text. -/
theorem reported_failure_message (vp : VerifierPage) (value : String) (status : Nat)
    (response success error : JSVal)
    (p : UMPage) (userId isActive : JSVal) (query : String) (umStatus : Nat)
    (data umSuccess message token : JSVal)
    (hinput : vp.certificateInput = some value) (hne : jsTrim value ≠ "")
    (hstatus : statusOk status = true)
    (hsuccess : response.get "success" = .ok success) (hs : success.truthy = false)
    (herror : response.get "error" = .ok error)
    (htoken : UserManagement.getCookie p.cookie "csrftoken" = .ok token)
    (humSuccess : data.get "success" = .ok umSuccess) (hus : umSuccess.truthy = false)
    (hmessage : data.get "message" = .ok message) :
    (∃ q, CertificateVerifier.handleSubmit vp (.response status (some response)) = .ok q
      ∧ q.notifications
        = [⟨if error.truthy then error else .str "Certificate not found", "error"⟩])
    ∧ (UserManagement.verifyUser p userId true (.response umStatus (some data))).messages
        = p.messages ++ [⟨message, "error"⟩]
    ∧ (UserManagement.toggleUserActive p userId isActive true
        (.response umStatus (some data))).messages
        = p.messages ++ [⟨message, "error"⟩]
    ∧ (UserManagement.bulkVerifyUsers p true (.response umStatus (some data))).messages
        = p.messages ++ [⟨message, "error"⟩]
    ∧ (UserManagement.searchUsers p query (.response umStatus (some data))).messages
        = p.messages ++ [⟨message, "error"⟩] := by
  refine ⟨⟨_, CertificateVerifier.handleSubmit_nonblank vp _ value hinput hne, ?_⟩, ?_, ?_, ?_, ?_⟩
  · simp [CertificateVerifier.trySubmit, CertificateVerifier.verifyCertificate,
      CertificateVerifier.catchSubmit, CertificateVerifier.showError,
      CertificateVerifier.showNotification, CertificateVerifier.hideLoading,
      CertificateVerifier.showLoading, VerifierPage.emit, bind, Except.bind, pure, Except.pure,
      liftAt, hstatus, hsuccess, hs, herror, JSVal.or]
  · simp only [UserManagement.verifyUser, UserManagement.tryVerifyUser_eq, if_true]
    rw [UserManagement.tryPost_reported (p.emit _) _ _ _ umStatus data umSuccess message token
      htoken humSuccess hus hmessage]
    simp [UMPage.emit]
  · simp only [UserManagement.toggleUserActive, UserManagement.tryToggleUserActive_eq, if_true]
    rw [UserManagement.tryPost_reported (p.emit _) _ _ _ umStatus data umSuccess message token
      htoken humSuccess hus hmessage]
    simp [UMPage.emit]
  · simp only [UserManagement.bulkVerifyUsers, UserManagement.tryBulkVerifyUsers_eq, if_true]
    rw [UserManagement.tryPost_reported (p.emit _) _ _ _ umStatus data umSuccess message token
      htoken humSuccess hus hmessage]
    simp [UMPage.emit]
  · rw [UserManagement.searchUsers_reported p query umStatus data umSuccess message token htoken
      humSuccess hus hmessage]

/-- Witness of the amended C6: the sample pages, a verify response with its
reason and a body with its message. -/
theorem reported_failure_message_witness :
    (∃ q, CertificateVerifier.handleSubmit sampleVerifierPage
        (.response 200 (some revokedResponse)) = .ok q
      ∧ q.notifications
        = [⟨if (JSVal.str "Certificate has been revoked").truthy
              then .str "Certificate has been revoked" else .str "Certificate not found",
            "error"⟩])
    ∧ (UserManagement.verifyUser sampleUMPage (.num 7) true
        (.response 400 (some failureBody))).messages
        = sampleUMPage.messages ++ [⟨.str "User not found", "error"⟩]
    ∧ (UserManagement.toggleUserActive sampleUMPage (.num 7) (.bool true) true
        (.response 400 (some failureBody))).messages
        = sampleUMPage.messages ++ [⟨.str "User not found", "error"⟩]
    ∧ (UserManagement.bulkVerifyUsers sampleUMPage true
        (.response 400 (some failureBody))).messages
        = sampleUMPage.messages ++ [⟨.str "User not found", "error"⟩]
    ∧ (UserManagement.searchUsers sampleUMPage "ali"
        (.response 400 (some failureBody))).messages
        = sampleUMPage.messages ++ [⟨.str "User not found", "error"⟩] :=
  reported_failure_message sampleVerifierPage "  RW-2024-00123 " 200 revokedResponse
    (.bool false) (.str "Certificate has been revoked")
    sampleUMPage (.num 7) (.bool true) "ali" 400 failureBody (.bool false)
    (.str "User not found") (.str "tok123")
    rfl (by decide) rfl rfl rfl rfl rfl rfl rfl rfl

end DLRMS

namespace DLRMS

theorem requestsOf_append (a b : List Event) :
    requestsOf (a ++ b) = requestsOf a ++ requestsOf b := by
  induction a with
  | nil => rfl
  | cons e es ih => cases e <;> simp [requestsOf, ih]

namespace UserManagement

theorem searchUsersBegin_issued (p : UMPage) (query : String) (token : JSVal)
    (htoken : getCookie p.cookie "csrftoken" = .ok token) :
    (searchUsersBegin p query).1
      = { p with
          log := p.log ++ [Event.fetch
            (searchRequest query (p.roleFilter.getD "") (p.statusFilter.getD "") token)] } := by
  simp [searchUsersBegin, htoken, UMPage.emit]

theorem searchUsersBegin_searchInput (p : UMPage) (query : String) :
    (searchUsersBegin p query).1.searchInput = p.searchInput := by
  unfold searchUsersBegin
  cases getCookie p.cookie "csrftoken" <;> rfl

theorem typeAndWait_cons (s : SearchBox) (e : InputEvent) (rest : List InputEvent) :
    typeAndWait s (e :: rest) = typeAndWait (inputAt s e) rest := rfl

/-- With a timer pending for event `e`, whose value the field holds, what
follows starts exactly the expected searches. -/
theorem typeAndWait_pending (rest : List InputEvent) :
    ∀ (e : InputEvent) (s : SearchBox),
      s.searchTimeout = some (e.time + 300) → s.page.searchInput = some e.value →
      (typeAndWait s rest).fired = s.fired ++ expectedSearches (e :: rest) := by
  induction rest with
  | nil =>
    intro e s ht hv
    simp [typeAndWait, ht, searchTimerFires, hv, expectedSearches]
  | cons n rest ih =>
    intro e s ht hv
    rw [typeAndWait_cons]
    by_cases hdue : e.time + 300 ≤ n.time
    · have h := ih n (inputAt s n) rfl rfl
      rw [h]
      simp [inputAt, onSearchInput, advanceTo, ht, hdue, searchTimerFires, hv, expectedSearches]
    · have h := ih n (inputAt s n) rfl rfl
      rw [h]
      simp [inputAt, onSearchInput, advanceTo, ht, hdue, expectedSearches]

/-- The requests of the searches started by what follows a pending timer. -/
theorem typeAndWait_requests (token : JSVal) (role status : String) (rest : List InputEvent) :
    ∀ (e : InputEvent) (s : SearchBox),
      s.searchTimeout = some (e.time + 300) → s.page.searchInput = some e.value →
      getCookie s.page.cookie "csrftoken" = .ok token →
      s.page.roleFilter.getD "" = role → s.page.statusFilter.getD "" = status →
      requestsOf (typeAndWait s rest).page.log
        = requestsOf s.page.log
          ++ (expectedSearches (e :: rest)).map
              (fun call => searchRequest call.2 role status token) := by
  induction rest with
  | nil =>
    intro e s ht hv hc hr hs
    simp [typeAndWait, ht, searchTimerFires, hv, expectedSearches,
      searchUsersBegin_issued s.page e.value token hc, requestsOf_append, requestsOf, hr, hs]
  | cons n rest ih =>
    intro e s ht hv hc hr hs
    rw [typeAndWait_cons]
    by_cases hdue : e.time + 300 ≤ n.time
    · have h := ih n (inputAt s n) rfl rfl
        (by simpa [inputAt, onSearchInput, advanceTo, ht, hdue, searchTimerFires,
          searchUsersBegin_issued s.page _ token hc] using hc)
        (by simpa [inputAt, onSearchInput, advanceTo, ht, hdue, searchTimerFires,
          searchUsersBegin_issued s.page _ token hc] using hr)
        (by simpa [inputAt, onSearchInput, advanceTo, ht, hdue, searchTimerFires,
          searchUsersBegin_issued s.page _ token hc] using hs)
      rw [h]
      simp [inputAt, onSearchInput, advanceTo, ht, hdue, searchTimerFires, hv, expectedSearches,
        searchUsersBegin_issued s.page e.value token hc, requestsOf_append, requestsOf, hr, hs]
    · have h := ih n (inputAt s n) rfl rfl
        (by simpa [inputAt, onSearchInput, advanceTo, ht, hdue] using hc)
        (by simpa [inputAt, onSearchInput, advanceTo, ht, hdue] using hr)
        (by simpa [inputAt, onSearchInput, advanceTo, ht, hdue] using hs)
      rw [h]
      simp [inputAt, onSearchInput, advanceTo, ht, hdue, expectedSearches]

/-- C11. Starting with no timer pending, a sequence of `input` events followed
by silence makes the timer call `searchUsers` exactly as a debounce of 300 ms
should: once for every event whose successor, if any, comes at least 300 ms
later, at the instant of that event plus 300 ms and with the value that event
left in the field, and at no other time; each call issues the GET of the
search with that value as `q`.  In particular keystrokes at 0, 100 and 150 ms
start one search, at 450 ms, with the last value. -/
theorem debounced_search (p : UMPage) (events : List InputEvent) (token : JSVal)
    (htoken : getCookie p.cookie "csrftoken" = .ok token) :
    (typeAndWait ⟨p, none, []⟩ events).fired = expectedSearches events
    ∧ requestsOf (typeAndWait ⟨p, none, []⟩ events).page.log
      = requestsOf p.log
        ++ (expectedSearches events).map
            (fun call => searchRequest call.2 (p.roleFilter.getD "") (p.statusFilter.getD "")
              token)
    ∧ expectedSearches [⟨0, "a"⟩, ⟨100, "al"⟩, ⟨150, "ali"⟩] = [(450, "ali")] := by
  refine ⟨?_, ?_, by decide⟩
  · cases events with
    | nil => rfl
    | cons e rest =>
      rw [typeAndWait_cons]
      have h := typeAndWait_pending rest e (inputAt ⟨p, none, []⟩ e) rfl rfl
      rw [h]
      simp [inputAt, onSearchInput, advanceTo]
  · cases events with
    | nil => simp [typeAndWait, expectedSearches]
    | cons e rest =>
      rw [typeAndWait_cons]
      have h := typeAndWait_requests token (p.roleFilter.getD "") (p.statusFilter.getD "") rest e
        (inputAt ⟨p, none, []⟩ e) rfl rfl htoken rfl rfl
      rw [h]
      simp [inputAt, onSearchInput, advanceTo]

/-- Witness of C11: the burst typed on the sample page. -/
theorem debounced_search_witness :
    (typeAndWait ⟨sampleUMPage, none, []⟩ burstEvents).fired = expectedSearches burstEvents
    ∧ requestsOf (typeAndWait ⟨sampleUMPage, none, []⟩ burstEvents).page.log
      = requestsOf sampleUMPage.log
        ++ (expectedSearches burstEvents).map
            (fun call => searchRequest call.2 (sampleUMPage.roleFilter.getD "")
              (sampleUMPage.statusFilter.getD "") (.str "tok123"))
    ∧ expectedSearches [⟨0, "a"⟩, ⟨100, "al"⟩, ⟨150, "ali"⟩] = [(450, "ali")] :=
  debounced_search sampleUMPage burstEvents (.str "tok123") rfl

end UserManagement

end DLRMS

namespace DLRMS

namespace UserManagement

theorem string_join_foldl (l : List String) (acc : String) :
    l.foldl (fun r s => r ++ s) acc = acc ++ l.foldl (fun r s => r ++ s) "" := by
  induction l generalizing acc with
  | nil => simp
  | cons s l ih =>
    simp only [List.foldl_cons]
    rw [ih (acc ++ s), ih ("" ++ s)]
    simp [String.append_assoc]

theorem string_join_cons (s : String) (l : List String) :
    String.join (s :: l) = s ++ String.join l := by
  simp only [String.join, List.foldl_cons]
  rw [string_join_foldl]
  simp

theorem userRows_of_forall₂ (users : List JSVal) (rows : List String)
    (h : List.Forall₂ (fun user row => generateUserRow user = .ok row) users rows) :
    userRows users = .ok (String.join rows) := by
  induction h with
  | nil => rfl
  | cons hrow _ ih =>
    simp only [userRows, hrow, ih, bind, Except.bind, pure, Except.pure, string_join_cons]

set_option maxRecDepth 100000 in
/-- C12. When the table body exists and every user of the response renders,
`updateUserTable` replaces its content, whatever it was: for an empty list by
the one row `No users found`, which has one cell spanning 5 columns, as many
as the cells of the row template; otherwise by the rows `generateUserRow`
gives for the users, concatenated in list order. -/
theorem updateUserTable_replaces (p : UMPage) (old : String) (users : List JSVal)
    (rows : List String)
    (htbody : p.tbody = some old)
    (hrows : List.Forall₂ (fun user row => generateUserRow user = .ok row) users rows) :
    updateUserTable p (.arr users)
      = .ok { p with tbody := some (if users.isEmpty then noUsersRow else String.join rows) }
    ∧ occurrences "<tr" noUsersRow = 1
    ∧ occurrences "<td" noUsersRow = 1
    ∧ occurrences "<td colspan=\"5\"" noUsersRow = 1
    ∧ occurrences ">No users found</td>" noUsersRow = 1
    ∧ occurrences "<td" userRowTemplateText = 5 := by
  refine ⟨?_, rfl, rfl, rfl, rfl, rfl⟩
  have hr := userRows_of_forall₂ users rows hrows
  cases users with
  | nil =>
    simp [updateUserTable, htbody, JSVal.get, liftAt, bind, Except.bind, pure, Except.pure,
      isZero]
  | cons u us =>
    have hz : isZero (JSVal.num ((u :: us).length : Nat)) = false := by
      simp [isZero]
      omega
    simp only [updateUserTable, htbody, JSVal.get, liftAt, bind, Except.bind, pure, Except.pure,
      if_true, hz, hr]
    simp

/-- Witness of C12: the sample page and a response with two users. -/
theorem updateUserTable_replaces_witness :
    updateUserTable sampleUMPage (.arr [sampleUser, constructorRoleUser])
      = .ok { sampleUMPage with
              tbody := some (if [sampleUser, constructorRoleUser].isEmpty then noUsersRow
                else String.join [renderedRow sampleUser, renderedRow constructorRoleUser]) }
    ∧ occurrences "<tr" noUsersRow = 1
    ∧ occurrences "<td" noUsersRow = 1
    ∧ occurrences "<td colspan=\"5\"" noUsersRow = 1
    ∧ occurrences ">No users found</td>" noUsersRow = 1
    ∧ occurrences "<td" userRowTemplateText = 5 :=
  updateUserTable_replaces sampleUMPage "" [sampleUser, constructorRoleUser]
    [renderedRow sampleUser, renderedRow constructorRoleUser] rfl
    (.cons rfl (.cons rfl .nil))

end UserManagement

end DLRMS

namespace DLRMS

namespace UserManagement

/-- The role badge where the lookup behaves as a table: a role among the five
keys gets the classes of the table, and a role that is neither a key nor the
name of an inherited member gets the neutral classes. -/
theorem roleBadgeClasses_table (role : JSVal) :
    roleBadgeClasses (.str "admin") = "bg-purple-100 text-purple-800"
    ∧ roleBadgeClasses (.str "registry_officer") = "bg-blue-100 text-blue-800"
    ∧ roleBadgeClasses (.str "surveyor") = "bg-green-100 text-green-800"
    ∧ roleBadgeClasses (.str "notary") = "bg-orange-100 text-orange-800"
    ∧ roleBadgeClasses (.str "landowner") = "bg-gray-100 text-gray-800"
    ∧ (lookupRole role.toStr roleClasses = none ∧ lookupRole role.toStr inheritedMembers = none
        → roleBadgeClasses role = "bg-gray-100 text-gray-800") := by
  refine ⟨rfl, rfl, rfl, rfl, rfl, ?_⟩
  rintro ⟨h1, h2⟩
  simp [roleBadgeClasses, h1, h2]

/-- C13, at the failing input. The role `constructor` is not a key of
`roleClasses`, yet `roleClasses[user.role]` finds the member inherited from
`Object.prototype`, which is truthy: the fallback is not taken and the class
attribute of the badge receives the text of that member instead of the
neutral classes.  The same happens for `__proto__`. -/
theorem roleBadge_inherited_member :
    lookupRole "constructor" roleClasses = none
    ∧ roleBadgeClasses (.str "constructor") = "function Object() \x7b [native code] \x7d"
    ∧ roleBadgeClasses (.str "__proto__") = "[object Object]"
    ∧ roleBadgeClasses (.str "constructor") ≠ "bg-gray-100 text-gray-800"
    ∧ generateUserRow constructorRoleUser
      = .ok (userRowTpl0 ++ "8" ++ userRowTpl1 ++ "J" ++ userRowTpl2 ++ "M"
          ++ userRowTpl3 ++ "Jean" ++ userRowTpl4 ++ "Mugabo" ++ userRowTpl5
          ++ "jean@example.rw" ++ userRowTpl6 ++ "function Object() \x7b [native code] \x7d"
          ++ userRowTpl7 ++ "Constructor" ++ userRowTpl8 ++ verifiedBadge ++ userRowTpl9
          ++ inactiveBadge ++ userRowTpl10 ++ "2024-03-01" ++ userRowTpl11
          ++ String.join [editAction (.num 8), activateAction (.num 8)] ++ userRowTpl12) :=
  ⟨rfl, rfl, rfl, by decide, rfl⟩

end UserManagement

end DLRMS

namespace DLRMS

namespace UserManagement

set_option maxRecDepth 20000 in
/-- C14. Every row `generateUserRow` renders has, in its status cell, the
badge `Verified` when `is_verified` is truthy and the badge `Pending`
otherwise, followed by the badge `Inactive` exactly when `is_active` is falsy;
and, in its last cell, the actions in this order: the edit link for the id of
the user, the button `Verify` exactly when `is_verified` is falsy, then the
button `Deactivate`, calling `toggleUserActive(id, true)`, when `is_active` is
truthy and the button `Activate`, calling `toggleUserActive(id, false)`,
otherwise. -/
theorem generateUserRow_status_and_actions (user : JSVal) (row : String)
    (h : generateUserRow user = .ok row) :
    ∃ (id is_verified is_active date_joined : JSVal) (head : String),
      user.get "id" = .ok id
      ∧ user.get "is_verified" = .ok is_verified
      ∧ user.get "is_active" = .ok is_active
      ∧ user.get "date_joined" = .ok date_joined
      ∧ row = head ++ userRowTpl8
          ++ (if is_verified.truthy then verifiedBadge else pendingBadge)
          ++ userRowTpl9
          ++ (if is_active.truthy then "" else inactiveBadge)
          ++ userRowTpl10 ++ date_joined.toStr ++ userRowTpl11
          ++ String.join
              ([editAction id]
                ++ (if is_verified.truthy then [] else [verifyAction id])
                ++ [if is_active.truthy then deactivateAction id else activateAction id])
          ++ userRowTpl12
      ∧ deactivateAction id
          = "<button onclick=\"userManagement.toggleUserActive(" ++ id.toStr
            ++ ", true)\" class=\"text-red-600 hover:text-red-900\">Deactivate</button>"
      ∧ activateAction id
          = "<button onclick=\"userManagement.toggleUserActive(" ++ id.toStr
            ++ ", false)\" class=\"text-green-600 hover:text-green-900\">Activate</button>"
      ∧ occurrences "Verified" verifiedBadge = 1 ∧ occurrences "Pending" verifiedBadge = 0
      ∧ occurrences "Pending" pendingBadge = 1 ∧ occurrences "Verified" pendingBadge = 0
      ∧ occurrences "Inactive" inactiveBadge = 1 := by
  unfold generateUserRow at h
  obtain ⟨is_verified, hver, h⟩ := bind_eq_ok h
  obtain ⟨is_active, hact, h⟩ := bind_eq_ok h
  obtain ⟨id, hid, h⟩ := bind_eq_ok h
  obtain ⟨idText, hp1, h⟩ := bind_eq_ok h
  obtain ⟨first_name, hfn, h⟩ := bind_eq_ok h
  obtain ⟨firstInitial, hf, h⟩ := bind_eq_ok h
  obtain ⟨last_name, hln, h⟩ := bind_eq_ok h
  obtain ⟨lastInitial, hl, h⟩ := bind_eq_ok h
  obtain ⟨firstText, hp2, h⟩ := bind_eq_ok h
  obtain ⟨lastText, hp3, h⟩ := bind_eq_ok h
  obtain ⟨email, hem, h⟩ := bind_eq_ok h
  obtain ⟨emailText, hp4, h⟩ := bind_eq_ok h
  obtain ⟨role, hrole, h⟩ := bind_eq_ok h
  obtain ⟨roleKey, hp5, h⟩ := bind_eq_ok h
  obtain ⟨role_display, hrd, h⟩ := bind_eq_ok h
  obtain ⟨displayText, hp6, h⟩ := bind_eq_ok h
  obtain ⟨date_joined, hdj, h⟩ := bind_eq_ok h
  obtain ⟨joinedText, hp7, h⟩ := bind_eq_ok h
  have hrow := Except.ok.inj h
  rw [print_eq_ok hp7] at hrow
  refine ⟨id, is_verified, is_active, date_joined,
    userRowTpl0 ++ idText ++ userRowTpl1 ++ firstInitial ++ userRowTpl2 ++ lastInitial
      ++ userRowTpl3 ++ firstText ++ userRowTpl4 ++ lastText ++ userRowTpl5
      ++ emailText ++ userRowTpl6 ++ roleBadgeClasses role ++ userRowTpl7
      ++ displayText,
    hid, hver, hact, hdj, ?_, rfl, rfl, rfl, rfl, rfl, rfl, rfl⟩
  rw [← hrow]
  by_cases hv : is_verified.truthy = true <;> by_cases ha : is_active.truthy = true <;>
    simp [userActions, hv, ha, String.append_assoc]

/-- Witness of C14: the sample user, not verified and active. -/
theorem generateUserRow_status_and_actions_witness :
    ∃ (id is_verified is_active date_joined : JSVal) (head : String),
      sampleUser.get "id" = .ok id
      ∧ sampleUser.get "is_verified" = .ok is_verified
      ∧ sampleUser.get "is_active" = .ok is_active
      ∧ sampleUser.get "date_joined" = .ok date_joined
      ∧ renderedRow sampleUser = head ++ userRowTpl8
          ++ (if is_verified.truthy then verifiedBadge else pendingBadge)
          ++ userRowTpl9
          ++ (if is_active.truthy then "" else inactiveBadge)
          ++ userRowTpl10 ++ date_joined.toStr ++ userRowTpl11
          ++ String.join
              ([editAction id]
                ++ (if is_verified.truthy then [] else [verifyAction id])
                ++ [if is_active.truthy then deactivateAction id else activateAction id])
          ++ userRowTpl12
      ∧ deactivateAction id
          = "<button onclick=\"userManagement.toggleUserActive(" ++ id.toStr
            ++ ", true)\" class=\"text-red-600 hover:text-red-900\">Deactivate</button>"
      ∧ activateAction id
          = "<button onclick=\"userManagement.toggleUserActive(" ++ id.toStr
            ++ ", false)\" class=\"text-green-600 hover:text-green-900\">Activate</button>"
      ∧ occurrences "Verified" verifiedBadge = 1 ∧ occurrences "Pending" verifiedBadge = 0
      ∧ occurrences "Pending" pendingBadge = 1 ∧ occurrences "Verified" pendingBadge = 0
      ∧ occurrences "Inactive" inactiveBadge = 1 :=
  generateUserRow_status_and_actions sampleUser (renderedRow sampleUser) rfl

end UserManagement

end DLRMS

namespace DLRMS

namespace UserManagement

theorem setStatText_of_not_hasStat (key text : String) (els : List (String × String))
    (h : hasStat key els = false) : setStatText key text els = els := by
  induction els with
  | nil => rfl
  | cons e rest ih =>
    obtain ⟨k, t⟩ := e
    simp only [hasStat, List.any_cons, Bool.or_eq_false_iff, beq_eq_false_iff_ne, ne_eq] at h
    have hrest : hasStat key rest = false := by simpa [hasStat] using h.2
    simp [setStatText, h.1, ih hrest]

theorem patchOne_of_not_hasStat (stats : List (String × JSVal)) (key : String)
    (els : List (String × String)) (h : hasStat key els = false) : patchOne stats key els = els := by
  unfold patchOne
  split
  · rfl
  · exact setStatText_of_not_hasStat key _ els h

/-- On a stats object the callback of `forEach` never throws and patches one key. -/
theorem updateStat_obj (stats : List (String × JSVal)) (p : UMPage) (key : String) :
    updateStat (.obj stats) p key
      = .ok { p with statElements := patchOne stats key p.statElements } := by
  unfold updateStat
  by_cases h : hasStat key p.statElements = true
  · simp only [h, if_true, JSVal.get, liftAt, bind, Except.bind, patchOne]
    cases lookupField key stats <;> rfl
  · have h' : hasStat key p.statElements = false := by simpa using h
    simp [h, patchOne_of_not_hasStat stats key p.statElements h', pure, Except.pure]

theorem patchOne_cons (stats : List (String × JSVal)) (key k t : String)
    (rest : List (String × String)) :
    patchOne stats key ((k, t) :: rest)
      = if k = key then (k, statTextFor stats key t) :: rest
        else (k, t) :: patchOne stats key rest := by
  unfold patchOne statTextFor
  by_cases hk : k = key
  · subst hk
    cases lookupField k stats <;> simp [setStatText]
  · cases lookupField key stats <;> simp [setStatText, hk]

theorem patchStats_nil_keys (stats : List (String × JSVal)) (els : List (String × String)) :
    patchStats stats [] els = els := by
  induction els with
  | nil => rfl
  | cons e rest ih =>
    obtain ⟨k, t⟩ := e
    simp [patchStats, ih]

/-- Patching one more key first is patching with that key added. -/
theorem patchStats_patchOne (stats : List (String × JSVal)) (key : String)
    (els : List (String × String)) :
    ∀ keys : List String, key ∉ keys →
      patchStats stats keys (patchOne stats key els) = patchStats stats (key :: keys) els := by
  induction els with
  | nil =>
    intro keys _
    unfold patchOne
    cases lookupField key stats <;> rfl
  | cons e rest ih =>
    intro keys hkey
    obtain ⟨k, t⟩ := e
    rw [patchOne_cons]
    by_cases hk : k = key
    · subst hk
      simp [patchStats, hkey]
    · have hne : (key == k) = false := by
        simpa using fun h => hk h.symm
      by_cases hmem : k ∈ keys
      · have hkey' : key ∉ keys.erase k := fun h => hkey (List.mem_of_mem_erase h)
        simp [patchStats, hk, hmem, ih (keys.erase k) hkey', List.erase_cons_tail, hne]
      · simp [patchStats, hk, hmem, ih keys hkey]

theorem updateStats_obj (stats : List (String × JSVal)) (keys : List String) :
    keys.Nodup → ∀ p : UMPage,
      updateStats (.obj stats) p keys
        = .ok { p with statElements := patchStats stats keys p.statElements } := by
  induction keys with
  | nil =>
    intro _ p
    simp [updateStats, patchStats_nil_keys, pure, Except.pure]
  | cons key keys ih =>
    intro hnodup p
    obtain ⟨hkey, hrest⟩ := List.nodup_cons.mp hnodup
    simp only [updateStats, updateStat_obj, bind, Except.bind]
    rw [ih hrest]
    simp [patchStats_patchOne stats key p.statElements keys hkey]

theorem statText_patchStats (stats : List (String × JSVal)) (key : String)
    (els : List (String × String)) :
    ∀ keys : List String,
      statText key (patchStats stats keys els)
        = (statText key els).map
            (fun old => if key ∈ keys then statTextFor stats key old else old) := by
  induction els with
  | nil => intro keys; rfl
  | cons e rest ih =>
    intro keys
    obtain ⟨k, t⟩ := e
    by_cases hmem : k ∈ keys
    · by_cases hk : k = key
      · subst hk
        simp [patchStats, statText, hmem]
      · have hiff : key ∈ keys.erase k ↔ key ∈ keys :=
          List.mem_erase_of_ne (fun h => hk h.symm)
        simp [patchStats, statText, hmem, hk, ih (keys.erase k), hiff]
    · by_cases hk : k = key
      · subst hk
        simp [patchStats, statText, hmem]
      · simp [patchStats, statText, hmem, hk, ih keys]

/-- C15. For every stats object `updateStatsDisplay` returns without throwing
and leaves the stat elements patched as specified: for each of the five keys
the matching element (the first one carrying that `data-stat`) shows the text
of `stats[key]` when that is defined and what it showed before otherwise;
elements of other keys, further elements of the same key and the rest of the
page are left alone.  Read per key: the text `querySelector` finds for a key
afterwards is the text of the stat when the key is one of the five and the
stat is defined, and the old text otherwise; where there was no element there
is none. -/
theorem updateStatsDisplay_patches (p : UMPage) (stats : List (String × JSVal)) :
    updateStatsDisplay p (.obj stats)
      = .ok { p with statElements := patchStats stats statKeys p.statElements }
    ∧ ∀ key : String,
        statText key (patchStats stats statKeys p.statElements)
          = (statText key p.statElements).map
              (fun old => if key ∈ statKeys then statTextFor stats key old else old) :=
  ⟨updateStats_obj stats statKeys (by decide) p,
    fun key => statText_patchStats stats key p.statElements statKeys⟩

end UserManagement

end DLRMS

namespace DLRMS

theorem onSignCalls_append (a b : List SigEvent) :
    onSignCalls (a ++ b) = onSignCalls a ++ onSignCalls b := by
  induction a with
  | nil => rfl
  | cons e es ih => cases e <;> simp [onSignCalls, ih]

namespace SignatureManager

/-- What `showError` leaves: no call of the callback, the modal as visible as
before, the drawing untouched. -/
theorem showError_frame (s : SigManager) (message : String) :
    onSignCalls (managerOf (showError s message)).log = onSignCalls s.log
    ∧ (managerOf (showError s message)).modal.map (fun m => m.hidden)
        = s.modal.map (fun m => m.hidden)
    ∧ (managerOf (showError s message)).signaturePad = s.signaturePad := by
  unfold showError
  cases hm : s.modal with
  | none => simp [managerOf, hm]
  | some modal =>
    cases hc : modal.content with
    | none => simp [managerOf, hm, hc]
    | some boxes => simp [managerOf, hm, hc, onSignCalls_append, onSignCalls]

/-- C16. When the drawing surface is empty (`isEmpty()` is true, which
includes a manager without a signature pad), `sign()` does nothing but call
`showError('Please draw your signature first.')`: whether it returns or
throws, the `onSign` callback has not been called, the modal is as visible as
it was and the pad is untouched. -/
theorem sign_empty_surface (s : SigManager) (now : String) (callbackOk : Bool)
    (hempty : isEmpty s = true) :
    sign s now callbackOk = showError s "Please draw your signature first."
    ∧ onSignCalls (managerOf (sign s now callbackOk)).log = onSignCalls s.log
    ∧ (managerOf (sign s now callbackOk)).modal.map (fun m => m.hidden)
        = s.modal.map (fun m => m.hidden)
    ∧ (managerOf (sign s now callbackOk)).signaturePad = s.signaturePad := by
  have h : sign s now callbackOk = showError s "Please draw your signature first." := by
    simp [sign, hempty]
  rw [h]
  exact ⟨rfl, showError_frame s _⟩

/-- Witness of C16: the open modal with nothing drawn. -/
theorem sign_empty_surface_witness :
    sign emptySigManager "2024-05-01T10:00:00.000Z" true
        = showError emptySigManager "Please draw your signature first."
    ∧ onSignCalls (managerOf (sign emptySigManager "2024-05-01T10:00:00.000Z" true)).log
        = onSignCalls emptySigManager.log
    ∧ (managerOf (sign emptySigManager "2024-05-01T10:00:00.000Z" true)).modal.map
          (fun m => m.hidden)
        = emptySigManager.modal.map (fun m => m.hidden)
    ∧ (managerOf (sign emptySigManager "2024-05-01T10:00:00.000Z" true)).signaturePad
        = emptySigManager.signaturePad :=
  sign_empty_surface emptySigManager "2024-05-01T10:00:00.000Z" true rfl

/-- C17. With a drawing on the pad, a callback registered and the modal in
place with its `.modal-content`, `sign()` calls the callback once, with the
capture data of the drawing and the document id of the modal.  When the
callback completes, the modal is hidden and the pad cleared; when it fails,
modal and drawing stay as they are and the error `Failed to save signature.
Please try again.` is put at the top of the modal content, to be removed
after 3000 ms. -/
theorem sign_calls_back_once (s : SigManager) (now : String) (modal : Modal)
    (strokes : List Stroke) (boxes : List String)
    (hpad : s.signaturePad = some strokes) (hdrawn : strokes.isEmpty = false)
    (hcallback : s.onSign = true)
    (hmodal : s.modal = some modal) (hcontent : modal.content = some boxes) :
    sign s now true
      = .ok { s with
              modal := some { modal with hidden := true }
              signaturePad := some []
              log := s.log
                ++ [SigEvent.onSign (some ⟨strokes, strokes, now⟩) modal.documentId] }
    ∧ sign s now false
      = .ok { s with
              modal := some
                { modal with
                  content := some ("Failed to save signature. Please try again." :: boxes) }
              log := s.log
                ++ [SigEvent.onSign (some ⟨strokes, strokes, now⟩) modal.documentId,
                    SigEvent.errorShown "Failed to save signature. Please try again.",
                    SigEvent.removeErrorAfter "Failed to save signature. Please try again."
                      3000] }
    ∧ onSignCalls [SigEvent.onSign (some ⟨strokes, strokes, now⟩) modal.documentId,
          SigEvent.errorShown "Failed to save signature. Please try again.",
          SigEvent.removeErrorAfter "Failed to save signature. Please try again." 3000]
        = [(some ⟨strokes, strokes, now⟩, modal.documentId)] := by
  refine ⟨?_, ?_, rfl⟩
  · simp [sign, isEmpty, getSignatureData, hide, clear, hpad, hdrawn, hcallback, hmodal]
  · simp [sign, isEmpty, getSignatureData, showError, hpad, hdrawn, hcallback, hmodal, hcontent]

/-- Witness of C17: the open modal of document 42 with two strokes drawn. -/
theorem sign_calls_back_once_witness :
    sign sampleSigManager "2024-05-01T10:00:00.000Z" true
      = .ok { sampleSigManager with
              modal := some
                { ({ hidden := false, documentId := .str "42", content := some [] } : Modal) with
                  hidden := true }
              signaturePad := some []
              log := sampleSigManager.log
                ++ [SigEvent.onSign
                      (some ⟨[[(1, 1), (2, 3)], [(4, 4)]], [[(1, 1), (2, 3)], [(4, 4)]],
                        "2024-05-01T10:00:00.000Z"⟩)
                      (JSVal.str "42")] }
    ∧ sign sampleSigManager "2024-05-01T10:00:00.000Z" false
      = .ok { sampleSigManager with
              modal := some
                { ({ hidden := false, documentId := .str "42", content := some [] } : Modal) with
                  content := some ("Failed to save signature. Please try again." :: []) }
              log := sampleSigManager.log
                ++ [SigEvent.onSign
                      (some ⟨[[(1, 1), (2, 3)], [(4, 4)]], [[(1, 1), (2, 3)], [(4, 4)]],
                        "2024-05-01T10:00:00.000Z"⟩)
                      (JSVal.str "42"),
                    SigEvent.errorShown "Failed to save signature. Please try again.",
                    SigEvent.removeErrorAfter "Failed to save signature. Please try again."
                      3000] }
    ∧ onSignCalls [SigEvent.onSign
            (some ⟨[[(1, 1), (2, 3)], [(4, 4)]], [[(1, 1), (2, 3)], [(4, 4)]],
              "2024-05-01T10:00:00.000Z"⟩)
            (JSVal.str "42"),
          SigEvent.errorShown "Failed to save signature. Please try again.",
          SigEvent.removeErrorAfter "Failed to save signature. Please try again." 3000]
        = [(some ⟨[[(1, 1), (2, 3)], [(4, 4)]], [[(1, 1), (2, 3)], [(4, 4)]],
              "2024-05-01T10:00:00.000Z"⟩, JSVal.str "42")] :=
  sign_calls_back_once sampleSigManager "2024-05-01T10:00:00.000Z"
    { hidden := false, documentId := .str "42", content := some [] }
    [[(1, 1), (2, 3)], [(4, 4)]] [] rfl rfl rfl rfl rfl

end SignatureManager

end DLRMS

namespace DLRMS

theorem infix_of_eq_append (pre mid post whole : String)
    (h : whole = pre ++ mid ++ post) : mid.data <:+: whole.data :=
  ⟨pre.data, post.data, by simp [h, String.data_append]⟩

namespace CertificateVerifier

theorem statusBadge_ne_validBadge (text : String) :
    statusBadgeOpen ++ text ++ "</span>" ≠ validBadge := by
  intro h
  have h1 := congrArg (fun t : String => t.data[59]?) h
  simp only [String.data_append, List.append_assoc] at h1
  rw [List.getElem?_append_left (by decide)] at h1
  revert h1
  decide

/-- C18, counterexample. The certificate `markupOwnerCertificate` is not valid
(`is_valid` is `false`, its status is `Expired`), and its owner field holds the
markup of the `Valid` badge.  `generateResultsHTML` renders a panel for it, and
that panel contains the `Valid` badge, at the place of the owner. -/
theorem generateResultsHTML_badge_without_validity :
    markupOwnerCertificate.get "is_valid" = .ok (.bool false)
    ∧ (JSVal.bool false).truthy = false
    ∧ markupOwnerCertificate.get "owner" = .ok (.str validBadge)
    ∧ generateResultsHTML markupOwnerCertificate = .ok (renderedPanel markupOwnerCertificate)
    ∧ renderedPanel markupOwnerCertificate
        = resultsTpl0 ++ "RW-2020-00045" ++ resultsTpl1 ++ "Freehold" ++ resultsTpl2
          ++ validBadge
          ++ resultsTpl3 ++ "2020-06-01" ++ resultsTpl4
          ++ (statusBadgeOpen ++ "Expired" ++ "</span>") ++ resultsTpl5
          ++ "2023-06-01" ++ resultsTpl6 ++ "" ++ resultsTpl7 ++ ""
          ++ resultsTpl8 ++ "/certificates/verify/RW-2020-00045/" ++ resultsTpl9
    ∧ validBadge.data <:+: (renderedPanel markupOwnerCertificate).data := by
  have hpanel : renderedPanel markupOwnerCertificate
      = resultsTpl0 ++ "RW-2020-00045" ++ resultsTpl1 ++ "Freehold" ++ resultsTpl2
        ++ validBadge
        ++ resultsTpl3 ++ "2020-06-01" ++ resultsTpl4
        ++ (statusBadgeOpen ++ "Expired" ++ "</span>") ++ resultsTpl5
        ++ "2023-06-01" ++ resultsTpl6 ++ "" ++ resultsTpl7 ++ ""
        ++ resultsTpl8 ++ "/certificates/verify/RW-2020-00045/" ++ resultsTpl9 := rfl
  refine ⟨rfl, rfl, rfl, rfl, hpanel, ?_⟩
  exact infix_of_eq_append
    (resultsTpl0 ++ "RW-2020-00045" ++ resultsTpl1 ++ "Freehold" ++ resultsTpl2)
    validBadge
    (resultsTpl3 ++ "2020-06-01" ++ resultsTpl4
      ++ (statusBadgeOpen ++ "Expired" ++ "</span>") ++ resultsTpl5
      ++ "2023-06-01" ++ resultsTpl6 ++ "" ++ resultsTpl7 ++ ""
      ++ resultsTpl8 ++ "/certificates/verify/RW-2020-00045/" ++ resultsTpl9)
    (renderedPanel markupOwnerCertificate)
    (by rw [hpanel]; simp only [String.append_assoc])

/-- C18, amended. Every panel `generateResultsHTML` renders starts with the
first piece of the template followed by the text of `certificate.number`, so it
contains that text; and the content of its status cell, the text between the
template pieces `resultsTpl4` and `resultsTpl5`, is the green badge `Valid`
if and only if `certificate.is_valid` is truthy: otherwise it is the red badge
around the text of `certificate.status`.  So the panel contains the `Valid`
badge whenever `is_valid` is truthy. -/
theorem generateResultsHTML_number_and_badge (certificate : JSVal) (html : String)
    (h : generateResultsHTML certificate = .ok html) :
    ∃ (number is_valid status : JSVal) (details rest : String),
      certificate.get "number" = .ok number
      ∧ certificate.get "is_valid" = .ok is_valid
      ∧ certificate.get "status" = .ok status
      ∧ html = resultsTpl0 ++ number.toStr ++ details ++ resultsTpl4
          ++ (if is_valid.truthy then validBadge
              else statusBadgeOpen ++ status.toStr ++ "</span>")
          ++ resultsTpl5 ++ rest
      ∧ ((if is_valid.truthy then validBadge
            else statusBadgeOpen ++ status.toStr ++ "</span>") = validBadge
          ↔ is_valid.truthy = true)
      ∧ number.toStr.data <:+: html.data
      ∧ (if is_valid.truthy then validBadge
          else statusBadgeOpen ++ status.toStr ++ "</span>").data <:+: html.data
      ∧ validBadge
          = "<span class=\"px-3 py-1 text-sm font-medium rounded-full bg-green-100 text-green-800\">Valid</span>"
      ∧ statusBadgeOpen
          = "<span class=\"px-3 py-1 text-sm font-medium rounded-full bg-red-100 text-red-800\">" := by
  have h0 := h
  unfold generateResultsHTML at h
  obtain ⟨number, hnum, h⟩ := bind_eq_ok h
  obtain ⟨numberText, hp1, h⟩ := bind_eq_ok h
  obtain ⟨type, htype, h⟩ := bind_eq_ok h
  obtain ⟨typeText, hp2, h⟩ := bind_eq_ok h
  obtain ⟨owner, hown, h⟩ := bind_eq_ok h
  obtain ⟨ownerText, hp3, h⟩ := bind_eq_ok h
  obtain ⟨issue_date, hiss, h⟩ := bind_eq_ok h
  obtain ⟨issueText, hp4, h⟩ := bind_eq_ok h
  obtain ⟨badge, hbadge, h⟩ := bind_eq_ok h
  obtain ⟨expiry_date, hexp, h⟩ := bind_eq_ok h
  obtain ⟨expiryText, hp5, h⟩ := bind_eq_ok h
  obtain ⟨property, hprop, h⟩ := bind_eq_ok h
  obtain ⟨signatures, hsig, h⟩ := bind_eq_ok h
  obtain ⟨url, hurl, h⟩ := bind_eq_ok h
  obtain ⟨urlText, hp6, h⟩ := bind_eq_ok h
  have hhtml := Except.ok.inj h
  obtain ⟨status, hst⟩ := get_ok_of_get_ok hnum "status"
  unfold statusBadge at hbadge
  obtain ⟨is_valid, hval, hbadge⟩ := bind_eq_ok hbadge
  have hcell : badge = (if is_valid.truthy then validBadge
      else statusBadgeOpen ++ status.toStr ++ "</span>") := by
    by_cases hv : is_valid.truthy = true
    · rw [if_pos hv] at hbadge ⊢
      exact (Except.ok.inj hbadge).symm
    · rw [if_neg hv] at hbadge ⊢
      obtain ⟨status', hst', hbadge⟩ := bind_eq_ok hbadge
      obtain ⟨statusText, hp7, hbadge⟩ := bind_eq_ok hbadge
      have hs : status' = status := Except.ok.inj (hst'.symm.trans hst)
      rw [← hs, ← print_eq_ok hp7]
      exact (Except.ok.inj hbadge).symm
  rw [print_eq_ok hp1, hcell] at hhtml
  have heq : html = resultsTpl0 ++ number.toStr
      ++ (resultsTpl1 ++ typeText ++ resultsTpl2 ++ ownerText ++ resultsTpl3 ++ issueText)
      ++ resultsTpl4
      ++ (if is_valid.truthy then validBadge
          else statusBadgeOpen ++ status.toStr ++ "</span>")
      ++ resultsTpl5
      ++ (expiryText ++ resultsTpl6 ++ property ++ resultsTpl7 ++ signatures
        ++ resultsTpl8 ++ urlText ++ resultsTpl9) := by
    rw [← hhtml]
    simp only [String.append_assoc]
  refine ⟨number, is_valid, status, _, _, hnum, hval, hst, heq, ?_, ?_, ?_, rfl, rfl⟩
  · by_cases hv : is_valid.truthy = true
    · simp [hv]
    · rw [if_neg hv]
      exact ⟨fun hne => absurd hne (statusBadge_ne_validBadge status.toStr),
        fun ht => absurd ht hv⟩
  · exact infix_of_eq_append resultsTpl0 number.toStr
      ((resultsTpl1 ++ typeText ++ resultsTpl2 ++ ownerText ++ resultsTpl3 ++ issueText)
        ++ resultsTpl4
        ++ (if is_valid.truthy then validBadge
            else statusBadgeOpen ++ status.toStr ++ "</span>")
        ++ resultsTpl5
        ++ (expiryText ++ resultsTpl6 ++ property ++ resultsTpl7 ++ signatures
          ++ resultsTpl8 ++ urlText ++ resultsTpl9)) html
      (by rw [heq]; simp only [String.append_assoc])
  · exact infix_of_eq_append
      (resultsTpl0 ++ number.toStr
        ++ (resultsTpl1 ++ typeText ++ resultsTpl2 ++ ownerText ++ resultsTpl3 ++ issueText)
        ++ resultsTpl4)
      (if is_valid.truthy then validBadge
        else statusBadgeOpen ++ status.toStr ++ "</span>")
      (resultsTpl5
        ++ (expiryText ++ resultsTpl6 ++ property ++ resultsTpl7 ++ signatures
          ++ resultsTpl8 ++ urlText ++ resultsTpl9)) html
      (by rw [heq]; simp only [String.append_assoc])

/-- Witness of C18: the certificate `RW-2024-00123`, valid. -/
theorem generateResultsHTML_number_and_badge_witness :
    ∃ (number is_valid status : JSVal) (details rest : String),
      sampleCertificate.get "number" = .ok number
      ∧ sampleCertificate.get "is_valid" = .ok is_valid
      ∧ sampleCertificate.get "status" = .ok status
      ∧ renderedPanel sampleCertificate = resultsTpl0 ++ number.toStr ++ details ++ resultsTpl4
          ++ (if is_valid.truthy then validBadge
              else statusBadgeOpen ++ status.toStr ++ "</span>")
          ++ resultsTpl5 ++ rest
      ∧ ((if is_valid.truthy then validBadge
            else statusBadgeOpen ++ status.toStr ++ "</span>") = validBadge
          ↔ is_valid.truthy = true)
      ∧ number.toStr.data <:+: (renderedPanel sampleCertificate).data
      ∧ (if is_valid.truthy then validBadge
          else statusBadgeOpen ++ status.toStr ++ "</span>").data
          <:+: (renderedPanel sampleCertificate).data
      ∧ validBadge
          = "<span class=\"px-3 py-1 text-sm font-medium rounded-full bg-green-100 text-green-800\">Valid</span>"
      ∧ statusBadgeOpen
          = "<span class=\"px-3 py-1 text-sm font-medium rounded-full bg-red-100 text-red-800\">" :=
  generateResultsHTML_number_and_badge sampleCertificate (renderedPanel sampleCertificate) rfl

end CertificateVerifier

end DLRMS

namespace DLRMS

/-! ## Splitting and trimming -/

theorem isPrefixOf_cons_ne (h c : Char) (tail rest : List Char) (hne : c ≠ h) :
    (h :: tail).isPrefixOf (c :: rest) = false := by
  simp [List.isPrefixOf, hne.symm]

/-- A piece without the first character of the separator is read in one go. -/
theorem splitAux_piece (h : Char) (tail : List Char) (piece : List Char) :
    (∀ c ∈ piece, c ≠ h) → ∀ (rest cur : List Char),
      splitAux (h :: tail) (piece ++ rest) cur 0
        = splitAux (h :: tail) rest (piece.reverse ++ cur) 0 := by
  induction piece with
  | nil => intro _ rest cur; rfl
  | cons c piece ih =>
    intro hp rest cur
    have hc : c ≠ h := hp c (by simp)
    have hp' : ∀ d ∈ piece, d ≠ h := fun d hd => hp d (by simp [hd])
    have step := ih hp' rest (c :: cur)
    rw [List.cons_append]
    simp only [splitAux, isPrefixOf_cons_ne h c tail _ hc]
    simpa using step

theorem trimChars_plain (cs : List Char) (h : ∀ c ∈ cs, isJSWhitespace c = false) :
    trimChars cs = cs := by
  have drop : ∀ l : List Char, (∀ c ∈ l, isJSWhitespace c = false) →
      l.dropWhile isJSWhitespace = l := by
    intro l hl
    cases l with
    | nil => rfl
    | cons c l => simp [List.dropWhile, hl c (by simp)]
  unfold trimChars
  rw [drop cs h, drop cs.reverse (fun c hc => h c (List.mem_reverse.mp hc))]
  simp

theorem trimChars_space_plain (cs : List Char) (h : ∀ c ∈ cs, isJSWhitespace c = false) :
    trimChars (' ' :: cs) = cs := by
  have h1 : (' ' :: cs).dropWhile isJSWhitespace = cs.dropWhile isJSWhitespace := by
    have : isJSWhitespace ' ' = true := by decide
    simp [List.dropWhile, this]
  have h2 := trimChars_plain cs h
  unfold trimChars at h2 ⊢
  rw [h1]
  exact h2

/-- A list that starts with `key` followed by `x`, read as `name` followed by
`x`, has `name = key` when `x` occurs in neither. -/
theorem name_eq_of_starts (x : Char) (key : List Char) :
    x ∉ key → ∀ (name rest : List Char), x ∉ name →
      key ++ [x] <+: name ++ x :: rest → name = key := by
  induction key with
  | nil =>
    intro _ name rest hname hpre
    cases name with
    | nil => rfl
    | cons c name =>
      have hc : x = c := (List.cons_prefix_cons.mp hpre).1
      exact absurd hc (fun h => hname (by simp [h]))
  | cons k key ih =>
    intro hkey name rest hname hpre
    have hk : x ≠ k := fun h => hkey (by simp [h])
    have hkey' : x ∉ key := fun h => hkey (by simp [h])
    cases name with
    | nil =>
      have := (List.cons_prefix_cons.mp hpre).1
      exact absurd this.symm hk
    | cons c name =>
      have hname' : x ∉ name := fun h => hname (by simp [h])
      obtain ⟨hkc, hrest⟩ := List.cons_prefix_cons.mp hpre
      rw [hkc, ih hkey' name rest hname' hrest]

theorem pctRun_plain (cs : List Char) :
    (∀ c ∈ cs, c ≠ '%') → ∀ acc : List Char,
      pctRun cs (acc, .plain) = .ok (acc.reverse ++ cs) := by
  induction cs with
  | nil => intro _ acc; simp [pctRun]
  | cons c cs ih =>
    intro h acc
    have hc : c ≠ '%' := h c (by simp)
    have h' : ∀ d ∈ cs, d ≠ '%' := fun d hd => h d (by simp [hd])
    simp [pctRun, pctStep, hc, ih h' (c :: acc)]

theorem decodeURIComponent_plain (s : String) (h : ∀ c ∈ s.data, c ≠ '%') :
    decodeURIComponent s = .ok s := by
  simp [decodeURIComponent, pctRun_plain s.data h, Except.map]

/-! ## The two readers of the CSRF cookie on a jar -/

theorem cookiePiece_data (c : String × String) :
    (cookiePiece c).data = c.1.data ++ '=' :: c.2.data := by
  simp [cookiePiece, String.data_append]

theorem plainCookie_piece (c : String × String) (h : plainCookie c = true) :
    (∀ ch ∈ (cookiePiece c).data, ch ≠ ';')
    ∧ (∀ ch ∈ (cookiePiece c).data, isJSWhitespace ch = false)
    ∧ '=' ∉ c.1.data := by
  simp only [plainCookie, plainText, Bool.and_eq_true, List.all_eq_true, bne_iff_ne, ne_eq,
    Bool.not_eq_true'] at h
  obtain ⟨⟨h1, h2⟩, h3⟩ := h
  refine ⟨?_, ?_, fun hmem => h3 _ hmem rfl⟩
  · intro ch hch
    rw [cookiePiece_data] at hch
    rcases List.mem_append.mp hch with hn | hv
    · exact (h1 ch hn).1
    · rcases List.mem_cons.mp hv with he | hv
      · rw [he]; decide
      · exact (h2 ch hv).1
  · intro ch hch
    rw [cookiePiece_data] at hch
    rcases List.mem_append.mp hch with hn | hv
    · exact (h1 ch hn).2
    · rcases List.mem_cons.mp hv with he | hv
      · rw [he]; decide
      · exact (h2 ch hv).2

theorem cookieString_cons_cons (c next : String × String) (rest : List (String × String)) :
    (cookieString (c :: next :: rest)).data
      = (cookiePiece c).data ++ ';' :: ' ' :: (cookieString (next :: rest)).data := by
  simp [cookieString, String.data_append]

/-- Splitting at `; ` gives back the pieces. -/
theorem split_semicolon_space (rest : List (String × String)) :
    ∀ (c : String × String) (cur : List Char),
      (∀ c' ∈ c :: rest, plainCookie c' = true) →
      splitAux [';', ' '] (cookieString (c :: rest)).data cur 0
        = (cur.reverse ++ (cookiePiece c).data) :: rest.map (fun c' => (cookiePiece c').data) := by
  induction rest with
  | nil =>
    intro c cur hplain
    have hp := (plainCookie_piece c (hplain c (by simp))).1
    have := splitAux_piece ';' [' '] (cookiePiece c).data hp [] cur
    simp only [List.append_nil] at this
    simp [cookieString, this, splitAux]
  | cons next rest ih =>
    intro c cur hplain
    have hp := (plainCookie_piece c (hplain c (by simp))).1
    rw [cookieString_cons_cons, splitAux_piece ';' [' '] (cookiePiece c).data hp]
    have hnext := ih next [] (fun c' hc' => hplain c' (by simp [List.mem_cons.mp hc']))
    simp only [splitAux, List.isPrefixOf, beq_self_eq_true, Bool.and_self, Bool.true_and,
      if_true, List.length_cons, List.length_nil]
    simpa using hnext

/-- Splitting at `;` gives the first piece and every other piece behind a blank. -/
theorem split_semicolon (rest : List (String × String)) :
    ∀ (c : String × String) (cur : List Char),
      (∀ c' ∈ c :: rest, plainCookie c' = true) →
      splitAux [';'] (cookieString (c :: rest)).data cur 0
        = (cur.reverse ++ (cookiePiece c).data)
          :: rest.map (fun c' => ' ' :: (cookiePiece c').data) := by
  induction rest with
  | nil =>
    intro c cur hplain
    have hp := (plainCookie_piece c (hplain c (by simp))).1
    have := splitAux_piece ';' [] (cookiePiece c).data hp [] cur
    simp only [List.append_nil] at this
    simp [cookieString, this, splitAux]
  | cons next rest ih =>
    intro c cur hplain
    have hp := (plainCookie_piece c (hplain c (by simp))).1
    rw [cookieString_cons_cons, splitAux_piece ';' [] (cookiePiece c).data hp]
    have hnext := ih next [' '] (fun c' hc' => hplain c' (by simp [List.mem_cons.mp hc']))
    have hblank : ([';'] : List Char).isPrefixOf (' ' :: (cookieString (next :: rest)).data)
        = false := isPrefixOf_cons_ne ';' ' ' [] _ (by decide)
    simp only [splitAux, List.isPrefixOf, beq_self_eq_true, Bool.and_self, Bool.true_and,
      if_true, List.length_cons, List.length_nil]
    simpa [splitAux, hblank] using hnext

theorem csrfKey_data : ("csrftoken=" : String).data = ("csrftoken" : String).data ++ ['='] := by
  decide

/-- A piece starts with `csrftoken=` exactly when its name is `csrftoken`. -/
theorem startsWith_csrf_iff (c : String × String) (hname : '=' ∉ c.1.data) :
    ("csrftoken=" : String).data <+: (cookiePiece c).data ↔ c.1 = "csrftoken" := by
  constructor
  · intro h
    rw [cookiePiece_data, csrfKey_data] at h
    exact String.ext (name_eq_of_starts '=' ("csrftoken" : String).data (by decide) c.1.data
      c.2.data hname h)
  · intro h
    rw [cookiePiece_data, h, csrfKey_data]
    exact ⟨c.2.data, by simp⟩

theorem jsStartsWith_csrf (c : String × String) (hname : '=' ∉ c.1.data) :
    jsStartsWith (cookiePiece c) "csrftoken=" = decide (c.1 = "csrftoken") := by
  by_cases h : c.1 = "csrftoken"
  · simp only [h, decide_True]
    exact List.isPrefixOf_iff_prefix.mpr ((startsWith_csrf_iff c hname).mpr h)
  · simp only [h, decide_False]
    cases hb : jsStartsWith (cookiePiece c) "csrftoken=" with
    | false => rfl
    | true =>
      exact absurd ((startsWith_csrf_iff c hname).mp (List.isPrefixOf_iff_prefix.mp hb)) h

theorem substringTo_csrf (c : String × String) (hname : '=' ∉ c.1.data) :
    jsSubstringTo (cookiePiece c) ("csrftoken".length + 1) = "csrftoken" ++ "="
      ↔ c.1 = "csrftoken" := by
  constructor
  · intro h
    have hd : (cookiePiece c).data.take 10 = ("csrftoken=" : String).data := by
      have := congrArg String.data h
      simpa [jsSubstringTo] using this
    exact (startsWith_csrf_iff c hname).mp (hd ▸ List.take_prefix _ _)
  · intro h
    apply String.ext
    obtain ⟨name, value⟩ := c
    simp only at h
    subst h
    rfl

theorem substringFrom_csrf (value : String) :
    jsSubstringFrom (cookiePiece ("csrftoken", value)) ("csrftoken".length + 1) = value := rfl

theorem split_value (value : String) (hvalue : ∀ ch ∈ value.data, ch ≠ '=') :
    jsSplit (cookiePiece ("csrftoken", value)) "=" = ["csrftoken", value] := by
  have h1 := splitAux_piece '=' [] ['c', 's', 'r', 'f', 't', 'o', 'k', 'e', 'n'] (by decide)
    ('=' :: value.data) []
  have h2 := splitAux_piece '=' [] value.data hvalue [] []
  simp only [List.append_nil] at h2
  simp only [jsSplit, cookiePiece_data]
  rw [h1]
  simp only [splitAux, List.isPrefixOf, beq_self_eq_true, Bool.and_self, Bool.true_and, if_true,
    List.length_cons, List.length_nil]
  simp [h2, splitAux]

theorem getCSRFToken_eq (cookie : String) :
    CertificateVerifier.getCSRFToken cookie = tokenOfRows (jsSplit cookie "; ") := rfl

/-- The reader of `CertificateVerifier` on the pieces of a jar. -/
theorem tokenOfRows_jar (jar : List (String × String)) :
    (∀ c ∈ jar, plainCookie c = true) →
    ((csrfValue jar).getD "").data.all (fun ch => ch != '=') = true →
    tokenOfRows (jar.map cookiePiece) = (csrfValue jar).getD "" := by
  induction jar with
  | nil => intro _ _; rfl
  | cons c rest ih =>
    intro hplain hvalue
    obtain ⟨name, value⟩ := c
    have hname := (plainCookie_piece (name, value) (hplain _ (by simp))).2.2
    have hstart := jsStartsWith_csrf (name, value) hname
    by_cases hn : name = "csrftoken"
    · subst hn
      have hv : ∀ ch ∈ value.data, ch ≠ '=' := by
        simpa [csrfValue] using hvalue
      simp only [decide_True] at hstart
      simp only [tokenOfRows, List.map_cons, List.find?_cons, hstart, split_value value hv,
        csrfValue, if_true, Option.getD_some]
      by_cases he : value = ""
      · simp [he]
      · simp [he]
    · simp only [hn, decide_False] at hstart
      have hrest := ih (fun c' hc' => hplain c' (by simp [hc']))
        (by simpa [csrfValue, hn] using hvalue)
      simp only [tokenOfRows, List.map_cons, List.find?_cons, hstart, csrfValue, hn, if_false]
        at hrest ⊢
      exact hrest

/-- The reader of `UserManagement` on rows that trim to the pieces of a jar. -/
theorem findCookie_jar (jar : List (String × String)) :
    (∀ c ∈ jar, plainCookie c = true) →
    ∀ rows : List String, List.Forall₂ (fun row c => jsTrim row = cookiePiece c) rows jar →
      UserManagement.findCookie "csrftoken" rows = csrfCookieValue jar := by
  induction jar with
  | nil =>
    intro _ rows hrows
    cases hrows
    rfl
  | cons c rest ih =>
    intro hplain rows hrows
    cases hrows with
    | cons hrow htail =>
      obtain ⟨name, value⟩ := c
      have hname := (plainCookie_piece (name, value) (hplain _ (by simp))).2.2
      have hsub := substringTo_csrf (name, value) hname
      by_cases hn : name = "csrftoken"
      · subst hn
        simp only [UserManagement.findCookie, hrow, hsub.mpr rfl, if_true, substringFrom_csrf,
          csrfCookieValue, csrfValue]
      · have hno : ¬ jsSubstringTo (cookiePiece (name, value)) ("csrftoken".length + 1)
            = "csrftoken" ++ "=" := fun h => hn (hsub.mp h)
        simp only [UserManagement.findCookie, hrow, hno, if_false]
        rw [ih (fun c' hc' => hplain c' (by simp [hc'])) _ htail]
        simp [csrfCookieValue, csrfValue, hn]

theorem jsTrim_piece (c : String × String) (h : plainCookie c = true) :
    jsTrim (cookiePiece c) = cookiePiece c := by
  apply String.ext
  simp only [jsTrim]
  exact trimChars_plain _ (plainCookie_piece c h).2.1

theorem jsTrim_blank_piece (c : String × String) (h : plainCookie c = true) :
    jsTrim ⟨' ' :: (cookiePiece c).data⟩ = cookiePiece c := by
  apply String.ext
  simp only [jsTrim]
  exact trimChars_space_plain _ (plainCookie_piece c h).2.1

theorem cookieString_ne_empty (c : String × String) (rest : List (String × String)) :
    cookieString (c :: rest) ≠ "" := by
  intro h
  have hd := congrArg String.data h
  cases rest with
  | nil =>
    rw [cookieString, cookiePiece_data] at hd
    simp at hd
  | cons next rest =>
    rw [cookieString_cons_cons, cookiePiece_data] at hd
    simp at hd

/-- C19, counterexample. For the cookie `csrftoken=abc=def` the reader of
`CertificateVerifier` stops at the second `=` and gives `abc`, the reader of
`UserManagement` gives the full value `abc=def`; for `csrftoken=a%20b` the
first gives the value as it stands, the second decodes it to `a b`. -/
theorem csrf_readers_differ :
    CertificateVerifier.getCSRFToken "csrftoken=abc=def" = "abc"
    ∧ UserManagement.getCookie "csrftoken=abc=def" "csrftoken" = .ok (.str "abc=def")
    ∧ CertificateVerifier.getCSRFToken "csrftoken=a%20b" = "a%20b"
    ∧ UserManagement.getCookie "csrftoken=a%20b" "csrftoken" = .ok (.str "a b") :=
  ⟨rfl, rfl, rfl, rfl⟩

/-- C19, amended. For a `document.cookie` made of plain cookies joined by
`; `, in which the value of the cookie `csrftoken` has no `=`, both readers
pick the first cookie named exactly `csrftoken` and no cookie whose name only
contains or extends that name: `getCSRFToken()` gives its value, or `''` when
there is none; `getCookie('csrftoken')` gives its value with the percent
escapes decoded, or `null` when there is none.  When the value has no `%`
either, the two give the same token. -/
theorem csrf_readers_agree (jar : List (String × String))
    (hplain : ∀ c ∈ jar, plainCookie c = true)
    (hvalue : ((csrfValue jar).getD "").data.all (fun ch => ch != '=') = true) :
    CertificateVerifier.getCSRFToken (cookieString jar) = (csrfValue jar).getD ""
    ∧ UserManagement.getCookie (cookieString jar) "csrftoken" = csrfCookieValue jar
    ∧ ∀ value : String, csrfValue jar = some value → (∀ ch ∈ value.data, ch ≠ '%') →
        CertificateVerifier.getCSRFToken (cookieString jar) = value
        ∧ UserManagement.getCookie (cookieString jar) "csrftoken" = .ok (.str value) := by
  have htoken : CertificateVerifier.getCSRFToken (cookieString jar) = (csrfValue jar).getD "" := by
    cases jar with
    | nil => rfl
    | cons c rest =>
      rw [getCSRFToken_eq, ← tokenOfRows_jar (c :: rest) hplain hvalue]
      congr 1
      have hsplit := split_semicolon_space rest c [] hplain
      have hsep : ("; " : String).data = [';', ' '] := rfl
      simp only [jsSplit, hsep, hsplit, List.reverse_nil, List.nil_append, List.map_cons,
        List.map_map]
      rfl
  have hcookie : UserManagement.getCookie (cookieString jar) "csrftoken"
      = csrfCookieValue jar := by
    cases jar with
    | nil => rfl
    | cons c rest =>
      have hne : (cookieString (c :: rest) != "") = true := by
        simpa using cookieString_ne_empty c rest
      have hsplit := split_semicolon rest c [] hplain
      have hsep : (";" : String).data = [';'] := rfl
      simp only [UserManagement.getCookie, hne, if_true, jsSplit, hsep, hsplit,
        List.reverse_nil, List.nil_append, List.map_cons, List.map_map]
      apply findCookie_jar (c :: rest) hplain
      refine List.Forall₂.cons (jsTrim_piece c (hplain c (by simp))) ?_
      have hrest : ∀ c' ∈ rest, plainCookie c' = true := fun c' hc' => hplain c' (by simp [hc'])
      clear hsplit hne hvalue htoken hplain
      induction rest with
      | nil => exact List.Forall₂.nil
      | cons next rest ih =>
        exact List.Forall₂.cons (jsTrim_blank_piece next (hrest next (by simp)))
          (ih (fun c' hc' => hrest c' (by simp [hc'])))
  refine ⟨htoken, hcookie, fun value hsome hpct => ⟨?_, ?_⟩⟩
  · rw [htoken, hsome]; rfl
  · rw [hcookie]
    simp [csrfCookieValue, hsome, decodeURIComponent_plain value hpct, Except.map]

/-- Witness of the amended C19: a jar with `xcsrftoken` and `csrftoken2` in
front of `csrftoken`. -/
theorem csrf_readers_agree_witness :
    CertificateVerifier.getCSRFToken (cookieString sampleJar) = (csrfValue sampleJar).getD ""
    ∧ UserManagement.getCookie (cookieString sampleJar) "csrftoken" = csrfCookieValue sampleJar
    ∧ ∀ value : String, csrfValue sampleJar = some value → (∀ ch ∈ value.data, ch ≠ '%') →
        CertificateVerifier.getCSRFToken (cookieString sampleJar) = value
        ∧ UserManagement.getCookie (cookieString sampleJar) "csrftoken" = .ok (.str value) :=
  csrf_readers_agree sampleJar (by decide) (by decide)

end DLRMS
